import Mathlib

/-!
# StackBlox engine: handlers over an explicit container-runtime / storage world

The handlers of `pkg/projects`, `pkg/databases` and `pkg/functions` are embedded as
functions that thread an abstract world state and append every external call
(with the outcome the world gave) and every HTTP reply to a trace.
-/

namespace StackBlox

/-! ## Data model (`models/*.go`) -/

/-- Row of `models.Function`; the timestamps are held in their printed form and
`ProjectNetworkName` is the network name of the preloaded `Project`. -/
structure Function where
  ID : String := ""
  CreatedAt : String := ""
  UpdatedAt : String := ""
  Name : String := ""
  Description : String := ""
  FunctionId : String := ""
  Version : String := ""
  ProjectId : String := ""
  ProjectNetworkName : String := ""
  Language : String := ""
  Main : String := ""
deriving DecidableEq, Repr

/-- Row of `models.Database`; the timestamps are held in their printed form and `Type_`
is the Go field `Type`, a `DbType` string. -/
structure Database where
  ID : String := ""
  CreatedAt : String := ""
  UpdatedAt : String := ""
  Name : String := ""
  Type_ : String := ""
  Username : String := ""
  Password : String := ""
  ContainerId : String := ""
  ProjectId : String := ""
  VolumeName : String := ""
  ImageVersion : String := ""
deriving DecidableEq, Repr

/-- Row of `models.Project` with its preloaded children. -/
structure Project where
  ID : String := ""
  Name : String := ""
  NetworkName : String := ""
  Functions : List Function := []
  Databases : List Database := []
deriving DecidableEq, Repr

/-- The bound body of `models.CreateProjectDTO`. -/
structure CreateProjectDTO where
  Name : String
deriving DecidableEq, Repr

/-- The bound body of `models.CreateDatabaseDTO` (`Type_` is the Go field `Type`). -/
structure CreateDatabaseDTO where
  Type_ : String
  Name : String
  Version : String
deriving DecidableEq, Repr

/-- The only member of the `DbType` enumeration. -/
def Postgres : String := "postgres"

/-! ## External calls, outcomes, trace -/

/-- Every call the handlers make on a collaborator: the Docker client, the gorm store,
`crypto/rand`, `cuid`, `uuid`, `time.Sleep`, the HTTP client, the environment, the file
system, the archive and template libraries. -/
inductive Call where
  | networkCreate (name : String)
  | networkRemove (ref : String)
  | networkInspect (name : String)
  | imageRemove (ref : String) (force pruneChildren : Bool)
  | imagePull (ref : String)
  | imagePullDrain (ref : String)
  | volumeCreate (driver name : String)
  | dbContainerCreate (image : String) (env : List String) (mountSource mountTarget : String)
      (networkMode restartPolicy name : String)
  | fnContainerCreate (image : String) (env : List String) (networkMode name : String)
  | containerStart (id : String)
  | containerStop (id : String)
  | containerRemove (id : String) (force removeVolumes : Bool)
  | containerInspect (id : String)
  | dbCreateProject (row : Project)
  | dbDeleteProject (row : Project)
  | dbCountDatabases (name projectId : String)
  | dbCreateDatabase (row : Database)
  | dbFirstFunction (functionId projectId : String)
  | randRead (n : Nat)
  | cuidNew
  | sleep (ms : Nat)
  | httpGet (url : String)
  | httpForward (url : String)
  | dbSaveProject (row : Project)
  | uuidNewString
  | getenv (key : String)
  | saveUploadedFile (file dst : String)
  | readFile (path : String)
  | extractGz (data dst : String)
  | templateParseFiles (name path : String)
  | templateExecute (name : String) (data : List String)
  | writeFile (path content : String)
  | tarWithOptions (path : String)
  | imageBuild (context : String) (tags : List String)
  | dbUpsertFunction (row : Function)
  | dbReadFunction (row : Function)
  | removeAll (path : String)
  | remove (path : String)
  | dbFirstProjectById (id : String)
  | dbFirstProjectByName (name : String)
deriving DecidableEq, Repr

/-- What a call hands back, in Go style: an error (`none` is `nil`) next to the returned
values, each at its zero value unless the call fills it. -/
structure Outcome where
  err : Option String := none
  str : String := ""
  num : Nat := 0
  bytes : List Nat := []
  list : List String := []
  fn : Function := {}
  project : Project := {}
deriving DecidableEq, Repr

/-- JSON payload of a success reply. -/
inductive Data where
  | null
  | fields (kv : List (String × String))
  | project (p : Project)
  | metadata (f : Function)
deriving DecidableEq, Repr

/-- What a handler writes to the gin context. -/
inductive Reply where
  | error (code : Nat) (err help : String)
  | success (code : Nat) (message : String) (data : Data)
  | proxied (code : Nat) (body : String)
deriving DecidableEq, Repr

/-- One entry of the trace of a handler run. -/
inductive Event where
  | call (c : Call) (o : Outcome)
  | reply (r : Reply)
  | spawnStopAndRemove (containerId : String)
deriving DecidableEq, Repr

/-- The collaborators as a transition system: a call in a state gives an outcome and the
next state. -/
structure World (σ : Type) where
  step : σ → Call → Outcome × σ

/-- State threaded through a handler: the world and the trace so far. -/
structure St (σ : Type) where
  world : σ
  trace : List Event

/-- Result of a handler run; `panicked` holds the Go runtime panic, if any (the
`gin.Recovery` middleware of `main.go` then answers a bare 500). -/
structure Run (σ : Type) where
  world : σ
  trace : List Event
  panicked : Option String := none

/-- Perform one external call and record it. -/
def perform {σ : Type} (w : World σ) (st : St σ) (c : Call) : Outcome × St σ :=
  let r := w.step st.world c
  (r.1, { world := r.2, trace := st.trace ++ [Event.call c r.1] })

/-- Handler returns normally. -/
def done {σ : Type} (st : St σ) : Run σ :=
  { world := st.world, trace := st.trace }

/-- Handler dies with a runtime panic. -/
def panicWith {σ : Type} (st : St σ) (msg : String) : Run σ :=
  { world := st.world, trace := st.trace, panicked := some msg }

/-! ## `utils/gin.go` -/

/-- `utils.JsonError`: `err.Error()` is evaluated while building the body, so a nil
`err` is a nil dereference before anything is written. -/
def JsonError {σ : Type} (st : St σ) (code : Nat) (err : Option String) (help : String) :
    Except String (St σ) :=
  match err with
  | none => Except.error "invalid memory address or nil pointer dereference"
  | some e => Except.ok { st with trace := st.trace ++ [Event.reply (Reply.error code e help)] }

/-- `utils.JsonSuccessH`. -/
def JsonSuccessH {σ : Type} (st : St σ) (code : Nat) (message : String) (data : Data) : St σ :=
  { st with trace := st.trace ++ [Event.reply (Reply.success code message data)] }

/-- `utils.HandleError`: reports and returns true exactly when `err` is not nil. -/
def HandleError {σ : Type} (st : St σ) (code : Nat) (err : Option String) (message : String) :
    Except String (Bool × St σ) :=
  match err with
  | some e =>
    match JsonError st code (some e) message with
    | Except.error p => Except.error p
    | Except.ok st1 => Except.ok (true, st1)
  | none => Except.ok (false, st)

/-- Finish a handler on the result of `JsonError`. -/
def finish {σ : Type} (st : St σ) (r : Except String (St σ)) : Run σ :=
  match r with
  | Except.error p => panicWith st p
  | Except.ok st1 => done st1

/-! ## `utils/context.go` -/

/-- `utils.GetProjectFromContext`: the unchecked type assertion panics when the key was
never set. -/
def GetProjectFromContext (ctx : Option Project) : Except String (Project × Bool) :=
  match ctx with
  | none => Except.error "interface conversion: interface \x7b\x7d is nil, not *models.Project"
  | some p => Except.ok (p, true)

/-! ## Trace observations -/

/-- The external calls of a trace, in order. -/
def calls (es : List Event) : List Call :=
  es.filterMap (fun e => match e with
    | Event.call c _ => some c
    | _ => none)

/-- The calls of a trace with their outcomes, in order. -/
def callEvents (es : List Event) : List (Call × Outcome) :=
  es.filterMap (fun e => match e with
    | Event.call c o => some (c, o)
    | _ => none)

/-- The replies written during a trace, in order. -/
def replies (es : List Event) : List Reply :=
  es.filterMap (fun e => match e with
    | Event.reply r => some r
    | _ => none)

/-- Trace entries for a list of calls with their outcomes. -/
def asEvents (ces : List (Call × Outcome)) : List Event :=
  ces.map (fun x => Event.call x.1 x.2)

/-! ## `pkg/projects/handlers.go`: DeleteProject -/

/-- First loop of `DeleteProject`: remove each function's image, stop at the first error. -/
def removeFunctionImages {σ : Type} (w : World σ) : List Function → St σ → Option String × St σ
  | [], st => (none, st)
  | f :: fs, st =>
    let r := perform w st (Call.imageRemove f.FunctionId true true)
    match r.1.err with
    | some e => (some e, r.2)
    | none => removeFunctionImages w fs r.2

/-- Second loop of `DeleteProject`: remove each database container, stop at the first
error. -/
def removeDatabaseContainers {σ : Type} (w : World σ) : List Database → St σ → Option String × St σ
  | [], st => (none, st)
  | d :: ds, st =>
    let r := perform w st (Call.containerRemove d.ContainerId true true)
    match r.1.err with
    | some e => (some e, r.2)
    | none => removeDatabaseContainers w ds r.2

/-- Handler `DeleteProject`. -/
def DeleteProject {σ : Type} (w : World σ) (ctx : Option Project) (s : σ) : Run σ :=
  let st0 : St σ := { world := s, trace := [] }
  match GetProjectFromContext ctx with
  | Except.error p => panicWith st0 p
  | Except.ok (p, found) =>
    if !found then
      finish st0 (JsonError st0 500 (some "record not found") "project cannot be found")
    else
      match removeFunctionImages w p.Functions st0 with
      | (some e, st1) => finish st1 (JsonError st1 500 (some e) "cannot remove docker image")
      | (none, st1) =>
        match removeDatabaseContainers w p.Databases st1 with
        | (some e, st2) =>
          finish st2 (JsonError st2 500 (some e) "cannot remove database container")
        | (none, st2) =>
          let r3 := perform w st2 (Call.networkRemove p.NetworkName)
          match r3.1.err with
          | some e => finish r3.2 (JsonError r3.2 500 (some e) "cannot remove project network")
          | none =>
            let r4 := perform w r3.2 (Call.dbDeleteProject p)
            match r4.1.err with
            | some e => finish r4.2 (JsonError r4.2 500 (some e) "cannot delete project")
            | none => done (JsonSuccessH r4.2 200 "project removed" Data.null)

/-- The full teardown sequence of `DeleteProject` for a project. -/
def deleteSteps (p : Project) : List Call :=
  p.Functions.map (fun f => Call.imageRemove f.FunctionId true true)
    ++ p.Databases.map (fun d => Call.containerRemove d.ContainerId true true)
    ++ [Call.networkRemove p.NetworkName, Call.dbDeleteProject p]

/-- A world whose next outcomes are read off a script; calls beyond the script succeed
with zero values. -/
def scripted : World (List Outcome) where
  step := fun s _ =>
    match s with
    | [] => ({}, [])
    | o :: rest => (o, rest)

/-- Outcome of a failed call. -/
def failWith (e : String) : Outcome := { err := some e }

/-- Outcome of a call that succeeds and returns zero values. -/
def noError : Outcome := {}

/-- A project with one function and one database. -/
def shopProject : Project :=
  { ID := "p1", Name := "shop", NetworkName := "net_shop",
    Functions := [{ Name := "hello", FunctionId := "hello", Version := "1.0.0", ProjectId := "p1" }],
    Databases := [{ Name := "orders_db", Type_ := "postgres", ContainerId := "db_c1",
                    VolumeName := "vol_db_c1", ProjectId := "p1" }] }

/-! ## `pkg/projects/handlers.go`: CreateProject -/

/-- The case converters of `github.com/iancoleman/strcase`, which is not part of the
repository: taken as parameters. -/
structure Strcase where
  ToKebab : String → String
  ToSnake : String → String
  ToScreamingSnake : String → String

/-- The `models.Project` value `CreateProject` builds from the request. -/
def newProject (lib : Strcase) (dto : CreateProjectDTO) : Project :=
  { Name := lib.ToKebab dto.Name, NetworkName := "net_" ++ lib.ToSnake dto.Name }

/-- Handler `CreateProject`; `bound` is the result of `c.ShouldBindJSON`. -/
def CreateProject {σ : Type} (lib : Strcase) (w : World σ)
    (bound : Except String CreateProjectDTO) (s : σ) : Run σ :=
  let st0 : St σ := { world := s, trace := [] }
  match bound with
  | Except.error e => finish st0 (JsonError st0 400 (some e) "cannot parse request")
  | Except.ok projectDto =>
    let project := newProject lib projectDto
    let r1 := perform w st0 (Call.networkCreate project.NetworkName)
    match r1.1.err with
    | some e =>
      finish r1.2 (JsonError r1.2 500 (some e) "cannot create network for the project")
    | none =>
      let r2 := perform w r1.2 (Call.dbCreateProject project)
      match r2.1.err with
      | some e =>
        let r3 := perform w r2.2 (Call.networkRemove r1.1.str)
        finish r3.2 (JsonError r3.2 500 (some e) "cannot create project")
      | none => done (JsonSuccessH r2.2 201 "project created" Data.null)

/-! ## Reference collaborators for the project lifecycle -/

/-- Networks held by the runtime, as (id, name), and project rows held by the store. -/
structure Sim where
  networks : List (String × String) := []
  projects : List Project := []
deriving DecidableEq, Repr

/-- An identifier longer than every identifier in use. -/
def freshId (used : List String) : String :=
  String.mk (List.replicate (1 + (used.map String.length).foldr max 0) 'n')

/-- Modelled from the spec: the container runtime and the relational store are external
collaborators, known here by their contract. Any call may fail: `fault` names, state by
state, the calls that fail and the error they return, and a failed call leaves the state
alone. Otherwise network creation hands out a fresh id and, when `checkDuplicate` is set,
rejects a name already in use; network removal resolves the reference as an id first, then
as a name; creating a project row enforces the two `unique` columns of `models.Project`
(name, network name) and assigns the row id; saving a project row enforces the same two
columns against the other rows and rewrites the row of that id (inserting it when there is
none); the two project lookups return the first row with that id, or with that name, and
fail when there is none. Every other call succeeds with zero values and leaves the state
alone. -/
def simWorld (fault : Sim → Call → Option String) (checkDuplicate : Bool) : World Sim where
  step := fun s c =>
    match fault s c with
    | some e => ({ err := some e }, s)
    | none =>
      match c with
      | Call.networkCreate name =>
        if checkDuplicate && s.networks.any (fun n => n.2 == name) then
          ({ err := some "network with name already exists" }, s)
        else
          let id := freshId (s.networks.map Prod.fst)
          ({ str := id }, { s with networks := s.networks ++ [(id, name)] })
      | Call.networkRemove ref =>
        if s.networks.any (fun n => n.1 == ref) then
          ({}, { s with networks := s.networks.filter (fun n => !(n.1 == ref)) })
        else if s.networks.any (fun n => n.2 == ref) then
          ({}, { s with networks := s.networks.filter (fun n => !(n.2 == ref)) })
        else
          ({ err := some "No such network" }, s)
      | Call.dbCreateProject row =>
        if s.projects.any (fun r => r.Name == row.Name || r.NetworkName == row.NetworkName) then
          ({ err := some "duplicate key value violates unique constraint" }, s)
        else
          let id := freshId (s.projects.map (fun r => r.ID))
          ({ str := id }, { s with projects := s.projects ++ [{ row with ID := id }] })
      | Call.dbSaveProject row =>
        if s.projects.any (fun r => !(r.ID == row.ID)
            && (r.Name == row.Name || r.NetworkName == row.NetworkName)) then
          ({ err := some "duplicate key value violates unique constraint" }, s)
        else if s.projects.any (fun r => r.ID == row.ID) then
          ({}, { s with projects := s.projects.map (fun r => if r.ID == row.ID then row else r) })
        else
          ({}, { s with projects := s.projects ++ [row] })
      | Call.dbFirstProjectById id =>
        match s.projects.find? (fun r => r.ID == id) with
        | some r => ({ project := r }, s)
        | none => ({ err := some "record not found" }, s)
      | Call.dbFirstProjectByName name =>
        match s.projects.find? (fun r => r.Name == name) with
        | some r => ({ project := r }, s)
        | none => ({ err := some "record not found" }, s)
      | _ => ({}, s)

/-- No call fails on its own. -/
def noFaults : Sim → Call → Option String := fun _ _ => none

/-- Every network removal fails, as when the runtime is unreachable at that moment. -/
def removalFails : Sim → Call → Option String := fun _ c =>
  match c with
  | Call.networkRemove _ => some "Cannot connect to the Docker daemon"
  | _ => none

/-- Upper-case the characters and put `_` between a lower-case letter and an upper-case
letter that follows it. -/
def screamingSnakeChars : List Char → List Char
  | [] => []
  | [c] => [c.toUpper]
  | c :: d :: rest =>
    if c.isLower && d.isUpper then c.toUpper :: '_' :: screamingSnakeChars (d :: rest)
    else c.toUpper :: screamingSnakeChars (d :: rest)

/-- Converters for the concrete runs below. They agree with `strcase` on the words used
there: `ToKebab` and `ToSnake` leave a lower-case word without separators (`shop`,
`orders`) alone, and `ToScreamingSnake` turns a lower-case or snake-case word and a
camel-case Go field name into upper case with `_` at the word boundaries (`hello` into
`HELLO`, `orders_db` into `ORDERS_DB`, `CreatedAt` into `CREATED_AT`). -/
def plainCase : Strcase :=
  { ToKebab := fun x => x, ToSnake := fun x => x,
    ToScreamingSnake := fun x => String.mk (screamingSnakeChars x.data) }

/-! ## `utils/password.go` -/

/-- The alphabet of `base64.StdEncoding`. -/
def base64Alphabet : List Char :=
  "ABCDEFGHIJKLMNOPQRSTUVWXYZabcdefghijklmnopqrstuvwxyz0123456789+/".data

/-- Character of a 6-bit value. -/
def base64Char (n : Nat) : Char := base64Alphabet.getD n 'A'

/-- `base64.StdEncoding.EncodeToString` on a list of bytes. -/
def base64Encode : List Nat → List Char
  | [] => []
  | [a] => [base64Char (a / 4), base64Char (a % 4 * 16), '=', '=']
  | [a, b] => [base64Char (a / 4), base64Char (a % 4 * 16 + b / 16), base64Char (b % 16 * 4), '=']
  | a :: b :: c :: rest =>
    base64Char (a / 4) :: base64Char (a % 4 * 16 + b / 16)
      :: base64Char (b % 16 * 4 + c / 64) :: base64Char (c % 64) :: base64Encode rest

/-- The buffer of `n` bytes that `rand.Read` filled, read off the outcome of the call. -/
def filledBuffer (n : Nat) (o : Outcome) : List Nat :=
  (List.range n).map (fun i => o.bytes.getD i 0 % 256)

/-- `utils.GeneratePassword`: the Go result pair (value, error). -/
def GeneratePassword {σ : Type} (w : World σ) (st : St σ) (length : Nat) :
    (String × Option String) × St σ :=
  let r := perform w st (Call.randRead length)
  match r.1.err with
  | some e => (("", some e), r.2)
  | none => ((String.mk (base64Encode (filledBuffer length r.1)), none), r.2)

/-- `utils.GenerateSecureUsername`: the Go result pair, or the panic of the slice
expression `randomPart[:length]` when fewer than `length` characters are left. -/
def GenerateSecureUsername {σ : Type} (w : World σ) (st : St σ) (pre : String) (length : Nat) :
    Except String (String × Option String) × St σ :=
  let r := perform w st (Call.randRead length)
  match r.1.err with
  | some e => (Except.ok ("", some e), r.2)
  | none =>
    let randomPart := (base64Encode (filledBuffer length r.1)).filter
      (fun ch => !(ch == '/') && !(ch == '+') && !(ch == '='))
    if length ≤ randomPart.length then
      (Except.ok (pre ++ String.mk (randomPart.take length), none), r.2)
    else
      (Except.error "slice bounds out of range", r.2)

/-! ## `utils/docker.go`: StopAndRemoveContainer -/

/-- `utils.StopAndRemoveContainer`: stop, then remove with volumes; the removal is skipped
when the stop fails. -/
def StopAndRemoveContainer {σ : Type} (w : World σ) (st : St σ) (containerId : String) :
    (String × Option String) × St σ :=
  let r1 := perform w st (Call.containerStop containerId)
  match r1.1.err with
  | some e => (("failed to stop the container", some e), r1.2)
  | none =>
    let r2 := perform w r1.2 (Call.containerRemove containerId false true)
    match r2.1.err with
    | some e => (("failed to remove the container", some e), r2.2)
    | none => (("", none), r2.2)

/-! ## `pkg/databases/handlers.go` -/

/-- `strings.ToLower` on the ASCII text it is applied to (a generated username). -/
def toLower (s : String) : String := String.mk (s.data.map Char.toLower)

/-- The five results of `generateEnvVars`. -/
structure EnvVars where
  dbName : String := ""
  username : String := ""
  password : String := ""
  envVars : List String := []
  err : Option String := none
deriving DecidableEq, Repr

/-- `generateEnvVars`. -/
def generateEnvVars {σ : Type} (lib : Strcase) (w : World σ) (st : St σ)
    (dto : CreateDatabaseDTO) : Except String EnvVars × St σ :=
  let dbName := lib.ToSnake dto.Name
  match GenerateSecureUsername w st "u" 9 with
  | (Except.error p, st1) => (Except.error p, st1)
  | (Except.ok (_, some e), st1) => (Except.ok { err := some e }, st1)
  | (Except.ok (username0, none), st1) =>
    let username := toLower username0
    match GeneratePassword w st1 16 with
    | ((_, some e), st2) => (Except.ok { err := some e }, st2)
    | ((password, none), st2) =>
      if dto.Type_ = Postgres then
        (Except.ok
          { dbName := dbName, username := username, password := password,
            envVars := ["POSTGRES_DB=" ++ dbName, "POSTGRES_USER=" ++ username,
                        "POSTGRES_PASSWORD=" ++ password] }, st2)
      else
        (Except.ok { err := some ("unrecognized database type: " ++ dto.Type_) }, st2)

/-- `determineDatabaseImage`. -/
def determineDatabaseImage (dto : CreateDatabaseDTO) : String × Option String :=
  let version := if dto.Version ≠ "" then dto.Version else "latest"
  if dto.Type_ = Postgres then
    ("postgres:" ++ version, none)
  else
    ("", some ("cannot determine database type " ++ dto.Type_))

/-- `pullDatabaseDockerImage`: the pull, then draining its progress stream. -/
def pullDatabaseDockerImage {σ : Type} (w : World σ) (st : St σ) (image : String) :
    Option String × St σ :=
  let r1 := perform w st (Call.imagePull image)
  match r1.1.err with
  | some e => (some e, r1.2)
  | none =>
    let r2 := perform w r1.2 (Call.imagePullDrain image)
    (r2.1.err, r2.2)

/-- The three results of the database `createAndStartContainer`. -/
structure Started where
  containerId : String := ""
  volumeName : String := ""
  err : Option String := none
deriving DecidableEq, Repr

/-- `createAndStartContainer` of the databases package. A failed volume creation returns
a nil error, as the source does. -/
def databases.createAndStartContainer {σ : Type} (w : World σ) (st : St σ) (dto : CreateDatabaseDTO)
    (image : String) (envVars : List String) (project : Project) : Started × St σ :=
  let r1 := perform w st (Call.networkInspect project.NetworkName)
  match r1.1.err with
  | some e => ({ err := some e }, r1.2)
  | none =>
    let r2 := perform w r1.2 Call.cuidNew
    let containerId := "db_" ++ r2.1.str
    let volumeName := "vol_" ++ containerId
    let r3 := perform w r2.2 (Call.volumeCreate "local" volumeName)
    match r3.1.err with
    | some _ => ({ err := none }, r3.2)
    | none =>
      if dto.Type_ = Postgres then
        let target := "/var/lib/postgresql/data"
        let r4 := perform w r3.2
          (Call.dbContainerCreate image envVars r3.1.str target r1.1.str "always" containerId)
        match r4.1.err with
        | some e => ({ err := some e }, r4.2)
        | none =>
          let r5 := perform w r4.2 (Call.containerStart r4.1.str)
          match r5.1.err with
          | some e => ({ err := some e }, r5.2)
          | none => ({ containerId := containerId, volumeName := volumeName }, r5.2)
      else
        ({ err := some ("unknown database " ++ dto.Type_ ++ " to make volume target path") },
          r3.2)

/-- The `models.Database` value `ProvisionDatabase` builds before the insert. -/
def dbEntity (dbName : String) (dto : CreateDatabaseDTO) (project : Project)
    (containerId password username volumeName : String) : Database :=
  { Name := dbName, Type_ := dto.Type_, ProjectId := project.ID, ContainerId := containerId,
    Password := password, Username := username, VolumeName := volumeName,
    ImageVersion := volumeName }

/-- Handler `ProvisionDatabase`; `bound` is the result of `c.ShouldBindJSON`. -/
def ProvisionDatabase {σ : Type} (lib : Strcase) (w : World σ) (ctx : Option Project)
    (bound : Except String CreateDatabaseDTO) (s : σ) : Run σ :=
  let st0 : St σ := { world := s, trace := [] }
  match bound with
  | Except.error e => finish st0 (JsonError st0 400 (some e) "cannot parse input")
  | Except.ok createDbRequest =>
    match GetProjectFromContext ctx with
    | Except.error p => panicWith st0 p
    | Except.ok (project, _) =>
      match generateEnvVars lib w st0 createDbRequest with
      | (Except.error p, st1) => panicWith st1 p
      | (Except.ok { err := some e, .. }, st1) =>
        finish st1 (JsonError st1 400 (some e) "cannot generate env vars")
      | (Except.ok { dbName := dbName, username := username, password := password,
                     envVars := envVars, err := none }, st1) =>
        let r2 := perform w st1 (Call.dbCountDatabases dbName project.ID)
        if r2.1.num > 0 then
          finish r2.2 (JsonError r2.2 400 (some "record exists")
            "database with the same name exists for the project")
        else
          match determineDatabaseImage createDbRequest with
          | (_, some e) =>
            finish r2.2 (JsonError r2.2 400 (some e) "database image determination failed")
          | (image, none) =>
            match pullDatabaseDockerImage w r2.2 image with
            | (some e, st3) =>
              finish st3 (JsonError st3 500 (some e) "cannot pull database image")
            | (none, st3) =>
              match databases.createAndStartContainer w st3 createDbRequest image envVars project with
              | ({ err := some e, .. }, st4) =>
                finish st4 (JsonError st4 500 (some e) "cannot start database container")
              | ({ containerId := containerId, volumeName := volumeName, err := none }, st4) =>
                let entity := dbEntity dbName createDbRequest project containerId password
                  username volumeName
                let r5 := perform w st4 (Call.dbCreateDatabase entity)
                match r5.1.err with
                | some e =>
                  match JsonError r5.2 500 (some e) "failed to create database entity" with
                  | Except.error p => panicWith r5.2 p
                  | Except.ok st6 => done (StopAndRemoveContainer w st6 containerId).2
                | none =>
                  done (JsonSuccessH r5.2 200 "database provisioned successfully"
                    (Data.fields [("id", r5.1.str), ("name", entity.Name)]))

/-! ## `pkg/functions/handlers.go`: execution -/

/-- One struct field as reflection sees it: its Go name, its `containerEnv` tag split at
`;` (`none` when the field has no such tag) and its printed value. -/
structure Field where
  name : String
  tag : Option (List String)
  value : String
deriving DecidableEq, Repr

/-- Fields of `models.Function` in declaration order. -/
def Function.fields (f : Function) : List Field :=
  [⟨"ID", none, f.ID⟩, ⟨"CreatedAt", some ["include"], f.CreatedAt⟩,
   ⟨"UpdatedAt", some ["include"], f.UpdatedAt⟩, ⟨"DeletedAt", none, ""⟩,
   ⟨"Name", some ["include"], f.Name⟩, ⟨"Description", some ["include"], f.Description⟩,
   ⟨"FunctionId", some ["include"], f.FunctionId⟩, ⟨"Version", some ["include"], f.Version⟩,
   ⟨"ProjectId", none, f.ProjectId⟩, ⟨"Project", none, ""⟩, ⟨"Language", none, f.Language⟩,
   ⟨"Main", none, f.Main⟩]

/-- Fields of `models.Database` in declaration order. -/
def Database.fields (d : Database) : List Field :=
  [⟨"ID", none, d.ID⟩, ⟨"CreatedAt", some ["include"], d.CreatedAt⟩,
   ⟨"UpdatedAt", some ["include"], d.UpdatedAt⟩, ⟨"DeletedAt", none, ""⟩,
   ⟨"Name", some ["include"], d.Name⟩, ⟨"Type", some ["include"], d.Type_⟩,
   ⟨"Username", some ["include"], d.Username⟩, ⟨"Password", some ["include"], d.Password⟩,
   ⟨"ContainerId", some ["include", "containerId"], d.ContainerId⟩,
   ⟨"ProjectId", none, d.ProjectId⟩, ⟨"VolumeName", none, d.VolumeName⟩,
   ⟨"ImageVersion", none, d.ImageVersion⟩, ⟨"Project", none, ""⟩]

/-- Inner loop of `generateEnvironmentVariables`: the entries of one entity. -/
def entityEnv (lib : Strcase) (pre id : String) : List Field → List String
  | [] => []
  | field :: rest =>
    match field.tag with
    | none => entityEnv lib pre id rest
    | some tagsSeparated =>
      if tagsSeparated.contains "include" then
        (pre ++ "_" ++ id ++ "_" ++ lib.ToScreamingSnake field.name ++ "=" ++ field.value)
          :: entityEnv lib pre id rest
      else
        entityEnv lib pre id rest

/-- `generateEnvironmentVariables` on entities given by their field lists. -/
def generateEnvironmentVariables (lib : Strcase) (entities : List (List Field))
    (pre : String) : List String :=
  match entities with
  | [] => []
  | entity :: rest =>
    match entity.find? (fun f => f.name == "Name") with
    | none => generateEnvironmentVariables lib rest pre
    | some idField =>
      entityEnv lib pre (lib.ToScreamingSnake idField.value) entity
        ++ generateEnvironmentVariables lib rest pre

/-- `getImageVersion`: the `x-image-version` header, `latest` when empty or absent. -/
def getImageVersion (header : String) : String :=
  if header = "" then "latest" else header

/-- `createContainer` of the functions package: returns `resp.ID` and the error. -/
def createContainer {σ : Type} (w : World σ) (st : St σ) (functionEntity : Function)
    (imageVersion : String) (envs : List String) : (String × Option String) × St σ :=
  let r1 := perform w st Call.cuidNew
  let r2 := perform w r1.2
    (Call.fnContainerCreate (functionEntity.FunctionId ++ ":" ++ imageVersion) envs
      functionEntity.ProjectNetworkName ("func_" ++ r1.1.str))
  ((r2.1.str, r2.1.err), r2.2)

/-- `fetchContainerDynamicPort`: the host port of the first binding of `8080/tcp`; the
index expression panics when there is no binding. -/
def fetchContainerDynamicPort {σ : Type} (w : World σ) (st : St σ) (containerID : String) :
    Except String (String × Option String) × St σ :=
  let r := perform w st (Call.containerInspect containerID)
  match r.1.err with
  | some e => (Except.ok ("", some e), r.2)
  | none =>
    match r.1.list with
    | [] => (Except.error "index out of range [0] with length 0", r.2)
    | hostPort :: _ => (Except.ok (hostPort, none), r.2)

/-- The three results of the functions `createAndStartContainer`. -/
structure StartedFn where
  containerID : String := ""
  dynamicPort : String := ""
  err : Option String := none
deriving DecidableEq, Repr

/-- `createAndStartContainer` of the functions package. -/
def functions.createAndStartContainer {σ : Type} (lib : Strcase) (w : World σ) (st : St σ)
    (ctx : Option Project) (functionEntity : Function) (imageVersion : String) :
    Except String StartedFn × St σ :=
  match GetProjectFromContext ctx with
  | Except.error p => (Except.error p, st)
  | Except.ok (project, _) =>
    let envs := generateEnvironmentVariables lib (project.Functions.map Function.fields) "FUNC"
      ++ generateEnvironmentVariables lib (project.Databases.map Database.fields) "DB"
    match createContainer w st functionEntity imageVersion envs with
    | ((_, some e), st1) => (Except.ok { err := some e }, st1)
    | ((containerID, none), st1) =>
      let r2 := perform w st1 (Call.containerStart containerID)
      match r2.1.err with
      | some e => (Except.ok { err := some e }, r2.2)
      | none =>
        match fetchContainerDynamicPort w r2.2 containerID with
        | (Except.error p, st3) => (Except.error p, st3)
        | (Except.ok (_, some e), st3) => (Except.ok { err := some e }, st3)
        | (Except.ok (dynamicPort, none), st3) =>
          (Except.ok { containerID := containerID, dynamicPort := dynamicPort }, st3)

/-- The backoff schedule of `pollContainerHealthCheck`, in milliseconds. -/
def retryIntervals : List Nat := [250, 500, 1000, 3000]

/-- The success test of one probe: no transport error and status 200. -/
def probeOk (o : Outcome) : Bool := o.err == none && o.num == 200

/-- The loop of `pollContainerHealthCheck`: sleep, probe, return true on success. -/
def pollLoop {σ : Type} (w : World σ) (healthCheckURL : String) :
    List Nat → St σ → Bool × St σ
  | [], st => (false, st)
  | interval :: rest, st =>
    let r1 := perform w st (Call.sleep interval)
    let r2 := perform w r1.2 (Call.httpGet healthCheckURL)
    if probeOk r2.1 then (true, r2.2) else pollLoop w healthCheckURL rest r2.2

/-- `pollContainerHealthCheck`. -/
def pollContainerHealthCheck {σ : Type} (w : World σ) (st : St σ) (dynamicPort : String) :
    Bool × St σ :=
  pollLoop w ("http://localhost:" ++ dynamicPort ++ "/health") retryIntervals st

/-- `utils.GetFunctionFromContextParams`: the newest row of that slug in the project. -/
def GetFunctionFromContextParams {σ : Type} (w : World σ) (st : St σ) (ctx : Option Project)
    (funcId : String) : Except String (Function × Option String) × St σ :=
  match GetProjectFromContext ctx with
  | Except.error p => (Except.error p, st)
  | Except.ok (project, found) =>
    if !found then
      (Except.ok ({}, some "project not exists in the context"), st)
    else
      let r := perform w st (Call.dbFirstFunction funcId project.ID)
      (Except.ok (r.1.fn, r.1.err), r.2)

/-- `forwardRequestToContainer`: building the request, sending it and reading the body
are one call here, whose error is that of the first of them to fail; the outcome holds the
status and the body of the container's response. -/
def forwardRequestToContainer {σ : Type} (w : World σ) (st : St σ) (dynamicPort : String) :
    Outcome × St σ :=
  perform w st (Call.httpForward ("http://localhost:" ++ dynamicPort))

/-- `cleanupContainer`: starts the goroutine that stops and removes the container. -/
def cleanupContainer {σ : Type} (st : St σ) (containerID : String) : St σ :=
  { st with trace := st.trace ++ [Event.spawnStopAndRemove containerID] }

/-- `sendContainerResponse`. -/
def sendContainerResponse {σ : Type} (st : St σ) (code : Nat) (body : String) : St σ :=
  { st with trace := st.trace ++ [Event.reply (Reply.proxied code body)] }

/-- Handler `ExecuteFunction`; `funcId` is the path parameter and `versionHeader` the
`x-image-version` header. -/
def ExecuteFunction {σ : Type} (lib : Strcase) (w : World σ) (ctx : Option Project)
    (funcId versionHeader : String) (s : σ) : Run σ :=
  let st0 : St σ := { world := s, trace := [] }
  match GetFunctionFromContextParams w st0 ctx funcId with
  | (Except.error p, st1) => panicWith st1 p
  | (Except.ok (_, some e), st1) =>
    finish st1 (JsonError st1 400 (some e) "failed to find function")
  | (Except.ok (functionEntity, none), st1) =>
    let imageVersion := getImageVersion versionHeader
    match functions.createAndStartContainer lib w st1 ctx functionEntity imageVersion with
    | (Except.error p, st2) => panicWith st2 p
    | (Except.ok { err := some e, .. }, st2) =>
      finish st2 (JsonError st2 500 (some e) "failed to create/start container")
    | (Except.ok { containerID := containerID, dynamicPort := dynamicPort, err := none }, st2) =>
      let r3 := pollContainerHealthCheck w st2 dynamicPort
      if !r3.1 then
        finish r3.2 (JsonError r3.2 500 none "container did not become healthy")
      else
        let r4 := forwardRequestToContainer w r3.2 dynamicPort
        match r4.1.err with
        | some e =>
          finish r4.2 (JsonError r4.2 500 (some e) "failed to forward request to container")
        | none =>
          done (sendContainerResponse (cleanupContainer r4.2 containerID) r4.1.num r4.1.str)

/-! ## Concrete requests and scripts -/

/-- A well-formed provisioning request. -/
def ordersRequest : CreateDatabaseDTO := { Type_ := "postgres", Name := "orders", Version := "15" }

/-- Outcomes up to and including `cuid.New()` of a provisioning run in which nothing has
failed yet: the two random reads, the count (no row), the pull and its drain, the network
inspection, the token. -/
def provisionPrefix : List Outcome :=
  [{ bytes := [1, 2, 3, 4, 5, 6, 7, 8, 9] },
   { bytes := [1, 2, 3, 4, 5, 6, 7, 8, 9, 10, 11, 12, 13, 14, 15, 16] },
   { num := 0 }, {}, {}, { str := "net_shop" }, { str := "ck1" }]

/-- The row of the function `hello` of `shopProject`, with its project preloaded. -/
def helloFunction : Function :=
  { Name := "hello", FunctionId := "hello", Version := "1.0.0", ProjectId := "p1",
    ProjectNetworkName := "net_shop" }

/-- Outcomes of an invocation whose container starts on host port 49153 and fails all
four probes: connection refused once, then statuses 503, 503 and 500. -/
def unhealthyScript : List Outcome :=
  [{ fn := helloFunction }, { str := "ck9" }, { str := "cid9" }, {}, { list := ["49153"] },
   {}, failWith "connection refused", {}, { num := 503 }, {}, { num := 503 }, {}, { num := 500 }]

/-- Outcomes of the health probes of a trace, in order. -/
def probeOutcomes (es : List Event) : List Outcome :=
  es.filterMap (fun e => match e with
    | Event.call (Call.httpGet _) o => some o
    | _ => none)

/-- Durations slept during a trace, in order, in milliseconds. -/
def sleeps (es : List Event) : List Nat :=
  es.filterMap (fun e => match e with
    | Event.call (Call.sleep ms) _ => some ms
    | _ => none)

/-- The calls by which `ProvisionDatabase` prepares the insert of the row: random reads,
the count query, the pull, and the calls of the database `createAndStartContainer`. -/
def isPrep : Call → Bool
  | Call.randRead _ => true
  | Call.dbCountDatabases _ _ => true
  | Call.imagePull _ => true
  | Call.imagePullDrain _ => true
  | Call.networkInspect _ => true
  | Call.cuidNew => true
  | Call.volumeCreate _ _ => true
  | Call.dbContainerCreate _ _ _ _ _ _ _ => true
  | Call.containerStart _ => true
  | _ => false

/-- The preparation of a row whose container was created and started: the two random
reads, the count query for the row's name (reporting no row), the pull of the resolved
image and its drain, the network inspection, the token, the creation of the row's volume,
the creation of the row's container from the resolved image with the row's credentials in
its environment, and its start. -/
def containerPrepared (p : Project) (dto : CreateDatabaseDTO) (row : Database)
    (pre : List (Call × Outcome)) : Prop :=
  ∃ o1 o2 o3 o4 o5 o6 o7 o8 o9 o10 : Outcome,
    pre = [(Call.randRead 9, o1), (Call.randRead 16, o2),
      (Call.dbCountDatabases row.Name p.ID, o3),
      (Call.imagePull (determineDatabaseImage dto).1, o4),
      (Call.imagePullDrain (determineDatabaseImage dto).1, o5),
      (Call.networkInspect p.NetworkName, o6), (Call.cuidNew, o7),
      (Call.volumeCreate "local" row.VolumeName, o8),
      (Call.dbContainerCreate (determineDatabaseImage dto).1
        ["POSTGRES_DB=" ++ row.Name, "POSTGRES_USER=" ++ row.Username,
         "POSTGRES_PASSWORD=" ++ row.Password]
        o8.str "/var/lib/postgresql/data" o6.str "always" row.ContainerId, o9),
      (Call.containerStart o9.str, o10)]
    ∧ o3.num = 0 ∧ o8.err = none ∧ o9.err = none ∧ o10.err = none

/-- The preparation of a row after a failed volume creation: it stops at that call, and
the row has empty container and volume identifiers. -/
def volumeFailed (p : Project) (dto : CreateDatabaseDTO) (row : Database)
    (pre : List (Call × Outcome)) : Prop :=
  ∃ (o1 o2 o3 o4 o5 o6 o7 o8 : Outcome) (volumeName : String),
    pre = [(Call.randRead 9, o1), (Call.randRead 16, o2),
      (Call.dbCountDatabases row.Name p.ID, o3),
      (Call.imagePull (determineDatabaseImage dto).1, o4),
      (Call.imagePullDrain (determineDatabaseImage dto).1, o5),
      (Call.networkInspect p.NetworkName, o6), (Call.cuidNew, o7),
      (Call.volumeCreate "local" volumeName, o8)]
    ∧ o3.num = 0 ∧ o8.err ≠ none ∧ row.ContainerId = "" ∧ row.VolumeName = ""

/-- Outcomes of a provisioning run whose container starts and whose insert then fails;
the stop and the removal that follow succeed. -/
def insertFailsScript : List Outcome :=
  provisionPrefix ++ [{ str := "vol_db_ck1" }, { str := "abcdef" }, noError,
    failWith "connection lost", noError, noError]

/-- The row that `ProvisionDatabase` builds in the run of `insertFailsScript`. -/
def ordersRow : Database :=
  { Name := "orders", Type_ := "postgres", Username := "uaqidbaugb",
    Password := "AQIDBAUGBwgJCgsMDQ4PEA==", ContainerId := "db_ck1", ProjectId := "p1",
    VolumeName := "vol_db_ck1", ImageVersion := "vol_db_ck1" }

/-- A well-formed provisioning request of an unsupported type. -/
def mysqlRequest : CreateDatabaseDTO := { Type_ := "mysql", Name := "orders", Version := "8" }

/-- Outcome of a random read that fills nine bytes with `0xFF`. -/
def allOnes : Outcome := { bytes := [255, 255, 255, 255, 255, 255, 255, 255, 255] }

/-- Outcomes of an invocation whose container starts on host port 49153 and is healthy at
the first probe, up to the forwarding of the request. -/
def healthyPrefix : List Outcome :=
  [{ fn := helloFunction }, { str := "ck9" }, { str := "cid9" }, noError, { list := ["49153"] },
   noError, { num := 200 }]

/-! ## `pkg/projects/handlers.go`: UpdateProject -/

/-- Handler `UpdateProject`; `bound` is the result of `c.ShouldBindJSON`. Only the name of
the project in the context is changed before the row is saved. -/
def UpdateProject {σ : Type} (lib : Strcase) (w : World σ) (ctx : Option Project)
    (bound : Except String CreateProjectDTO) (s : σ) : Run σ :=
  let st0 : St σ := { world := s, trace := [] }
  match GetProjectFromContext ctx with
  | Except.error p => panicWith st0 p
  | Except.ok (p, found) =>
    if !found then
      finish st0 (JsonError st0 404 (some "record not found") "project cannot be found")
    else
      match bound with
      | Except.error e => finish st0 (JsonError st0 400 (some e) "cannot parse request")
      | Except.ok projectDto =>
        let p1 : Project := { p with Name := lib.ToKebab projectDto.Name }
        let r := perform w st0 (Call.dbSaveProject p1)
        match r.1.err with
        | some e => finish r.2 (JsonError r.2 500 (some e) "cannot update project")
        | none => done (JsonSuccessH r.2 201 "project updated" (Data.project p1))

/-- One project operation: a `CreateProject` request, or an `UpdateProject` request on the
project that the path parameter names. -/
inductive ProjectOp where
  | create (dto : CreateProjectDTO)
  | update (projectNameOrId : String) (dto : CreateProjectDTO)
deriving DecidableEq, Repr

/-! ## `utils/middlewares.go` -/

/-- `utils.InjectProjectOrFail`: the row is looked up by id when `uuid.Parse` accepts the
path parameter and by name otherwise, with no second attempt; `parses` is that test, of a
library that is not part of the repository. The result is the project put in the context,
`none` after the 404 reply. -/
def InjectProjectOrFail {σ : Type} (parses : String → Bool) (w : World σ) (st : St σ)
    (projectNameOrId : String) : Except String (Option Project) × St σ :=
  let r := perform w st
    (if parses projectNameOrId then Call.dbFirstProjectById projectNameOrId
     else Call.dbFirstProjectByName projectNameOrId)
  match r.1.err with
  | some e =>
    match JsonError r.2 404 (some e) "cannot find the project" with
    | Except.error p => (Except.error p, r.2)
    | Except.ok st1 => (Except.ok none, st1)
  | none => (Except.ok (some r.1.project), r.2)

/-- The route `PUT /projects/:projectNameOrId/` of `SetupRoutes`: `InjectProjectOrFail`,
then `UpdateProject` on the context the middleware left. The 404 reply of the middleware
goes through `AbortWithStatusJSON` (`utils.JsonError`), which ends the chain: the handler
does not run then. -/
def PutProject {σ : Type} (lib : Strcase) (parses : String → Bool) (w : World σ)
    (projectNameOrId : String) (bound : Except String CreateProjectDTO) (s : σ) : Run σ :=
  match InjectProjectOrFail parses w { world := s, trace := [] } projectNameOrId with
  | (Except.error p, st) => panicWith st p
  | (Except.ok none, st) => done st
  | (Except.ok (some project), st) =>
    let r := UpdateProject lib w (some project) bound st.world
    { world := r.world, trace := st.trace ++ r.trace, panicked := r.panicked }

/-! ## Sequences of project requests -/

/-- Whether `key` is a UUID in canonical form: 36 characters, `-` at the positions 8, 13,
18 and 23 and hexadecimal digits elsewhere. On the keys of the concrete runs below, which
are short words, it agrees with `uuid.Parse` (which also accepts the `urn:uuid:`, the
braced and the undashed form). -/
def canonicalUUID (key : String) : Bool :=
  key.length == 36 && (List.range 36).all (fun i =>
    let c := key.data.getD i ' '
    if i == 8 || i == 13 || i == 18 || i == 23 then c == '-'
    else c.isDigit || (decide (97 ≤ c.toNat) && decide (c.toNat ≤ 102))
      || (decide (65 ≤ c.toNat) && decide (c.toNat ≤ 70)))

/-- The state after one project operation, served as the routes serve it. -/
def applyOp {σ : Type} (lib : Strcase) (parses : String → Bool) (w : World σ) (s : σ) :
    ProjectOp → σ
  | ProjectOp.create dto => (CreateProject lib w (Except.ok dto) s).world
  | ProjectOp.update key dto => (PutProject lib parses w key (Except.ok dto) s).world

/-- The state after a sequence of project operations. -/
def runOps {σ : Type} (lib : Strcase) (parses : String → Bool) (w : World σ) :
    List ProjectOp → σ → σ
  | [], s => s
  | op :: ops, s => runOps lib parses w ops (applyOp lib parses w s op)

/-- The network names derived from the names given to the `CreateProject` requests of a
sequence. -/
def derivedNetworkNames (lib : Strcase) (ops : List ProjectOp) : List String :=
  ops.filterMap (fun op => match op with
    | ProjectOp.create dto => some ("net_" ++ lib.ToSnake dto.Name)
    | ProjectOp.update _ _ => none)

/-! ## `pkg/functions/handlers.go`: deploy -/

/-- The manifest `models.Definition`. -/
structure Definition where
  Name : String := ""
  Description : String := ""
  Version : String := ""
  Main : String := ""
deriving DecidableEq, Repr

/-- Functions of the Go standard library that the deploy pipeline applies to its data and
that are not part of the repository, taken as parameters: `filepath.Base`, `filepath.Join`,
and `json.Unmarshal` into a `*models.Definition` (`none` is the nil pointer that the
document `null` leaves). -/
structure Stdlib where
  Base : String → String
  Join : String → String → String
  Unmarshal : String → Except String (Option Definition)

/-- The language tag `utils.JavaScriptNode`. -/
def JavaScriptNode : String := "node-js"

/-- `saveUploadedFile`: a fresh name under `UPLOADS_PATH`, then the copy of the upload. -/
def saveUploadedFile {σ : Type} (w : World σ) (st : St σ) (file : String) :
    (String × Option String) × St σ :=
  let r1 := perform w st Call.uuidNewString
  let r2 := perform w r1.2 (Call.getenv "UPLOADS_PATH")
  let uploadedTarballPath := r2.1.str ++ "/" ++ r1.1.str ++ ".tar.gz"
  let r3 := perform w r2.2 (Call.saveUploadedFile file uploadedTarballPath)
  ((uploadedTarballPath, r3.1.err), r3.2)

/-- `utils.ExtractTarball`: the Go result pair, or the panic of the slice expression that
cuts `.tar.gz` off a base name shorter than that suffix (lengths in characters). -/
def ExtractTarball {σ : Type} (std : Stdlib) (w : World σ) (st : St σ) (filePath : String) :
    Except String (String × Option String) × St σ :=
  let r1 := perform w st (Call.readFile filePath)
  match r1.1.err with
  | some e =>
    (Except.ok ("", some ("error while reading the file " ++ filePath ++ ": " ++ e)), r1.2)
  | none =>
    let filename := std.Base filePath
    if 7 ≤ filename.length then
      let filename := String.mk (filename.data.take (filename.length - 7))
      let r2 := perform w r1.2 (Call.getenv "EXTRACTIONS_PATH")
      let path := r2.1.str ++ "/" ++ filename
      let r3 := perform w r2.2 (Call.extractGz r1.1.str path)
      (Except.ok (path, r3.1.err), r3.2)
    else
      (Except.error "slice bounds out of range", r1.2)

/-- `utils.ReadDefinitionFileFromExtractionPath`: the decoded pointer, the language, the
error. -/
def ReadDefinitionFileFromExtractionPath {σ : Type} (std : Stdlib) (w : World σ) (st : St σ)
    (extractionPath : String) : (Option Definition × String × Option String) × St σ :=
  let r := perform w st (Call.readFile (std.Join extractionPath "package.json"))
  match r.1.err with
  | some e => ((none, "", some e), r.2)
  | none =>
    match std.Unmarshal r.1.str with
    | Except.error e => ((none, "", some e), r.2)
    | Except.ok d => ((d, JavaScriptNode, none), r.2)

/-- `readFunctionMetadata`: reading `def.Name` through a nil pointer panics. -/
def readFunctionMetadata {σ : Type} (lib : Strcase) (std : Stdlib) (w : World σ) (st : St σ)
    (functionExtractionPath : String) : Except String (Function × Option String) × St σ :=
  match ReadDefinitionFileFromExtractionPath std w st functionExtractionPath with
  | ((_, _, some e), st1) => (Except.ok ({}, some e), st1)
  | ((none, _, none), st1) =>
    (Except.error "invalid memory address or nil pointer dereference", st1)
  | ((some d, lang, none), st1) =>
    (Except.ok ({ Name := d.Name, Description := d.Description,
                  FunctionId := lib.ToKebab d.Name, Version := d.Version, Language := lang,
                  Main := d.Main }, none), st1)

/-- `fillFunctionMetadata`: the metadata with the id of the project in the context. -/
def fillFunctionMetadata (ctx : Option Project) (model : Function) :
    Except String (Function × Option String) :=
  match GetProjectFromContext ctx with
  | Except.error p => Except.error p
  | Except.ok (p, found) =>
    if !found then Except.ok (model, some "project cannot be found from context")
    else Except.ok ({ model with ProjectId := p.ID }, none)

/-- `utils.GenerateDockerfileContent`. -/
def GenerateDockerfileContent {σ : Type} (w : World σ) (st : St σ) (metadata : Function) :
    (String × Option String) × St σ :=
  if metadata.Language = JavaScriptNode then
    let r1 := perform w st
      (Call.templateParseFiles "base.tmpl" "templates/dockerfiles/base.tmpl")
    match r1.1.err with
    | some e => (("", some e), r1.2)
    | none =>
      let r2 := perform w r1.2
        (Call.templateExecute "base.tmpl" ["node:18", "node", "entrypoint.js", "npm install"])
      match r2.1.err with
      | some e => (("", some e), r2.2)
      | none => ((r2.1.str, none), r2.2)
  else
    (("", some ("unsupported language: " ++ metadata.Language)), st)

/-- `generateAndWriteDockerfile`. -/
def generateAndWriteDockerfile {σ : Type} (std : Stdlib) (w : World σ) (st : St σ)
    (functionExtractionPath : String) (functionMetadata : Function) : Option String × St σ :=
  match GenerateDockerfileContent w st functionMetadata with
  | ((_, some e), st1) => (some e, st1)
  | ((dockerfileContent, none), st1) =>
    let r := perform w st1
      (Call.writeFile (std.Join functionExtractionPath "Dockerfile") dockerfileContent)
    (r.1.err, r.2)

/-- `utils.GenerateEntrypointContent`: the content, the template name, the error. -/
def GenerateEntrypointContent {σ : Type} (std : Stdlib) (w : World σ) (st : St σ)
    (metadata : Function) : (String × String × Option String) × St σ :=
  if metadata.Language = JavaScriptNode then
    let tmplName := "entrypoint.js"
    let tmplFilename := tmplName ++ ".tmpl"
    let r1 := perform w st
      (Call.templateParseFiles tmplFilename (std.Join "templates/entrypoints" tmplFilename))
    match r1.1.err with
    | some e => (("", "", some e), r1.2)
    | none =>
      let r2 := perform w r1.2 (Call.templateExecute tmplFilename [metadata.Main])
      match r2.1.err with
      | some e => (("", "", some e), r2.2)
      | none => ((r2.1.str, tmplName, none), r2.2)
  else
    (("", "", some ("unsupported language: " ++ metadata.Language)), st)

/-- `generateAndWriteEntrypoint`. -/
def generateAndWriteEntrypoint {σ : Type} (std : Stdlib) (w : World σ) (st : St σ)
    (functionExtractionPath : String) (functionMetadata : Function) : Option String × St σ :=
  match GenerateEntrypointContent std w st functionMetadata with
  | ((_, _, some e), st1) => (some e, st1)
  | ((entrypointContent, entrypointName, none), st1) =>
    let r := perform w st1
      (Call.writeFile (std.Join functionExtractionPath entrypointName) entrypointContent)
    (r.1.err, r.2)

/-- The tags of `getDockerBuildOptions`. -/
def getDockerBuildOptions (functionMetadata : Function) : List String :=
  [functionMetadata.FunctionId ++ ":" ++ functionMetadata.Version,
   functionMetadata.FunctionId ++ ":latest"]

/-- `saveMetadataToDB`: the upsert on (function id, version, project id), which hands the
model back as gorm leaves it, then the re-read of the row into the model. -/
def saveMetadataToDB {σ : Type} (w : World σ) (st : St σ) (functionMetadata : Function) :
    (Function × Option String) × St σ :=
  let r1 := perform w st (Call.dbUpsertFunction functionMetadata)
  match r1.1.err with
  | some e => ((functionMetadata, some e), r1.2)
  | none =>
    let r2 := perform w r1.2 (Call.dbReadFunction r1.1.fn)
    ((r2.1.fn, r2.1.err), r2.2)

/-- `buildAndSaveDockerImage`: the build context, the image build, then the persist step;
the model is returned next to the error because it is passed by pointer. -/
def buildAndSaveDockerImage {σ : Type} (w : World σ) (st : St σ)
    (functionExtractionPath : String) (functionMetadata : Function) :
    (Function × Option String) × St σ :=
  let r1 := perform w st (Call.tarWithOptions functionExtractionPath)
  match r1.1.err with
  | some e => ((functionMetadata, some e), r1.2)
  | none =>
    let r2 := perform w r1.2
      (Call.imageBuild functionExtractionPath (getDockerBuildOptions functionMetadata))
    match r2.1.err with
    | some e => ((functionMetadata, some e), r2.2)
    | none => saveMetadataToDB w r2.2 functionMetadata

/-- `cleanUpDeploy`: both removals are issued, a failure of either is only logged. -/
def cleanUpDeploy {σ : Type} (w : World σ) (st : St σ) (extractionPath tarballPath : String) :
    St σ :=
  let r1 := perform w st (Call.removeAll extractionPath)
  let r2 := perform w r1.2 (Call.remove tarballPath)
  r2.2

/-- The failure branch of `DeployFunction` from the extract step on: `HandleError` reports,
then `cleanUpDeploy` runs, then the handler returns. -/
def failAndCleanUp {σ : Type} (w : World σ) (st : St σ) (code : Nat) (e help : String)
    (extractionPath tarballPath : String) : Run σ :=
  match JsonError st code (some e) help with
  | Except.error p => panicWith st p
  | Except.ok st1 => done (cleanUpDeploy w st1 extractionPath tarballPath)

/-- Handler `DeployFunction`; `upload` is the result of `c.FormFile("function")`. -/
def DeployFunction {σ : Type} (lib : Strcase) (std : Stdlib) (w : World σ)
    (ctx : Option Project) (upload : Except String String) (s : σ) : Run σ :=
  let st0 : St σ := { world := s, trace := [] }
  match upload with
  | Except.error e => finish st0 (JsonError st0 400 (some e) "function upload failed")
  | Except.ok file =>
    match saveUploadedFile w st0 file with
    | ((_, some e), st1) =>
      finish st1 (JsonError st1 400 (some e) "unable to save the uploaded file")
    | ((uploadedTarballPath, none), st1) =>
      match ExtractTarball std w st1 uploadedTarballPath with
      | (Except.error p, st2) => panicWith st2 p
      | (Except.ok (functionExtractionPath, some e), st2) =>
        failAndCleanUp w st2 400 e "unable to extract the function code"
          functionExtractionPath uploadedTarballPath
      | (Except.ok (functionExtractionPath, none), st2) =>
        match readFunctionMetadata lib std w st2 functionExtractionPath with
        | (Except.error p, st3) => panicWith st3 p
        | (Except.ok (_, some e), st3) =>
          failAndCleanUp w st3 400 e "failed to read the definition file"
            functionExtractionPath uploadedTarballPath
        | (Except.ok (metadata0, none), st3) =>
          match fillFunctionMetadata ctx metadata0 with
          | Except.error p => panicWith st3 p
          | Except.ok (_, some e) =>
            failAndCleanUp w st3 500 e "failed to fill function metadata"
              functionExtractionPath uploadedTarballPath
          | Except.ok (functionMetadata, none) =>
            match generateAndWriteDockerfile std w st3 functionExtractionPath
                functionMetadata with
            | (some e, st4) =>
              failAndCleanUp w st4 400 e "failed to generate/write the dockerfile"
                functionExtractionPath uploadedTarballPath
            | (none, st4) =>
              match generateAndWriteEntrypoint std w st4 functionExtractionPath
                  functionMetadata with
              | (some e, st5) =>
                failAndCleanUp w st5 400 e "failed to generate/write the entrypoint"
                  functionExtractionPath uploadedTarballPath
              | (none, st5) =>
                match buildAndSaveDockerImage w st5 functionExtractionPath
                    functionMetadata with
                | ((_, some e), st6) =>
                  failAndCleanUp w st6 400 e "failed to build the image"
                    functionExtractionPath uploadedTarballPath
                | ((saved, none), st6) =>
                  done (JsonSuccessH
                    (cleanUpDeploy w st6 functionExtractionPath uploadedTarballPath)
                    200 "function deployed successfully" (Data.metadata saved))

/-- The calls of `cleanUpDeploy`. -/
def isCleanup : Call → Bool
  | Call.removeAll _ => true
  | Call.remove _ => true
  | _ => false

/-- The calls of `buildAndSaveDockerImage`: the build context, the image build, the upsert
and the re-read. -/
def isBuildStage : Call → Bool
  | Call.tarWithOptions _ => true
  | Call.imageBuild _ _ => true
  | Call.dbUpsertFunction _ => true
  | Call.dbReadFunction _ => true
  | _ => false

/-- The calls of the deploy steps between the staging of the upload and the build: reading
files, the environment, the extraction, the templates, writing files. -/
def isDeployWork : Call → Bool
  | Call.readFile _ => true
  | Call.getenv _ => true
  | Call.extractGz _ _ => true
  | Call.templateParseFiles _ _ => true
  | Call.templateExecute _ _ => true
  | Call.writeFile _ _ => true
  | _ => false

/-- The manifest of the function `hello`. -/
def helloDefinition : Definition :=
  { Name := "hello", Description := "greets", Version := "1.0.0", Main := "index.js" }

/-- The text of the `package.json` of the function `hello`. -/
def helloPackage : String :=
  "\x7b\"name\":\"hello\",\"description\":\"greets\",\"version\":\"1.0.0\",\"main\":\"index.js\"\x7d"

/-- Standard-library functions for the concrete runs below. They agree with Go on the
data used there: `Base` is the text after the last `/` of a path that does not end in `/`,
`Join` puts `/` between two clean non-empty elements, and `Unmarshal` decodes the manifest
of `hello`, leaves a nil pointer for `null` and rejects any other text. -/
def plainStd : Stdlib :=
  { Base := fun path =>
      String.mk ((path.data.reverse.takeWhile (fun c => !(c == '/'))).reverse),
    Join := fun dir file => dir ++ "/" ++ file,
    Unmarshal := fun data =>
      if data = helloPackage then Except.ok (some helloDefinition)
      else if data = "null" then Except.ok none
      else Except.error "invalid character" }

/-- Outcomes of a deploy of `hello` up to the build: the upload is staged as
`/uploads/f1.tar.gz`, extracted to `/extractions/f1`, the manifest is read, the Dockerfile
and the entrypoint are rendered and written. -/
def deployPrefix : List Outcome :=
  [{ str := "f1" }, { str := "/uploads" }, noError,
   { str := "archive" }, { str := "/extractions" }, noError,
   { str := helloPackage },
   noError, { str := "FROM node:18" }, noError,
   noError, { str := "require" }, noError]

/-- Reference loop: issue the calls in order and stop at the first error. -/
def runCalls {σ : Type} (w : World σ) : List Call → St σ → Option String × St σ
  | [], st => (none, st)
  | c :: cs, st =>
    let r := perform w st c
    match r.1.err with
    | some e => (some e, r.2)
    | none => runCalls w cs r.2

/-! ## Lemmas on traces -/

@[simp] theorem calls_append (a b : List Event) : calls (a ++ b) = calls a ++ calls b := by
  simp [calls, List.filterMap_append]

@[simp] theorem callEvents_append (a b : List Event) :
    callEvents (a ++ b) = callEvents a ++ callEvents b := by
  simp [callEvents, List.filterMap_append]

@[simp] theorem replies_append (a b : List Event) :
    replies (a ++ b) = replies a ++ replies b := by
  simp [replies, List.filterMap_append]

@[simp] theorem callEvents_asEvents (ces : List (Call × Outcome)) :
    callEvents (asEvents ces) = ces := by
  induction ces with
  | nil => rfl
  | cons x xs ih =>
    simp only [asEvents, callEvents, List.map_cons, List.filterMap_cons] at ih ⊢
    rw [ih]

@[simp] theorem calls_asEvents (ces : List (Call × Outcome)) :
    calls (asEvents ces) = ces.map Prod.fst := by
  induction ces with
  | nil => rfl
  | cons x xs ih =>
    simp only [asEvents, calls, List.map_cons, List.filterMap_cons] at ih ⊢
    rw [ih]

@[simp] theorem replies_asEvents (ces : List (Call × Outcome)) :
    replies (asEvents ces) = [] := by
  induction ces with
  | nil => rfl
  | cons x xs ih =>
    simp only [asEvents, replies, List.map_cons, List.filterMap_cons] at ih ⊢
    rw [ih]

@[simp] theorem calls_reply (r : Reply) : calls [Event.reply r] = [] := rfl

@[simp] theorem callEvents_reply (r : Reply) : callEvents [Event.reply r] = [] := rfl

@[simp] theorem replies_reply (r : Reply) : replies [Event.reply r] = [r] := rfl

theorem removeFunctionImages_eq_runCalls {σ : Type} (w : World σ) (fs : List Function)
    (st : St σ) :
    removeFunctionImages w fs st
      = runCalls w (fs.map (fun f => Call.imageRemove f.FunctionId true true)) st := by
  induction fs generalizing st with
  | nil => rfl
  | cons f fs ih =>
    simp only [removeFunctionImages, runCalls, List.map_cons]
    split
    · rfl
    · exact ih _

theorem removeDatabaseContainers_eq_runCalls {σ : Type} (w : World σ) (ds : List Database)
    (st : St σ) :
    removeDatabaseContainers w ds st
      = runCalls w (ds.map (fun d => Call.containerRemove d.ContainerId true true)) st := by
  induction ds generalizing st with
  | nil => rfl
  | cons d ds ih =>
    simp only [removeDatabaseContainers, runCalls, List.map_cons]
    split
    · rfl
    · exact ih _

theorem runCalls_append {σ : Type} (w : World σ) (a b : List Call) (st : St σ) :
    runCalls w (a ++ b) st
      = match runCalls w a st with
        | (some e, st1) => (some e, st1)
        | (none, st1) => runCalls w b st1 := by
  induction a generalizing st with
  | nil => rfl
  | cons c cs ih =>
    simp only [List.cons_append, runCalls]
    split
    · rfl
    · exact ih _

/-- What a stop-at-first-error loop leaves in the trace: call events only, for a prefix of
the calls; every event but the last succeeded; all calls were made when the loop reports
no error; the last event carries the error otherwise. -/
theorem runCalls_spec {σ : Type} (w : World σ) (cs : List Call) (st : St σ) :
    ∃ ces : List (Call × Outcome),
      (runCalls w cs st).2.trace = st.trace ++ asEvents ces
      ∧ ces.map Prod.fst <+: cs
      ∧ (∀ x ∈ ces.dropLast, x.2.err = none)
      ∧ ((runCalls w cs st).1 = none → ces.map Prod.fst = cs ∧ ∀ x ∈ ces, x.2.err = none)
      ∧ (∀ e, (runCalls w cs st).1 = some e →
          ∃ pre x, ces = pre ++ [x] ∧ x.2.err = some e) := by
  induction cs generalizing st with
  | nil =>
    refine ⟨[], ?_, ?_, ?_, ?_, ?_⟩ <;> simp [runCalls, asEvents]
  | cons c cs ih =>
    simp only [runCalls]
    cases h : (perform w st c).1.err with
    | some e =>
      refine ⟨[(c, (perform w st c).1)], ?_, ?_, ?_, ?_, ?_⟩
      · simp [perform, asEvents]
      · simp
      · simp
      · simp
      · intro e1 he1
        refine ⟨[], (c, (perform w st c).1), rfl, ?_⟩
        simp only at he1
        rw [h, he1]
    | none =>
      obtain ⟨ces, h1, h2, h3, h4, h5⟩ := ih (perform w st c).2
      refine ⟨(c, (perform w st c).1) :: ces, ?_, ?_, ?_, ?_, ?_⟩
      · simp only [h1]
        simp [perform, asEvents]
      · simpa using h2
      · intro x hx
        cases ces with
        | nil => simp at hx
        | cons y ys =>
          rw [List.dropLast_cons₂] at hx
          rcases List.mem_cons.mp hx with rfl | hx1
          · exact h
          · exact h3 x hx1
      · intro hn
        obtain ⟨ha, hb⟩ := h4 hn
        refine ⟨by simp [ha], ?_⟩
        intro x hx
        rcases List.mem_cons.mp hx with rfl | hx1
        · exact h
        · exact hb x hx1
      · intro e1 he1
        obtain ⟨pre, x, hp, hx⟩ := h5 e1 he1
        exact ⟨(c, (perform w st c).1) :: pre, x, by simp [hp], hx⟩

/-- `DeleteProject` is the stop-at-first-error loop over `deleteSteps`, followed by one
reply: success when the loop reports no error, a 500 carrying the error otherwise. -/
theorem DeleteProject_run {σ : Type} (w : World σ) (s : σ) (p : Project) :
    ∃ rep : Reply,
      DeleteProject w (some p) s
        = { world := (runCalls w (deleteSteps p) { world := s, trace := [] }).2.world,
            trace := (runCalls w (deleteSteps p) { world := s, trace := [] }).2.trace
              ++ [Event.reply rep],
            panicked := none }
      ∧ ((runCalls w (deleteSteps p) { world := s, trace := [] }).1 = none →
          rep = Reply.success 200 "project removed" Data.null)
      ∧ (∀ e, (runCalls w (deleteSteps p) { world := s, trace := [] }).1 = some e →
          ∃ help, rep = Reply.error 500 e help) := by
  simp only [DeleteProject, GetProjectFromContext, removeFunctionImages_eq_runCalls,
    removeDatabaseContainers_eq_runCalls, deleteSteps, runCalls_append]
  rcases hA : runCalls w (p.Functions.map (fun f => Call.imageRemove f.FunctionId true true))
    { world := s, trace := [] } with ⟨_ | e, st1⟩
  · simp only [hA]
    rcases hB : runCalls w
      (p.Databases.map (fun d => Call.containerRemove d.ContainerId true true)) st1
      with ⟨_ | e, st2⟩
    · simp only [hB, runCalls]
      cases hn : (perform w st2 (Call.networkRemove p.NetworkName)).1.err with
      | some e =>
        exact ⟨Reply.error 500 e "cannot remove project network",
          by simp [finish, JsonError, done], by simp, by simp⟩
      | none =>
        simp only []
        cases hd : (perform w (perform w st2 (Call.networkRemove p.NetworkName)).2
          (Call.dbDeleteProject p)).1.err with
        | some e =>
          exact ⟨Reply.error 500 e "cannot delete project",
            by simp [finish, JsonError, done], by simp, by simp⟩
        | none =>
          exact ⟨Reply.success 200 "project removed" Data.null,
            by simp [JsonSuccessH, done], by simp, by simp⟩
    · simp only [hB]
      exact ⟨Reply.error 500 e "cannot remove database container",
        by simp [finish, JsonError, done], by simp, by simp⟩
  · simp only [hA]
    exact ⟨Reply.error 500 e "cannot remove docker image",
      by simp [finish, JsonError, done], by simp, by simp⟩

/-- Shape of every `DeleteProject` run on a present project: call events for a prefix of
`deleteSteps`, all but the last successful, then exactly one reply. -/
theorem DeleteProject_shape {σ : Type} (w : World σ) (s : σ) (p : Project) :
    ∃ (ces : List (Call × Outcome)) (rep : Reply),
      (DeleteProject w (some p) s).trace = asEvents ces ++ [Event.reply rep]
      ∧ (DeleteProject w (some p) s).panicked = none
      ∧ ces.map Prod.fst <+: deleteSteps p
      ∧ (∀ x ∈ ces.dropLast, x.2.err = none)
      ∧ ((∀ x ∈ ces, x.2.err = none) →
          ces.map Prod.fst = deleteSteps p
            ∧ rep = Reply.success 200 "project removed" Data.null)
      ∧ ((∃ x ∈ ces, x.2.err ≠ none) → ∃ e help, rep = Reply.error 500 e help) := by
  obtain ⟨rep, hrun, hnone, hsome⟩ := DeleteProject_run w s p
  obtain ⟨ces, h1, h2, h3, h4, h5⟩ := runCalls_spec w (deleteSteps p) { world := s, trace := [] }
  refine ⟨ces, rep, ?_, ?_, h2, h3, ?_, ?_⟩
  · rw [hrun]
    simp only [h1, List.nil_append]
  · rw [hrun]
  · intro hall
    cases hr : (runCalls w (deleteSteps p) { world := s, trace := [] }).1 with
    | none => exact ⟨(h4 hr).1, hnone hr⟩
    | some e =>
      obtain ⟨pre, x, hp, hx⟩ := h5 e hr
      have := hall x (by simp [hp])
      rw [hx] at this
      cases this
  · rintro ⟨x, hx, hfail⟩
    cases hr : (runCalls w (deleteSteps p) { world := s, trace := [] }).1 with
    | none => exact absurd ((h4 hr).2 x hx) hfail
    | some e => exact ⟨e, hsome e hr⟩

/-- In a list that ends at its first failure, a failed entry has nothing after it. -/
theorem nothing_after_failure (ces pre post : List (Call × Outcome)) (x : Call × Outcome)
    (hdrop : ∀ y ∈ ces.dropLast, y.2.err = none) (hsplit : ces = pre ++ x :: post)
    (hfail : x.2.err ≠ none) : post = [] := by
  cases post with
  | nil => rfl
  | cons y ys =>
    exfalso
    apply hfail
    apply hdrop
    rw [hsplit, List.dropLast_append_cons, List.dropLast_cons₂]
    simp

/-- A prefix of `init ++ [d]` that contains `d`, when `d` is not in `init`, is the whole
list. -/
theorem prefix_reaching_last {α : Type} (l init : List α) (d : α) (hpre : l <+: init ++ [d])
    (hmem : d ∈ l) (hnot : d ∉ init) : l = init ++ [d] := by
  rcases List.prefix_concat_iff.mp hpre with h | h
  · exact h
  · exact absurd (h.subset hmem) hnot

/-- The record delete occurs in `deleteSteps` only as the last step. -/
theorem dbDelete_not_in_removals (p : Project) :
    Call.dbDeleteProject p ∉
      p.Functions.map (fun f => Call.imageRemove f.FunctionId true true)
        ++ p.Databases.map (fun d => Call.containerRemove d.ContainerId true true)
        ++ [Call.networkRemove p.NetworkName] := by
  simp

theorem deleteSteps_eq (p : Project) :
    deleteSteps p =
      (p.Functions.map (fun f => Call.imageRemove f.FunctionId true true)
        ++ p.Databases.map (fun d => Call.containerRemove d.ContainerId true true)
        ++ [Call.networkRemove p.NetworkName]) ++ [Call.dbDeleteProject p] := by
  simp [deleteSteps]

/-! ## DeleteProject: abort at the first failure, order of the teardown -/

/-- C1: in every `DeleteProject` run, for every project and every world, the calls made
are a prefix of the teardown sequence (image removals, container removals, network
removal, record delete) followed by one reply; a failed call has no later call; when an
image, container or network removal failed the record delete is not issued; the record
delete is issued only when the whole sequence before it was issued and succeeded; and any
failure is answered with a 500 error reply. -/
theorem DeleteProject_aborts_at_first_failure {σ : Type} (w : World σ) (s : σ) (p : Project) :
    calls (DeleteProject w (some p) s).trace <+: deleteSteps p
    ∧ (∃ rep, (DeleteProject w (some p) s).trace
        = asEvents (callEvents (DeleteProject w (some p) s).trace) ++ [Event.reply rep])
    ∧ (∀ pre x post, callEvents (DeleteProject w (some p) s).trace = pre ++ x :: post →
        x.2.err ≠ none → post = [])
    ∧ (∀ x ∈ callEvents (DeleteProject w (some p) s).trace, x.2.err ≠ none →
        x.1 ≠ Call.dbDeleteProject p →
        Call.dbDeleteProject p ∉ calls (DeleteProject w (some p) s).trace)
    ∧ (Call.dbDeleteProject p ∈ calls (DeleteProject w (some p) s).trace →
        calls (DeleteProject w (some p) s).trace = deleteSteps p
        ∧ ∀ x ∈ callEvents (DeleteProject w (some p) s).trace,
            x.1 ≠ Call.dbDeleteProject p → x.2.err = none)
    ∧ ((∃ x ∈ callEvents (DeleteProject w (some p) s).trace, x.2.err ≠ none) →
        ∃ e help, replies (DeleteProject w (some p) s).trace = [Reply.error 500 e help]) := by
  obtain ⟨ces, rep, htr, _, hpre, hdrop, _, hfail⟩ := DeleteProject_shape w s p
  have hce : callEvents (DeleteProject w (some p) s).trace = ces := by simp [htr]
  have hcalls : calls (DeleteProject w (some p) s).trace = ces.map Prod.fst := by simp [htr]
  have hfull : Call.dbDeleteProject p ∈ ces.map Prod.fst →
      ces.map Prod.fst = deleteSteps p
        ∧ ∀ x ∈ ces, x.1 ≠ Call.dbDeleteProject p → x.2.err = none := by
    intro hmem
    have heq : ces.map Prod.fst = deleteSteps p := by
      rw [deleteSteps_eq] at hpre ⊢
      exact prefix_reaching_last _ _ _ hpre hmem (dbDelete_not_in_removals p)
    refine ⟨heq, ?_⟩
    intro x hx hne
    have hnil : ces ≠ [] := by
      intro h
      rw [h] at hmem
      simp at hmem
    have hlast : (ces.getLast hnil).1 = Call.dbDeleteProject p := by
      have h1 : (ces.dropLast ++ [ces.getLast hnil]).map Prod.fst = deleteSteps p := by
        rw [List.dropLast_append_getLast hnil]
        exact heq
      rw [deleteSteps_eq, List.map_append] at h1
      have h2 := List.append_inj_right' h1 (by simp)
      simpa using h2
    rw [← List.dropLast_append_getLast hnil] at hx
    rcases List.mem_append.mp hx with h | h
    · exact hdrop x h
    · rw [List.mem_singleton] at h
      rw [h] at hne
      exact absurd hlast hne
  rw [hce, hcalls]
  refine ⟨hpre, ⟨rep, htr⟩, ?_, ?_, hfull, ?_⟩
  · intro pre x post hsplit hx
    exact nothing_after_failure ces pre post x hdrop hsplit hx
  · intro x hx hxfail hne hmem
    exact hxfail ((hfull hmem).2 x hx hne)
  · intro h
    obtain ⟨e, help, hrep⟩ := hfail h
    exact ⟨e, help, by simp [htr, hrep]⟩

/-- C6: when every call of a `DeleteProject` run succeeded, the calls are exactly: one
forced, child-pruning image removal per owned function (by its slug, in order), one
forced container removal with volumes per owned database (in order), the removal of the
project network, the delete of the project record; and the only reply, written after
them, is the success reply. -/
theorem DeleteProject_success_effects {σ : Type} (w : World σ) (s : σ) (p : Project)
    (hok : ∀ x ∈ callEvents (DeleteProject w (some p) s).trace, x.2.err = none) :
    calls (DeleteProject w (some p) s).trace
      = p.Functions.map (fun f => Call.imageRemove f.FunctionId true true)
        ++ p.Databases.map (fun d => Call.containerRemove d.ContainerId true true)
        ++ [Call.networkRemove p.NetworkName, Call.dbDeleteProject p]
    ∧ (DeleteProject w (some p) s).trace
      = asEvents (callEvents (DeleteProject w (some p) s).trace)
        ++ [Event.reply (Reply.success 200 "project removed" Data.null)]
    ∧ (DeleteProject w (some p) s).panicked = none := by
  obtain ⟨ces, rep, htr, hpan, _, _, hall, _⟩ := DeleteProject_shape w s p
  have hce : callEvents (DeleteProject w (some p) s).trace = ces := by simp [htr]
  have hcalls : calls (DeleteProject w (some p) s).trace = ces.map Prod.fst := by simp [htr]
  rw [hce] at hok
  obtain ⟨hsteps, hrep⟩ := hall hok
  rw [hce, hcalls]
  refine ⟨?_, ?_, hpan⟩
  · rw [hsteps]
    rfl
  · rw [htr, hrep]

/-- Witness for C6: the one-function, one-database project on a world where nothing
fails. -/
theorem DeleteProject_success_effects_witness :
    calls (DeleteProject scripted (some shopProject) []).trace
      = [Call.imageRemove "hello" true true, Call.containerRemove "db_c1" true true,
         Call.networkRemove "net_shop", Call.dbDeleteProject shopProject]
    ∧ (DeleteProject scripted (some shopProject) []).panicked = none := by
  have h := DeleteProject_success_effects scripted [] shopProject (by decide)
  exact ⟨h.1, h.2.2⟩

/-! ## CreateProject: compensation on a failed insert -/

/-- C7: when the network was created and the insert of the Project row then fails with
`e`, the run of `CreateProject` is exactly: the network creation, the failed insert, one
network removal addressed to the id that the creation returned, and then the 500 reply
carrying `e`; whatever the outcome of that removal. No insert succeeded and nothing else
was removed. -/
theorem CreateProject_rolls_back_network {σ : Type} (lib : Strcase) (w : World σ) (s : σ)
    (dto : CreateProjectDTO) (e : String)
    (hnet : (w.step s (Call.networkCreate (newProject lib dto).NetworkName)).1.err = none)
    (hdb : (w.step (w.step s (Call.networkCreate (newProject lib dto).NetworkName)).2
        (Call.dbCreateProject (newProject lib dto))).1.err = some e) :
    ∃ o1 o2 o3 : Outcome,
      (CreateProject lib w (Except.ok dto) s).trace
        = [Event.call (Call.networkCreate ("net_" ++ lib.ToSnake dto.Name)) o1,
           Event.call (Call.dbCreateProject (newProject lib dto)) o2,
           Event.call (Call.networkRemove o1.str) o3,
           Event.reply (Reply.error 500 e "cannot create project")]
      ∧ o1 = (w.step s (Call.networkCreate ("net_" ++ lib.ToSnake dto.Name))).1
      ∧ o1.err = none ∧ o2.err = some e
      ∧ (CreateProject lib w (Except.ok dto) s).panicked = none
      ∧ (∀ x ∈ callEvents (CreateProject lib w (Except.ok dto) s).trace,
          ∀ row, x.1 = Call.dbCreateProject row → x.2.err ≠ none) := by
  refine ⟨(w.step s (Call.networkCreate (newProject lib dto).NetworkName)).1,
    (w.step (w.step s (Call.networkCreate (newProject lib dto).NetworkName)).2
        (Call.dbCreateProject (newProject lib dto))).1,
    (w.step (w.step (w.step s (Call.networkCreate (newProject lib dto).NetworkName)).2
        (Call.dbCreateProject (newProject lib dto))).2
        (Call.networkRemove
          (w.step s (Call.networkCreate (newProject lib dto).NetworkName)).1.str)).1,
    ?_, rfl, hnet, hdb, ?_, ?_⟩
  · simp only [newProject] at hnet hdb
    simp [CreateProject, perform, hnet, hdb, finish, JsonError, done, newProject]
  · simp only [newProject] at hnet hdb
    simp [CreateProject, perform, hnet, hdb, finish, JsonError, done, newProject]
  · simp only [newProject] at hnet hdb
    simp [CreateProject, perform, hnet, hdb, finish, JsonError, done, callEvents, newProject]

/-- Witness for C7: the store rejects the insert and the removal of the network fails
too; the error of the insert is still the one reported, after the removal. -/
theorem CreateProject_rolls_back_network_witness :
    ∃ o1 o2 o3 : Outcome,
      (CreateProject plainCase scripted (Except.ok { Name := "shop" })
          [{ str := "net-id-1" }, failWith "connection refused", failWith "network busy"]).trace
        = [Event.call (Call.networkCreate "net_shop") o1,
           Event.call (Call.dbCreateProject { Name := "shop", NetworkName := "net_shop" }) o2,
           Event.call (Call.networkRemove "net-id-1") o3,
           Event.reply (Reply.error 500 "connection refused" "cannot create project")]
      ∧ o3.err = some "network busy" := by
  obtain ⟨o1, o2, o3, htr, h1, _, _, _, _⟩ :=
    CreateProject_rolls_back_network plainCase scripted
      [{ str := "net-id-1" }, failWith "connection refused", failWith "network busy"]
      { Name := "shop" } "connection refused" (by decide) (by decide)
  refine ⟨o1, o2, o3, ?_, ?_⟩
  · rw [htr, h1]
    rfl
  · have h3 : (CreateProject plainCase scripted (Except.ok { Name := "shop" })
        [{ str := "net-id-1" }, failWith "connection refused", failWith "network busy"]).trace.get? 2
        = some (Event.call (Call.networkRemove "net-id-1") (failWith "network busy")) := by decide
    rw [htr, h1] at h3
    simp at h3
    rw [h3.2]
    rfl

/-! ## CreateProject twice with one name, on the reference collaborators -/

theorem le_foldr_max (l : List Nat) (x : Nat) (hx : x ∈ l) : x ≤ l.foldr max 0 := by
  induction l with
  | nil => cases hx
  | cons y ys ih =>
    rw [List.foldr_cons]
    rcases List.mem_cons.mp hx with rfl | h
    · exact le_max_left _ _
    · exact le_trans (ih h) (le_max_right _ _)

theorem freshId_not_mem (used : List String) : freshId used ∉ used := by
  intro hmem
  have h1 : (freshId used).length ≤ (used.map String.length).foldr max 0 :=
    le_foldr_max _ _ (List.mem_map_of_mem _ hmem)
  have h2 : (freshId used).length = 1 + (used.map String.length).foldr max 0 := by
    simp [freshId, String.length]
  omega

theorem filter_fresh_id (nets : List (String × String)) (id : String)
    (hid : id ∉ nets.map Prod.fst) :
    nets.filter (fun n => !(n.1 == id)) = nets := by
  rw [List.filter_eq_self]
  intro n hn
  have : n.1 ≠ id := fun h => hid (h ▸ List.mem_map_of_mem _ hn)
  simp [this]

/-- On a bound request `CreateProject` writes exactly one reply, in every world: the 201,
or a 500 for a refusal of the runtime or of the store. It has no 400 for them. -/
theorem CreateProject_reply_codes {σ : Type} (lib : Strcase) (w : World σ) (s : σ)
    (dto : CreateProjectDTO) :
    replies (CreateProject lib w (Except.ok dto) s).trace
        = [Reply.success 201 "project created" Data.null]
    ∨ ∃ e help, replies (CreateProject lib w (Except.ok dto) s).trace
        = [Reply.error 500 e help] := by
  cases h1 : (w.step s (Call.networkCreate ("net_" ++ lib.ToSnake dto.Name))).1.err with
  | some e =>
    right
    exact ⟨e, "cannot create network for the project",
      by simp [CreateProject, perform, newProject, h1, finish, JsonError, done, replies]⟩
  | none =>
    cases h2 : (w.step (w.step s (Call.networkCreate ("net_" ++ lib.ToSnake dto.Name))).2
        (Call.dbCreateProject (newProject lib dto))).1.err with
    | some e =>
      right
      simp only [newProject] at h2
      exact ⟨e, "cannot create project",
        by simp [CreateProject, perform, newProject, h1, h2, finish, JsonError, done, replies]⟩
    | none =>
      left
      simp only [newProject] at h2
      simp [CreateProject, perform, newProject, h1, h2, JsonSuccessH, done, replies]

/-- A `CreateProject` that answers 201 on the reference collaborators found no row of that
name, and left one more network and one more row. -/
theorem CreateProject_first (lib : Strcase) (fault : Sim → Call → Option String) (dup : Bool)
    (s : Sim) (dto : CreateProjectDTO)
    (hfirst : replies (CreateProject lib (simWorld fault dup) (Except.ok dto) s).trace
      = [Reply.success 201 "project created" Data.null]) :
    (∀ r ∈ s.projects, r.Name ≠ lib.ToKebab dto.Name)
    ∧ (CreateProject lib (simWorld fault dup) (Except.ok dto) s).world
        = { networks := s.networks
              ++ [(freshId (s.networks.map Prod.fst), "net_" ++ lib.ToSnake dto.Name)],
            projects := s.projects
              ++ [{ (newProject lib dto) with
                    ID := freshId (s.projects.map (fun r => r.ID)) }] } := by
  cases hf1 : fault s (Call.networkCreate ("net_" ++ lib.ToSnake dto.Name)) with
  | some e =>
    simp [CreateProject, perform, simWorld, newProject, hf1, finish, JsonError, done, replies]
      at hfirst
  | none =>
    have hcond : ¬ ((dup && s.networks.any (fun n => n.2 == "net_" ++ lib.ToSnake dto.Name))
        = true) := by
      intro hc
      simp [CreateProject, perform, simWorld, newProject, hf1, hc, finish, JsonError, done,
        replies] at hfirst
    cases hf2 : fault
        { networks := s.networks
            ++ [(freshId (s.networks.map Prod.fst), "net_" ++ lib.ToSnake dto.Name)],
          projects := s.projects }
        (Call.dbCreateProject
          { Name := lib.ToKebab dto.Name,
            NetworkName := "net_" ++ lib.ToSnake dto.Name }) with
    | some e =>
      simp [CreateProject, perform, simWorld, newProject, hf1, hcond, hf2, finish, JsonError,
        done, replies] at hfirst
    | none =>
      by_cases h2 : ∃ r ∈ s.projects, r.Name = lib.ToKebab dto.Name
          ∨ r.NetworkName = "net_" ++ lib.ToSnake dto.Name
      · simp [CreateProject, perform, simWorld, newProject, hf1, hcond, hf2, h2, finish,
          JsonError, done, replies] at hfirst
      · refine ⟨?_, ?_⟩
        · intro r hr hn
          exact h2 ⟨r, hr, Or.inl hn⟩
        · simp [CreateProject, perform, simWorld, newProject, hf1, hcond, hf2, h2,
            JsonSuccessH, done]
set_option maxHeartbeats 1600000 in
/-- `CreateProject` for a name that already has a row, on the reference collaborators: the
reply is a 500 and the rows are left as they were. The networks are left as they were too,
unless the network that this call created could not be removed again: the handler discards
the error of that removal, and the new network then stays. -/
theorem CreateProject_again (lib : Strcase) (fault : Sim → Call → Option String) (dup : Bool)
    (s : Sim) (dto : CreateProjectDTO)
    (hrow : ∃ r ∈ s.projects, r.Name = lib.ToKebab dto.Name) :
    (∃ e help, replies (CreateProject lib (simWorld fault dup) (Except.ok dto) s).trace
        = [Reply.error 500 e help]
      ∧ (help = "cannot create network for the project" ∨ help = "cannot create project"))
    ∧ (CreateProject lib (simWorld fault dup) (Except.ok dto) s).world.projects = s.projects
    ∧ ((∀ ref o, Event.call (Call.networkRemove ref) o
          ∈ (CreateProject lib (simWorld fault dup) (Except.ok dto) s).trace → o.err = none) →
        (CreateProject lib (simWorld fault dup) (Except.ok dto) s).world.networks = s.networks)
    ∧ (∀ ref o e, Event.call (Call.networkRemove ref) o
          ∈ (CreateProject lib (simWorld fault dup) (Except.ok dto) s).trace →
        o.err = some e →
        (CreateProject lib (simWorld fault dup) (Except.ok dto) s).world.networks
          = s.networks
            ++ [(freshId (s.networks.map Prod.fst), "net_" ++ lib.ToSnake dto.Name)]) := by
  have h2 : ∃ r ∈ s.projects, r.Name = lib.ToKebab dto.Name
      ∨ r.NetworkName = "net_" ++ lib.ToSnake dto.Name := by
    obtain ⟨r, hr, h⟩ := hrow
    exact ⟨r, hr, Or.inl h⟩
  have hfresh := filter_fresh_id s.networks (freshId (s.networks.map Prod.fst))
    (freshId_not_mem _)
  cases hf1 : fault s (Call.networkCreate ("net_" ++ lib.ToSnake dto.Name)) with
  | some e =>
    refine ⟨⟨e, _, ?_, Or.inl rfl⟩, ?_, ?_, ?_⟩ <;>
      simp [CreateProject, perform, simWorld, newProject, hf1, finish, JsonError, done, replies]
  | none =>
    by_cases hcond : (dup && s.networks.any (fun n => n.2 == "net_" ++ lib.ToSnake dto.Name))
        = true
    · refine ⟨⟨"network with name already exists", _, ?_, Or.inl rfl⟩, ?_, ?_, ?_⟩ <;>
        simp [CreateProject, perform, simWorld, newProject, hf1, hcond, finish, JsonError,
          done, replies]
    · cases hf3 : fault
          { networks := s.networks
              ++ [(freshId (s.networks.map Prod.fst), "net_" ++ lib.ToSnake dto.Name)],
            projects := s.projects }
          (Call.networkRemove (freshId (s.networks.map Prod.fst))) with
      | some e3 =>
        cases hf2 : fault
            { networks := s.networks
                ++ [(freshId (s.networks.map Prod.fst), "net_" ++ lib.ToSnake dto.Name)],
              projects := s.projects }
            (Call.dbCreateProject
              { Name := lib.ToKebab dto.Name,
                NetworkName := "net_" ++ lib.ToSnake dto.Name }) with
        | some e2 =>
          refine ⟨⟨e2, _, ?_, Or.inr rfl⟩, ?_, ?_, ?_⟩ <;>
            simp [CreateProject, perform, simWorld, newProject, hf1, hcond, hf2, hf3, finish,
              JsonError, done, replies]
        | none =>
          refine ⟨⟨"duplicate key value violates unique constraint", _, ?_, Or.inr rfl⟩,
            ?_, ?_, ?_⟩ <;>
            simp [CreateProject, perform, simWorld, newProject, hf1, hcond, hf2, hf3, h2,
              finish, JsonError, done, replies]
      | none =>
        cases hf2 : fault
            { networks := s.networks
                ++ [(freshId (s.networks.map Prod.fst), "net_" ++ lib.ToSnake dto.Name)],
              projects := s.projects }
            (Call.dbCreateProject
              { Name := lib.ToKebab dto.Name,
                NetworkName := "net_" ++ lib.ToSnake dto.Name }) with
        | some e2 =>
          refine ⟨⟨e2, _, ?_, Or.inr rfl⟩, ?_, ?_, ?_⟩ <;>
            simp [CreateProject, perform, simWorld, newProject, hf1, hcond, hf2, hf3, finish,
              JsonError, done, replies, List.filter_append, hfresh]
          all_goals
            intro ref o e _ ho
            subst ho
            simp
        | none =>
          refine ⟨⟨"duplicate key value violates unique constraint", _, ?_, Or.inr rfl⟩,
            ?_, ?_, ?_⟩ <;>
            simp [CreateProject, perform, simWorld, newProject, hf1, hcond, hf2, hf3, h2,
              finish, JsonError, done, replies, List.filter_append, hfresh]
          all_goals
            intro ref o e _ ho
            subst ho
            simp
/-- C8 (as amended): on the reference collaborators, where any call may fail, a
`CreateProject` that answers 201 for a name that had no network yet, followed by a second
`CreateProject` with the same name: the second call answers 500, never 400 (with the hint
`cannot create network for the project` when the runtime refuses the network, `cannot create
project` when the store refuses the row), and afterwards exactly one project row carries
that name. Exactly one network carries the derived name when every network removal of the
second call succeeded (or none was needed); when the removal of the network that the second
call created fails, its error is discarded and two networks carry that name. -/
theorem CreateProject_twice (lib : Strcase) (fault : Sim → Call → Option String) (dup : Bool)
    (s : Sim) (dto : CreateProjectDTO)
    (hnet : ∀ n ∈ s.networks, n.2 ≠ "net_" ++ lib.ToSnake dto.Name)
    (hfirst : replies (CreateProject lib (simWorld fault dup) (Except.ok dto) s).trace
      = [Reply.success 201 "project created" Data.null]) :
    (∃ e help, replies (CreateProject lib (simWorld fault dup) (Except.ok dto)
          (CreateProject lib (simWorld fault dup) (Except.ok dto) s).world).trace
        = [Reply.error 500 e help]
      ∧ (help = "cannot create network for the project" ∨ help = "cannot create project"))
    ∧ ((CreateProject lib (simWorld fault dup) (Except.ok dto)
          (CreateProject lib (simWorld fault dup) (Except.ok dto) s).world).world.projects.filter
          (fun r => r.Name == lib.ToKebab dto.Name)).length = 1
    ∧ ((∀ ref o, Event.call (Call.networkRemove ref) o
          ∈ (CreateProject lib (simWorld fault dup) (Except.ok dto)
              (CreateProject lib (simWorld fault dup) (Except.ok dto) s).world).trace →
          o.err = none) →
        ((CreateProject lib (simWorld fault dup) (Except.ok dto)
          (CreateProject lib (simWorld fault dup) (Except.ok dto) s).world).world.networks.filter
          (fun n => n.2 == "net_" ++ lib.ToSnake dto.Name)).length = 1)
    ∧ (∀ ref o e, Event.call (Call.networkRemove ref) o
          ∈ (CreateProject lib (simWorld fault dup) (Except.ok dto)
              (CreateProject lib (simWorld fault dup) (Except.ok dto) s).world).trace →
        o.err = some e →
        ((CreateProject lib (simWorld fault dup) (Except.ok dto)
          (CreateProject lib (simWorld fault dup) (Except.ok dto) s).world).world.networks.filter
          (fun n => n.2 == "net_" ++ lib.ToSnake dto.Name)).length = 2) := by
  obtain ⟨hrow, hw1⟩ := CreateProject_first lib fault dup s dto hfirst
  have hrow1 : ∃ r ∈ (CreateProject lib (simWorld fault dup) (Except.ok dto) s).world.projects,
      r.Name = lib.ToKebab dto.Name := by
    rw [hw1]
    exact ⟨_, List.mem_append_right _ (List.mem_singleton_self _), rfl⟩
  obtain ⟨hrep2, hp2, hn2, hn3⟩ := CreateProject_again lib fault dup _ dto hrow1
  have hp0 : s.projects.filter (fun r => r.Name == lib.ToKebab dto.Name) = [] := by
    rw [List.filter_eq_nil_iff]
    intro r hr
    simpa using hrow r hr
  have hn0 : s.networks.filter (fun n => n.2 == "net_" ++ lib.ToSnake dto.Name) = [] := by
    rw [List.filter_eq_nil_iff]
    intro n hn
    simpa using hnet n hn
  refine ⟨hrep2, ?_, ?_, ?_⟩
  · rw [hp2, hw1]
    simp [List.filter_append, hp0, newProject]
  · intro hall
    rw [hn2 hall, hw1]
    simp [List.filter_append, hn0]
  · intro ref o e hev he
    rw [hn3 ref o e hev he, hw1]
    simp [List.filter_append, hn0]

/-- Witness for C8 (as amended): the name `shop` on the empty state, with a runtime that
does not check network names: once with no failing call, where one network remains, and once
with failing network removals, where two remain. -/
theorem CreateProject_twice_witness :
    ((CreateProject plainCase (simWorld noFaults false) (Except.ok { Name := "shop" })
          (CreateProject plainCase (simWorld noFaults false)
            (Except.ok { Name := "shop" }) {}).world).world.networks.filter
          (fun n => n.2 == "net_" ++ plainCase.ToSnake "shop")).length = 1
    ∧ (∃ e help, replies (CreateProject plainCase (simWorld removalFails false)
          (Except.ok { Name := "shop" })
          (CreateProject plainCase (simWorld removalFails false)
            (Except.ok { Name := "shop" }) {}).world).trace
        = [Reply.error 500 e help]
      ∧ (help = "cannot create network for the project" ∨ help = "cannot create project"))
    ∧ ((CreateProject plainCase (simWorld removalFails false) (Except.ok { Name := "shop" })
          (CreateProject plainCase (simWorld removalFails false)
            (Except.ok { Name := "shop" }) {}).world).world.projects.filter
          (fun r => r.Name == plainCase.ToKebab "shop")).length = 1
    ∧ ((CreateProject plainCase (simWorld removalFails false) (Except.ok { Name := "shop" })
          (CreateProject plainCase (simWorld removalFails false)
            (Except.ok { Name := "shop" }) {}).world).world.networks.filter
          (fun n => n.2 == "net_" ++ plainCase.ToSnake "shop")).length = 2 := by
  have h0 := CreateProject_twice plainCase noFaults false {} { Name := "shop" }
    (by intro n hn; cases hn) (by decide)
  have h := CreateProject_twice plainCase removalFails false {} { Name := "shop" }
    (by intro n hn; cases hn) (by decide)
  have ht : (CreateProject plainCase (simWorld noFaults false) (Except.ok { Name := "shop" })
      (CreateProject plainCase (simWorld noFaults false)
        (Except.ok { Name := "shop" }) {}).world).trace
      = [Event.call (Call.networkCreate "net_shop") { str := "nn" },
         Event.call (Call.dbCreateProject { Name := "shop", NetworkName := "net_shop" })
           { err := some "duplicate key value violates unique constraint" },
         Event.call (Call.networkRemove "nn") noError,
         Event.reply (Reply.error 500 "duplicate key value violates unique constraint"
           "cannot create project")] := by
    decide
  refine ⟨h0.2.2.1 ?_, h.1, h.2.1, h.2.2.2 "nn"
    { err := some "Cannot connect to the Docker daemon" }
    "Cannot connect to the Docker daemon" (by decide) rfl⟩
  intro ref o hev
  rw [ht] at hev
  simp at hev
  rw [hev.2]
  rfl

/-- C8 (as stated) fails: the second `CreateProject "shop"` on the empty reference state
is answered with status 500, not 400, whether or not the runtime checks network names; and
when the removal of the second network fails, two networks named `net_shop` remain. -/
theorem CreateProject_second_call_is_500 :
    replies (CreateProject plainCase (simWorld noFaults false) (Except.ok { Name := "shop" })
          (CreateProject plainCase (simWorld noFaults false)
            (Except.ok { Name := "shop" }) {}).world).trace
        = [Reply.error 500 "duplicate key value violates unique constraint"
            "cannot create project"]
    ∧ replies (CreateProject plainCase (simWorld noFaults true) (Except.ok { Name := "shop" })
          (CreateProject plainCase (simWorld noFaults true)
            (Except.ok { Name := "shop" }) {}).world).trace
        = [Reply.error 500 "network with name already exists"
            "cannot create network for the project"]
    ∧ (CreateProject plainCase (simWorld removalFails false) (Except.ok { Name := "shop" })
          (CreateProject plainCase (simWorld removalFails false)
            (Except.ok { Name := "shop" }) {}).world).world.networks
        = [("n", "net_shop"), ("nn", "net_shop")] := by
  decide

/-! ## ProvisionDatabase at concrete inputs -/

/-- C2: the code at the failing input. The volume creation fails, yet the run goes on to
insert a Database row with empty container and volume identifiers and answers 200: no
error is reported and a record is persisted. -/
theorem ProvisionDatabase_volume_failure_swallowed :
    (ProvisionDatabase plainCase scripted (some shopProject) (Except.ok ordersRequest)
        (provisionPrefix ++ [failWith "no space left on device", { str := "row-1" }])).trace.drop 7
      = [Event.call (Call.volumeCreate "local" "vol_db_ck1") (failWith "no space left on device"),
         Event.call (Call.dbCreateDatabase
           { Name := "orders", Type_ := "postgres", Username := "uaqidbaugb",
             Password := "AQIDBAUGBwgJCgsMDQ4PEA==", ContainerId := "", ProjectId := "p1",
             VolumeName := "", ImageVersion := "" }) { str := "row-1" },
         Event.reply (Reply.success 200 "database provisioned successfully"
           (Data.fields [("id", "row-1"), ("name", "orders")]))] := by
  decide

/-- C3: the code at a successful provision. The image pulled is `postgres:15`, and the row
that is inserted carries the volume name `vol_db_ck1` in `ImageVersion`; the other
attributes are the derived name, the requested type, the credentials given to the
container, the container and volume names and the project id. -/
theorem ProvisionDatabase_image_version_is_volume_name :
    calls (ProvisionDatabase plainCase scripted (some shopProject) (Except.ok ordersRequest)
        (provisionPrefix ++ [{ str := "vol_db_ck1" }, { str := "abcdef" }, noError,
          { str := "row-1" }])).trace
      = [Call.randRead 9, Call.randRead 16, Call.dbCountDatabases "orders" "p1",
         Call.imagePull "postgres:15", Call.imagePullDrain "postgres:15",
         Call.networkInspect "net_shop", Call.cuidNew, Call.volumeCreate "local" "vol_db_ck1",
         Call.dbContainerCreate "postgres:15"
           ["POSTGRES_DB=orders", "POSTGRES_USER=uaqidbaugb",
            "POSTGRES_PASSWORD=AQIDBAUGBwgJCgsMDQ4PEA=="]
           "vol_db_ck1" "/var/lib/postgresql/data" "net_shop" "always" "db_ck1",
         Call.containerStart "abcdef",
         Call.dbCreateDatabase
           { Name := "orders", Type_ := "postgres", Username := "uaqidbaugb",
             Password := "AQIDBAUGBwgJCgsMDQ4PEA==", ContainerId := "db_ck1", ProjectId := "p1",
             VolumeName := "vol_db_ck1", ImageVersion := "vol_db_ck1" }]
    ∧ replies (ProvisionDatabase plainCase scripted (some shopProject) (Except.ok ordersRequest)
        (provisionPrefix ++ [{ str := "vol_db_ck1" }, { str := "abcdef" }, noError,
          { str := "row-1" }])).trace
      = [Reply.success 200 "database provisioned successfully"
          (Data.fields [("id", "row-1"), ("name", "orders")])] := by
  decide

/-! ## ExecuteFunction at a container that never becomes healthy -/

/-- C4: the code at the failing input. The container is created and started and all four
probes fail; `JsonError` is then called with a nil error and dereferences it, so the run
ends in a panic with no reply written by the handler. Nothing is forwarded and no teardown
is scheduled. -/
theorem ExecuteFunction_unhealthy_panics :
    (ExecuteFunction plainCase scripted (some shopProject) "hello" ""
        unhealthyScript).panicked
      = some "invalid memory address or nil pointer dereference"
    ∧ (ExecuteFunction plainCase scripted (some shopProject) "hello" ""
        unhealthyScript).trace
      = [Event.call (Call.dbFirstFunction "hello" "p1") { fn := helloFunction },
         Event.call Call.cuidNew { str := "ck9" },
         Event.call (Call.fnContainerCreate "hello:latest"
           ["FUNC_HELLO_CREATED_AT=", "FUNC_HELLO_UPDATED_AT=", "FUNC_HELLO_NAME=hello",
            "FUNC_HELLO_DESCRIPTION=", "FUNC_HELLO_FUNCTION_ID=hello",
            "FUNC_HELLO_VERSION=1.0.0", "DB_ORDERS_DB_CREATED_AT=", "DB_ORDERS_DB_UPDATED_AT=",
            "DB_ORDERS_DB_NAME=orders_db", "DB_ORDERS_DB_TYPE=postgres",
            "DB_ORDERS_DB_USERNAME=", "DB_ORDERS_DB_PASSWORD=",
            "DB_ORDERS_DB_CONTAINER_ID=db_c1"] "net_shop" "func_ck9") { str := "cid9" },
         Event.call (Call.containerStart "cid9") noError,
         Event.call (Call.containerInspect "cid9") { list := ["49153"] },
         Event.call (Call.sleep 250) noError,
         Event.call (Call.httpGet "http://localhost:49153/health") (failWith "connection refused"),
         Event.call (Call.sleep 500) noError,
         Event.call (Call.httpGet "http://localhost:49153/health") { num := 503 },
         Event.call (Call.sleep 1000) noError,
         Event.call (Call.httpGet "http://localhost:49153/health") { num := 503 },
         Event.call (Call.sleep 3000) noError,
         Event.call (Call.httpGet "http://localhost:49153/health") { num := 500 }] := by
  decide

/-! ## Readiness polling -/

/-- C5: for every world, `pollContainerHealthCheck` issues a prefix of the schedule
sleep 250, probe, sleep 500, probe, sleep 1000, probe, sleep 3000, probe, made of `k`
sleep-then-probe pairs with `1 ≤ k ≤ 4`; every probe but the last one made failed; it
returns true exactly when the last probe made had no transport error and status 200; it
returns false only after all four pairs, with all four probes failed and 4750 ms slept; so
a run in which any probe succeeded returns true. -/
theorem pollContainerHealthCheck_schedule {σ : Type} (w : World σ) (s : σ) (port : String) :
    (∃ k, 1 ≤ k ∧ k ≤ 4
      ∧ calls (pollContainerHealthCheck w { world := s, trace := [] } port).2.trace
        = ([Call.sleep 250, Call.httpGet ("http://localhost:" ++ port ++ "/health"),
            Call.sleep 500, Call.httpGet ("http://localhost:" ++ port ++ "/health"),
            Call.sleep 1000, Call.httpGet ("http://localhost:" ++ port ++ "/health"),
            Call.sleep 3000, Call.httpGet ("http://localhost:" ++ port ++ "/health")]).take (2 * k)
      ∧ (probeOutcomes (pollContainerHealthCheck w { world := s, trace := [] } port).2.trace).length
        = k)
    ∧ (pollContainerHealthCheck w { world := s, trace := [] } port).2.trace
        = asEvents (callEvents (pollContainerHealthCheck w { world := s, trace := [] } port).2.trace)
    ∧ (∀ o ∈ (probeOutcomes
          (pollContainerHealthCheck w { world := s, trace := [] } port).2.trace).dropLast,
        ¬ (o.err = none ∧ o.num = 200))
    ∧ ((pollContainerHealthCheck w { world := s, trace := [] } port).1 = true ↔
        ∃ o, (probeOutcomes
            (pollContainerHealthCheck w { world := s, trace := [] } port).2.trace).getLast? = some o
          ∧ o.err = none ∧ o.num = 200)
    ∧ ((pollContainerHealthCheck w { world := s, trace := [] } port).1 = false →
        (probeOutcomes (pollContainerHealthCheck w { world := s, trace := [] } port).2.trace).length
          = 4
        ∧ (sleeps (pollContainerHealthCheck w { world := s, trace := [] } port).2.trace)
          = [250, 500, 1000, 3000]
        ∧ (sleeps (pollContainerHealthCheck w { world := s, trace := [] } port).2.trace).sum
          = 4750)
    ∧ ((∃ o ∈ probeOutcomes (pollContainerHealthCheck w { world := s, trace := [] } port).2.trace,
          o.err = none ∧ o.num = 200) →
        (pollContainerHealthCheck w { world := s, trace := [] } port).1 = true) := by
  simp only [pollContainerHealthCheck, retryIntervals, pollLoop, perform]
  split_ifs with h1 h2 h3 h4
  · refine ⟨⟨1, by omega, by omega, ?_, ?_⟩, ?_, ?_, ?_, ?_, ?_⟩
    all_goals simp_all [calls, probeOutcomes, sleeps, callEvents, asEvents, probeOk]
  · refine ⟨⟨2, by omega, by omega, ?_, ?_⟩, ?_, ?_, ?_, ?_, ?_⟩
    all_goals simp_all [calls, probeOutcomes, sleeps, callEvents, asEvents, probeOk]
  · refine ⟨⟨3, by omega, by omega, ?_, ?_⟩, ?_, ?_, ?_, ?_, ?_⟩
    all_goals simp_all [calls, probeOutcomes, sleeps, callEvents, asEvents, probeOk]
  · refine ⟨⟨4, by omega, by omega, ?_, ?_⟩, ?_, ?_, ?_, ?_, ?_⟩
    all_goals simp_all [calls, probeOutcomes, sleeps, callEvents, asEvents, probeOk]
  · refine ⟨⟨4, by omega, by omega, ?_, ?_⟩, ?_, ?_, ?_, ?_, ?_⟩
    all_goals simp_all [calls, probeOutcomes, sleeps, callEvents, asEvents, probeOk]

theorem asEvents_append (a b : List (Call × Outcome)) :
    asEvents (a ++ b) = asEvents a ++ asEvents b := by
  simp [asEvents]

theorem generateEnvVars_spec {σ : Type} (lib : Strcase) (w : World σ) (st : St σ)
    (dto : CreateDatabaseDTO) :
    ∃ evs : List (Call × Outcome),
      (generateEnvVars lib w st dto).2.trace = st.trace ++ asEvents evs
      ∧ (∀ x ∈ evs, x.1 = Call.randRead 9 ∨ x.1 = Call.randRead 16)
      ∧ (∀ ev, (generateEnvVars lib w st dto).1 = Except.ok ev → ev.err = none →
          dto.Type_ = Postgres ∧ ev.dbName = lib.ToSnake dto.Name
          ∧ ev.envVars = ["POSTGRES_DB=" ++ ev.dbName, "POSTGRES_USER=" ++ ev.username,
              "POSTGRES_PASSWORD=" ++ ev.password]
          ∧ ∃ o1 o2, evs = [(Call.randRead 9, o1), (Call.randRead 16, o2)]) := by
  cases h1 : (w.step st.world (Call.randRead 9)).1.err with
  | some e =>
    refine ⟨[(Call.randRead 9, (w.step st.world (Call.randRead 9)).1)], ?_, ?_, ?_⟩
    · simp [generateEnvVars, GenerateSecureUsername, perform, h1, asEvents]
    · simp
    · simp [generateEnvVars, GenerateSecureUsername, perform, h1]
  | none =>
    by_cases h2 : 9 ≤ ((base64Encode (filledBuffer 9 (w.step st.world (Call.randRead 9)).1)).filter
        (fun ch => !(ch == '/') && !(ch == '+') && !(ch == '='))).length
    · cases h3 : (w.step (w.step st.world (Call.randRead 9)).2 (Call.randRead 16)).1.err with
      | some e =>
        refine ⟨[(Call.randRead 9, (w.step st.world (Call.randRead 9)).1),
          (Call.randRead 16, (w.step (w.step st.world (Call.randRead 9)).2
            (Call.randRead 16)).1)], ?_, ?_, ?_⟩
        · simp [generateEnvVars, GenerateSecureUsername, GeneratePassword, perform, h1, h2, h3,
            asEvents]
        · simp
        · simp [generateEnvVars, GenerateSecureUsername, GeneratePassword, perform, h1, h2, h3]
      | none =>
        refine ⟨[(Call.randRead 9, (w.step st.world (Call.randRead 9)).1),
          (Call.randRead 16, (w.step (w.step st.world (Call.randRead 9)).2
            (Call.randRead 16)).1)], ?_, ?_, ?_⟩
        · by_cases h4 : dto.Type_ = Postgres <;>
            simp [generateEnvVars, GenerateSecureUsername, GeneratePassword, perform, h1, h2, h3,
              h4, asEvents]
        · simp
        · by_cases h4 : dto.Type_ = Postgres
          · simp [generateEnvVars, GenerateSecureUsername, GeneratePassword, perform, h1, h2,
              h3, h4]
          · simp [generateEnvVars, GenerateSecureUsername, GeneratePassword, perform, h1, h2,
              h3, h4]
    · refine ⟨[(Call.randRead 9, (w.step st.world (Call.randRead 9)).1)], ?_, ?_, ?_⟩
      · simp [generateEnvVars, GenerateSecureUsername, perform, h1, h2, asEvents]
      · simp
      · simp [generateEnvVars, GenerateSecureUsername, perform, h1, h2]

theorem pullDatabaseDockerImage_spec {σ : Type} (w : World σ) (st : St σ) (image : String) :
    ∃ evs : List (Call × Outcome),
      (pullDatabaseDockerImage w st image).2.trace = st.trace ++ asEvents evs
      ∧ (∀ x ∈ evs, x.1 = Call.imagePull image ∨ x.1 = Call.imagePullDrain image)
      ∧ ((pullDatabaseDockerImage w st image).1 = none →
          ∃ o1 o2, evs = [(Call.imagePull image, o1), (Call.imagePullDrain image, o2)]
            ∧ o1.err = none ∧ o2.err = none) := by
  cases h1 : (w.step st.world (Call.imagePull image)).1.err with
  | some e =>
    refine ⟨[(Call.imagePull image, (w.step st.world (Call.imagePull image)).1)], ?_, ?_, ?_⟩
    · simp [pullDatabaseDockerImage, perform, h1, asEvents]
    · simp
    · simp [pullDatabaseDockerImage, perform, h1]
  | none =>
    refine ⟨[(Call.imagePull image, (w.step st.world (Call.imagePull image)).1),
      (Call.imagePullDrain image,
        (w.step (w.step st.world (Call.imagePull image)).2 (Call.imagePullDrain image)).1)],
      ?_, ?_, ?_⟩
    · simp [pullDatabaseDockerImage, perform, h1, asEvents]
    · simp
    · intro h
      simp [pullDatabaseDockerImage, perform, h1] at h
      exact ⟨_, _, rfl, h1, h⟩

theorem StopAndRemoveContainer_spec {σ : Type} (w : World σ) (st : St σ) (containerId : String) :
    ∃ o1 : Outcome,
      ((StopAndRemoveContainer w st containerId).2.trace
          = st.trace ++ [Event.call (Call.containerStop containerId) o1] ∧ o1.err ≠ none)
      ∨ (∃ o2 : Outcome, (StopAndRemoveContainer w st containerId).2.trace
          = st.trace ++ [Event.call (Call.containerStop containerId) o1,
              Event.call (Call.containerRemove containerId false true) o2] ∧ o1.err = none) := by
  cases h1 : (w.step st.world (Call.containerStop containerId)).1.err with
  | some e =>
    refine ⟨(w.step st.world (Call.containerStop containerId)).1, Or.inl ⟨?_, ?_⟩⟩
    · simp [StopAndRemoveContainer, perform, h1]
    · simp [h1]
  | none =>
    refine ⟨(w.step st.world (Call.containerStop containerId)).1, Or.inr ⟨
      (w.step (w.step st.world (Call.containerStop containerId)).2
        (Call.containerRemove containerId false true)).1, ?_, h1⟩⟩
    cases h2 : (w.step (w.step st.world (Call.containerStop containerId)).2
        (Call.containerRemove containerId false true)).1.err <;>
      simp [StopAndRemoveContainer, perform, h1, h2]

/-- What the database `createAndStartContainer` leaves in the trace and returns. With a
nil error it either created and started the container named by the returned identifier, on
the volume named by the returned volume name, or it returned two empty strings right
after a failed volume creation. -/
theorem databases_createAndStartContainer_spec {σ : Type} (w : World σ) (st : St σ)
    (dto : CreateDatabaseDTO) (image : String) (envVars : List String) (project : Project) :
    ∃ evs : List (Call × Outcome),
      (databases.createAndStartContainer w st dto image envVars project).2.trace
        = st.trace ++ asEvents evs
      ∧ (∀ x ∈ evs, isPrep x.1 = true)
      ∧ ((databases.createAndStartContainer w st dto image envVars project).1.err = none →
          (∃ o1 o2 o3 o4 o5 : Outcome,
            evs = [(Call.networkInspect project.NetworkName, o1), (Call.cuidNew, o2),
                (Call.volumeCreate "local" ("vol_" ++ ("db_" ++ o2.str)), o3),
                (Call.dbContainerCreate image envVars o3.str "/var/lib/postgresql/data" o1.str
                  "always" ("db_" ++ o2.str), o4),
                (Call.containerStart o4.str, o5)]
            ∧ o1.err = none ∧ o3.err = none ∧ o4.err = none ∧ o5.err = none
            ∧ (databases.createAndStartContainer w st dto image envVars project).1.containerId
              = "db_" ++ o2.str
            ∧ (databases.createAndStartContainer w st dto image envVars project).1.volumeName
              = "vol_" ++ ("db_" ++ o2.str))
          ∨ (∃ o1 o2 o3 : Outcome,
            evs = [(Call.networkInspect project.NetworkName, o1), (Call.cuidNew, o2),
                (Call.volumeCreate "local" ("vol_" ++ ("db_" ++ o2.str)), o3)]
            ∧ o3.err ≠ none
            ∧ (databases.createAndStartContainer w st dto image envVars project).1.containerId
              = ""
            ∧ (databases.createAndStartContainer w st dto image envVars project).1.volumeName
              = "")) := by
  cases h1 : (w.step st.world (Call.networkInspect project.NetworkName)).1.err with
  | some e =>
    refine ⟨[(Call.networkInspect project.NetworkName,
      (w.step st.world (Call.networkInspect project.NetworkName)).1)], ?_, ?_, ?_⟩
    · simp [databases.createAndStartContainer, perform, h1, asEvents]
    · simp [isPrep]
    · simp [databases.createAndStartContainer, perform, h1]
  | none =>
    generalize hs1 : (w.step st.world (Call.networkInspect project.NetworkName)) = r1 at h1
    generalize hs2 : (w.step r1.2 Call.cuidNew) = r2
    cases h3 : (w.step r2.2 (Call.volumeCreate "local" ("vol_" ++ ("db_" ++ r2.1.str)))).1.err with
    | some e =>
      refine ⟨[(Call.networkInspect project.NetworkName, r1.1), (Call.cuidNew, r2.1),
        (Call.volumeCreate "local" ("vol_" ++ ("db_" ++ r2.1.str)),
          (w.step r2.2 (Call.volumeCreate "local" ("vol_" ++ ("db_" ++ r2.1.str)))).1)],
        ?_, ?_, ?_⟩
      · simp [databases.createAndStartContainer, perform, hs1, hs2, h1, h3, asEvents]
      · simp [isPrep]
      · intro _
        refine Or.inr ⟨_, _, _, rfl, ?_, ?_, ?_⟩
        · simp [h3]
        · simp [databases.createAndStartContainer, perform, hs1, hs2, h1, h3]
        · simp [databases.createAndStartContainer, perform, hs1, hs2, h1, h3]
    | none =>
      generalize hs3 : (w.step r2.2 (Call.volumeCreate "local" ("vol_" ++ ("db_" ++ r2.1.str))))
        = r3 at h3
      by_cases ht : dto.Type_ = Postgres
      · generalize hs4 : (w.step r3.2 (Call.dbContainerCreate image envVars r3.1.str
          "/var/lib/postgresql/data" r1.1.str "always" ("db_" ++ r2.1.str))) = r4
        cases h4 : r4.1.err with
        | some e =>
          refine ⟨[(Call.networkInspect project.NetworkName, r1.1), (Call.cuidNew, r2.1),
            (Call.volumeCreate "local" ("vol_" ++ ("db_" ++ r2.1.str)), r3.1),
            (Call.dbContainerCreate image envVars r3.1.str "/var/lib/postgresql/data" r1.1.str
              "always" ("db_" ++ r2.1.str), r4.1)], ?_, ?_, ?_⟩
          · simp [databases.createAndStartContainer, perform, hs1, hs2, hs3, hs4, h1, h3, h4, ht,
              asEvents]
          · simp [isPrep]
          · simp [databases.createAndStartContainer, perform, hs1, hs2, hs3, hs4, h1, h3, h4, ht]
        | none =>
          generalize hs5 : (w.step r4.2 (Call.containerStart r4.1.str)) = r5
          refine ⟨[(Call.networkInspect project.NetworkName, r1.1), (Call.cuidNew, r2.1),
            (Call.volumeCreate "local" ("vol_" ++ ("db_" ++ r2.1.str)), r3.1),
            (Call.dbContainerCreate image envVars r3.1.str "/var/lib/postgresql/data" r1.1.str
              "always" ("db_" ++ r2.1.str), r4.1),
            (Call.containerStart r4.1.str, r5.1)], ?_, ?_, ?_⟩
          · cases h5 : r5.1.err <;>
              simp [databases.createAndStartContainer, perform, hs1, hs2, hs3, hs4, hs5, h1, h3,
                h4, h5, ht, asEvents]
          · simp [isPrep]
          · cases h5 : r5.1.err with
            | some e =>
              simp [databases.createAndStartContainer, perform, hs1, hs2, hs3, hs4, hs5, h1, h3,
                h4, h5, ht]
            | none =>
              intro _
              refine Or.inl ⟨_, _, _, _, _, rfl, h1, h3, h4, h5, ?_, ?_⟩
              · simp [databases.createAndStartContainer, perform, hs1, hs2, hs3, hs4, hs5, h1,
                  h3, h4, h5, ht]
              · simp [databases.createAndStartContainer, perform, hs1, hs2, hs3, hs4, hs5, h1,
                  h3, h4, h5, ht]
      · refine ⟨[(Call.networkInspect project.NetworkName, r1.1), (Call.cuidNew, r2.1),
          (Call.volumeCreate "local" ("vol_" ++ ("db_" ++ r2.1.str)), r3.1)], ?_, ?_, ?_⟩
        · simp [databases.createAndStartContainer, perform, hs1, hs2, hs3, h1, h3, ht, asEvents]
        · simp [isPrep]
        · simp [databases.createAndStartContainer, perform, hs1, hs2, hs3, h1, h3, ht]

/-- Every run of `ProvisionDatabase` on a bound request in a project context: preparation
calls, then either nothing (panic while generating credentials), or one error reply, or the
failed insert followed by the 500 reply and then the stop (and removal) of the row's
container, or the successful insert followed by the 200 reply. -/
theorem ProvisionDatabase_shape {σ : Type} (lib : Strcase) (w : World σ) (s : σ) (p : Project)
    (dto : CreateDatabaseDTO) :
    ∃ pre : List (Call × Outcome), (∀ x ∈ pre, isPrep x.1 = true) ∧
      ((ProvisionDatabase lib w (some p) (Except.ok dto) s).trace = asEvents pre
      ∨ (∃ code e help, (ProvisionDatabase lib w (some p) (Except.ok dto) s).trace
          = asEvents pre ++ [Event.reply (Reply.error code e help)])
      ∨ (∃ (row : Database) (o : Outcome) (e : String) (o1 : Outcome),
          o.err = some e
          ∧ (ProvisionDatabase lib w (some p) (Except.ok dto) s).panicked = none
          ∧ row.Name = lib.ToSnake dto.Name ∧ row.Type_ = dto.Type_ ∧ row.ProjectId = p.ID
          ∧ row.ImageVersion = row.VolumeName
          ∧ (containerPrepared p dto row pre ∨ volumeFailed p dto row pre)
          ∧ (((ProvisionDatabase lib w (some p) (Except.ok dto) s).trace
                = asEvents pre ++ [Event.call (Call.dbCreateDatabase row) o,
                    Event.reply (Reply.error 500 e "failed to create database entity"),
                    Event.call (Call.containerStop row.ContainerId) o1]
              ∧ o1.err ≠ none)
            ∨ (∃ o2 : Outcome, (ProvisionDatabase lib w (some p) (Except.ok dto) s).trace
                = asEvents pre ++ [Event.call (Call.dbCreateDatabase row) o,
                    Event.reply (Reply.error 500 e "failed to create database entity"),
                    Event.call (Call.containerStop row.ContainerId) o1,
                    Event.call (Call.containerRemove row.ContainerId false true) o2]
              ∧ o1.err = none)))
      ∨ (∃ (row : Database) (o : Outcome),
          o.err = none
          ∧ (ProvisionDatabase lib w (some p) (Except.ok dto) s).panicked = none
          ∧ row.Name = lib.ToSnake dto.Name ∧ row.Type_ = dto.Type_ ∧ row.ProjectId = p.ID
          ∧ row.ImageVersion = row.VolumeName
          ∧ (containerPrepared p dto row pre ∨ volumeFailed p dto row pre)
          ∧ (ProvisionDatabase lib w (some p) (Except.ok dto) s).trace
              = asEvents pre ++ [Event.call (Call.dbCreateDatabase row) o,
                  Event.reply (Reply.success 200 "database provisioned successfully"
                    (Data.fields [("id", o.str), ("name", row.Name)]))])) := by
  obtain ⟨evs1, hg1, hg2, hg3⟩ := generateEnvVars_spec lib w { world := s, trace := [] } dto
  have hprep1 : ∀ x ∈ evs1, isPrep x.1 = true := by
    intro x hx
    rcases hg2 x hx with h | h <;> simp [h, isPrep]
  unfold ProvisionDatabase
  simp only [GetProjectFromContext]
  rcases hg : generateEnvVars lib w { world := s, trace := [] } dto with ⟨pan | ev, st1⟩
  · rw [hg] at hg1
    simp only [List.nil_append] at hg1
    exact ⟨evs1, hprep1, Or.inl (by simp [panicWith, hg1])⟩
  · rw [hg] at hg1 hg3
    simp only [List.nil_append] at hg1
    obtain ⟨dbName, username, password, envVars, err⟩ := ev
    cases err with
    | some e =>
      exact ⟨evs1, hprep1, Or.inr (Or.inl ⟨400, e, "cannot generate env vars",
        by simp [finish, JsonError, done, hg1]⟩)⟩
    | none =>
      obtain ⟨ht, hname, henv, o1, o2, hevs1⟩ := hg3 _ rfl rfl
      simp only at hname henv
      simp only []
      generalize hr2 : perform w st1 (Call.dbCountDatabases dbName p.ID) = r2
      have hr2t : r2.2.trace = asEvents (evs1 ++ [(Call.dbCountDatabases dbName p.ID, r2.1)]) := by
        rw [← hr2]
        simp [perform, hg1, asEvents]
      have hprep2 : ∀ x ∈ evs1 ++ [(Call.dbCountDatabases dbName p.ID, r2.1)],
          isPrep x.1 = true := by
        intro x hx
        rcases List.mem_append.mp hx with h | h
        · exact hprep1 x h
        · simp at h
          simp [h, isPrep]
      by_cases hc : r2.1.num > 0
      · exact ⟨_, hprep2, Or.inr (Or.inl ⟨400, "record exists",
          "database with the same name exists for the project",
          by simp [hc, finish, JsonError, done, hr2t]⟩)⟩
      · simp only [hc, if_false]
        have himg : determineDatabaseImage dto
            = ((determineDatabaseImage dto).1, none) := by
          simp [determineDatabaseImage, ht]
        rw [himg]
        simp only []
        generalize himage : (determineDatabaseImage dto).1 = image
        obtain ⟨evs3, hp1, hp2, hp3⟩ := pullDatabaseDockerImage_spec w r2.2 image
        have hprep3 : ∀ x ∈ evs3, isPrep x.1 = true := by
          intro x hx
          rcases hp2 x hx with h | h <;> simp [h, isPrep]
        have hprep23 : ∀ x ∈ evs1 ++ [(Call.dbCountDatabases dbName p.ID, r2.1)] ++ evs3,
            isPrep x.1 = true := by
          intro x hx
          rcases List.mem_append.mp hx with h | h
          · exact hprep2 x h
          · exact hprep3 x h
        rcases hp : pullDatabaseDockerImage w r2.2 image with ⟨_ | e, st3⟩
        swap
        · rw [hp] at hp1
          simp only at hp1
          refine ⟨evs1 ++ [(Call.dbCountDatabases dbName p.ID, r2.1)] ++ evs3, hprep23,
            Or.inr (Or.inl ⟨500, e, "cannot pull database image", ?_⟩)⟩
          simp [finish, JsonError, done, hp1, hr2t, asEvents]
        · rw [hp] at hp1 hp3
          simp only at hp1
          obtain ⟨o4, o5, hevs3, _, _⟩ := hp3 rfl
          simp only []
          obtain ⟨evs4, hc1, hc2, hc3⟩ :=
            databases_createAndStartContainer_spec w st3 dto image envVars p
          have hst3 : st3.trace
              = asEvents (evs1 ++ [(Call.dbCountDatabases dbName p.ID, r2.1)] ++ evs3) := by
            rw [hp1, hr2t, ← asEvents_append]
          have hprep4 : ∀ x ∈ evs1 ++ [(Call.dbCountDatabases dbName p.ID, r2.1)] ++ evs3 ++ evs4,
              isPrep x.1 = true := by
            intro x hx
            rcases List.mem_append.mp hx with h | h
            · exact hprep23 x h
            · exact hc2 x h
          rcases hcas : databases.createAndStartContainer w st3 dto image envVars p
            with ⟨⟨containerId, volumeName, err⟩, st4⟩
          rw [hcas] at hc1 hc3
          simp only at hc1 hc3
          have hst4 : st4.trace
              = asEvents (evs1 ++ [(Call.dbCountDatabases dbName p.ID, r2.1)] ++ evs3 ++ evs4) := by
            rw [hc1, hst3, ← asEvents_append]
          cases err with
          | some e =>
            refine ⟨_, hprep4, Or.inr (Or.inl ⟨500, e, "cannot start database container", ?_⟩)⟩
            simp [finish, JsonError, done, hst4]
          | none =>
            simp only []
            have hprepared :
                containerPrepared p dto
                    (dbEntity dbName dto p containerId password username volumeName)
                    (evs1 ++ [(Call.dbCountDatabases dbName p.ID, r2.1)] ++ evs3 ++ evs4)
                ∨ volumeFailed p dto
                    (dbEntity dbName dto p containerId password username volumeName)
                    (evs1 ++ [(Call.dbCountDatabases dbName p.ID, r2.1)] ++ evs3 ++ evs4) := by
              have hzero : r2.1.num = 0 := by omega
              rcases hc3 rfl with ⟨q1, q2, q3, q4, q5, hq, _, hq3, hq4, hq5, hcid, hvol⟩
                | ⟨q1, q2, q3, hq, hq3, hcid, hvol⟩
              · left
                refine ⟨o1, o2, r2.1, o4, o5, q1, q2, q3, q4, q5, ?_, hzero, hq3, hq4, hq5⟩
                simp [hevs1, hevs3, hq, dbEntity, himage, hcid, hvol, henv]
              · right
                refine ⟨o1, o2, r2.1, o4, o5, q1, q2, q3, "vol_" ++ ("db_" ++ q2.str), ?_, hzero,
                  hq3, ?_, ?_⟩
                · simp [hevs1, hevs3, hq, dbEntity, himage]
                · simp [dbEntity, hcid]
                · simp [dbEntity, hvol]
            generalize hr5 : perform w st4 (Call.dbCreateDatabase
              (dbEntity dbName dto p containerId password username volumeName)) = r5
            have hr5t : r5.2.trace = st4.trace ++ [Event.call (Call.dbCreateDatabase
                (dbEntity dbName dto p containerId password username volumeName)) r5.1] := by
              rw [← hr5]
              rfl
            cases hi : r5.1.err with
            | some e =>
              simp only [JsonError]
              obtain ⟨s1, hs⟩ := StopAndRemoveContainer_spec w
                { world := r5.2.world,
                  trace := r5.2.trace ++ [Event.reply
                    (Reply.error 500 e "failed to create database entity")] } containerId
              refine ⟨_, hprep4, Or.inr (Or.inr (Or.inl
                ⟨dbEntity dbName dto p containerId password username volumeName, r5.1, e, s1,
                  hi, rfl, by simp [dbEntity, hname], rfl, rfl, rfl, hprepared, ?_⟩))⟩
              rcases hs with ⟨h, hne⟩ | ⟨s2, h, he⟩
              · left
                refine ⟨?_, hne⟩
                simp only [done]
                rw [h]
                simp [hr5t, hst4, dbEntity]
              · right
                refine ⟨s2, ?_, he⟩
                simp only [done]
                rw [h]
                simp [hr5t, hst4, dbEntity]
            | none =>
              refine ⟨_, hprep4, Or.inr (Or.inr (Or.inr
                ⟨dbEntity dbName dto p containerId password username volumeName, r5.1,
                  hi, rfl, by simp [dbEntity, hname], rfl, rfl, rfl, hprepared, ?_⟩))⟩
              simp [done, JsonSuccessH, hr5t, hst4]

theorem mem_asEvents (c : Call) (o : Outcome) (l : List (Call × Outcome)) :
    Event.call c o ∈ asEvents l ↔ (c, o) ∈ l := by
  simp only [asEvents, List.mem_map]
  constructor
  · rintro ⟨x, hx, h⟩
    cases h
    exact hx
  · intro h
    exact ⟨(c, o), h, rfl⟩

theorem insert_not_prep (row : Database) (o : Outcome) (pre : List (Call × Outcome))
    (hprep : ∀ x ∈ pre, isPrep x.1 = true) :
    Event.call (Call.dbCreateDatabase row) o ∉ asEvents pre := by
  intro h
  have := hprep _ ((mem_asEvents _ _ _).mp h)
  simp [isPrep] at this

/-- C9 (as amended): when the insert of the row fails with `e` after the row's container
was started, the run ends with the failed insert, then the 500 reply carrying `e`, then
the stop of the row's container and, only if the stop succeeded, its removal with volumes.
The reply is written before the compensation, the handler returns normally, and before the
insert only preparation calls were made (no other insert, stop or removal), among them the
creation and start of the container the row names. -/
theorem ProvisionDatabase_reports_then_compensates {σ : Type} (lib : Strcase) (w : World σ)
    (s : σ) (p : Project) (dto : CreateDatabaseDTO) (row : Database) (o : Outcome) (e : String)
    (hins : Event.call (Call.dbCreateDatabase row) o
      ∈ (ProvisionDatabase lib w (some p) (Except.ok dto) s).trace)
    (hfail : o.err = some e)
    (hstarted : ∃ id, Call.containerStart id
      ∈ calls (ProvisionDatabase lib w (some p) (Except.ok dto) s).trace) :
    ∃ (pre : List (Call × Outcome)) (o1 : Outcome),
      (∀ x ∈ pre, isPrep x.1 = true)
      ∧ containerPrepared p dto row pre
      ∧ (ProvisionDatabase lib w (some p) (Except.ok dto) s).panicked = none
      ∧ (((ProvisionDatabase lib w (some p) (Except.ok dto) s).trace
            = asEvents pre ++ [Event.call (Call.dbCreateDatabase row) o,
                Event.reply (Reply.error 500 e "failed to create database entity"),
                Event.call (Call.containerStop row.ContainerId) o1]
          ∧ o1.err ≠ none)
        ∨ (∃ o2 : Outcome, (ProvisionDatabase lib w (some p) (Except.ok dto) s).trace
            = asEvents pre ++ [Event.call (Call.dbCreateDatabase row) o,
                Event.reply (Reply.error 500 e "failed to create database entity"),
                Event.call (Call.containerStop row.ContainerId) o1,
                Event.call (Call.containerRemove row.ContainerId false true) o2]
          ∧ o1.err = none)) := by
  obtain ⟨pre, hprep, hshape⟩ := ProvisionDatabase_shape lib w s p dto
  rcases hshape with h | ⟨code, e1, help, h⟩ | ⟨row1, o', e1, o1, ho, hpan, _, _, _, _, hprepd, htr⟩
    | ⟨row1, o', ho, _, _, _, _, _, _, h⟩
  · rw [h] at hins
    exact absurd hins (insert_not_prep row o pre hprep)
  · rw [h] at hins
    rcases List.mem_append.mp hins with h1 | h1
    · exact absurd h1 (insert_not_prep row o pre hprep)
    · simp at h1
  · have hrow : row = row1 ∧ o = o' := by
      rcases htr with ⟨h, _⟩ | ⟨o2, h, _⟩
      · rw [h] at hins
        rcases List.mem_append.mp hins with h1 | h1
        · exact absurd h1 (insert_not_prep row o pre hprep)
        · simpa using h1
      · rw [h] at hins
        rcases List.mem_append.mp hins with h1 | h1
        · exact absurd h1 (insert_not_prep row o pre hprep)
        · simpa using h1
    obtain ⟨rfl, rfl⟩ := hrow
    have he : e1 = e := by
      rw [ho] at hfail
      exact Option.some.inj hfail
    subst he
    have hcp : containerPrepared p dto row pre := by
      rcases hprepd with h | ⟨q1, q2, q3, q4, q5, q6, q7, q8, vn, hpre, _, _, _, _⟩
      · exact h
      · exfalso
        obtain ⟨id, hid⟩ := hstarted
        rcases htr with ⟨h, _⟩ | ⟨o2, h, _⟩
        · rw [h, hpre] at hid
          simp [calls, asEvents] at hid
        · rw [h, hpre] at hid
          simp [calls, asEvents] at hid
    exact ⟨pre, o1, hprep, hcp, hpan, htr⟩
  · rw [h] at hins
    rcases List.mem_append.mp hins with h1 | h1
    · exact absurd h1 (insert_not_prep row o pre hprep)
    · simp at h1
      rw [h1.2, ho] at hfail
      cases hfail

/-- Witness for C9 (as amended): the insert fails with `connection lost` after the
container `db_ck1` was created and started. -/
theorem ProvisionDatabase_reports_then_compensates_witness :
    ∃ (pre : List (Call × Outcome)) (o1 : Outcome),
      (∀ x ∈ pre, isPrep x.1 = true)
      ∧ containerPrepared shopProject ordersRequest ordersRow pre
      ∧ (ProvisionDatabase plainCase scripted (some shopProject) (Except.ok ordersRequest)
          insertFailsScript).panicked = none
      ∧ (((ProvisionDatabase plainCase scripted (some shopProject) (Except.ok ordersRequest)
              insertFailsScript).trace
            = asEvents pre ++ [Event.call (Call.dbCreateDatabase ordersRow)
                  (failWith "connection lost"),
                Event.reply (Reply.error 500 "connection lost" "failed to create database entity"),
                Event.call (Call.containerStop ordersRow.ContainerId) o1]
          ∧ o1.err ≠ none)
        ∨ (∃ o2 : Outcome,
            (ProvisionDatabase plainCase scripted (some shopProject) (Except.ok ordersRequest)
              insertFailsScript).trace
            = asEvents pre ++ [Event.call (Call.dbCreateDatabase ordersRow)
                  (failWith "connection lost"),
                Event.reply (Reply.error 500 "connection lost" "failed to create database entity"),
                Event.call (Call.containerStop ordersRow.ContainerId) o1,
                Event.call (Call.containerRemove ordersRow.ContainerId false true) o2]
          ∧ o1.err = none)) :=
  ProvisionDatabase_reports_then_compensates plainCase scripted insertFailsScript shopProject
    ordersRequest ordersRow (failWith "connection lost") "connection lost"
    (by decide) rfl ⟨"abcdef", by decide⟩

/-- C9 (as stated) fails: in the run where the insert fails after the container `db_ck1`
was started, the 500 reply is written right after the failed insert, and the stop and the
removal of the container come after it. -/
theorem ProvisionDatabase_reply_precedes_compensation :
    (ProvisionDatabase plainCase scripted (some shopProject) (Except.ok ordersRequest)
        insertFailsScript).trace.drop 10
      = [Event.call (Call.dbCreateDatabase ordersRow) (failWith "connection lost"),
         Event.reply (Reply.error 500 "connection lost" "failed to create database entity"),
         Event.call (Call.containerStop "db_ck1") noError,
         Event.call (Call.containerRemove "db_ck1" false true) noError] := by
  decide

/-! ## ProvisionDatabase on a name that already has a row -/

/-- What holds of every request whose type is not `postgres`, in every world: the run of
`ProvisionDatabase` makes no call other than the two random reads of the credential step (no
storage query or write, no pull, no volume or container creation); every reply it writes is
a 400 with the hint `cannot generate env vars`; and when the two credential generators
return values, the one reply carries the unsupported-type error. The run in which the
username generator does not return is the one evaluated below. -/
theorem ProvisionDatabase_unsupported_type {σ : Type} (lib : Strcase) (w : World σ) (s : σ)
    (p : Project) (dto : CreateDatabaseDTO) (ht : dto.Type_ ≠ Postgres) :
    (∀ c ∈ calls (ProvisionDatabase lib w (some p) (Except.ok dto) s).trace,
        c = Call.randRead 9 ∨ c = Call.randRead 16)
    ∧ (∀ r ∈ replies (ProvisionDatabase lib w (some p) (Except.ok dto) s).trace,
        ∃ e, r = Reply.error 400 e "cannot generate env vars")
    ∧ (∀ u st1 pw st2,
        GenerateSecureUsername w { world := s, trace := [] } "u" 9 = (Except.ok (u, none), st1) →
        GeneratePassword w st1 16 = ((pw, none), st2) →
        replies (ProvisionDatabase lib w (some p) (Except.ok dto) s).trace
          = [Reply.error 400 ("unrecognized database type: " ++ dto.Type_)
              "cannot generate env vars"]
        ∧ (ProvisionDatabase lib w (some p) (Except.ok dto) s).panicked = none) := by
  obtain ⟨evs1, hg1, hg2, hg3⟩ := generateEnvVars_spec lib w { world := s, trace := [] } dto
  have hcalls1 : ∀ c ∈ calls (asEvents evs1), c = Call.randRead 9 ∨ c = Call.randRead 16 := by
    intro c hc
    rw [calls_asEvents] at hc
    obtain ⟨x, hx, rfl⟩ := List.mem_map.mp hc
    exact hg2 x hx
  have hgen : ∀ u st1 pw st2,
      GenerateSecureUsername w { world := s, trace := [] } "u" 9 = (Except.ok (u, none), st1) →
      GeneratePassword w st1 16 = ((pw, none), st2) →
      generateEnvVars lib w { world := s, trace := [] } dto
        = (Except.ok { err := some ("unrecognized database type: " ++ dto.Type_) }, st2) := by
    intro u st1 pw st2 hu hp
    simp [generateEnvVars, hu, hp, ht]
  unfold ProvisionDatabase
  simp only [GetProjectFromContext]
  rcases hg : generateEnvVars lib w { world := s, trace := [] } dto with ⟨pan | ev, st1⟩
  · rw [hg] at hg1
    simp only [List.nil_append] at hg1
    refine ⟨?_, ?_, ?_⟩
    · simpa [panicWith, hg1] using hcalls1
    · simp [panicWith, hg1]
    · intro u st1 pw st2 hu hp
      rw [hgen u st1 pw st2 hu hp] at hg
      cases hg
  · rw [hg] at hg1 hg3
    simp only [List.nil_append] at hg1
    obtain ⟨dbName, username, password, envVars, err⟩ := ev
    cases err with
    | some e =>
      refine ⟨?_, ?_, ?_⟩
      · simpa [finish, JsonError, done, hg1] using hcalls1
      · simp [finish, JsonError, done, hg1]
      · intro u st1 pw st2 hu hp
        rw [hgen u st1 pw st2 hu hp] at hg
        simp only [Prod.mk.injEq, Except.ok.injEq, EnvVars.mk.injEq] at hg
        obtain ⟨⟨_, _, _, _, he⟩, _⟩ := hg
        cases he
        simp [finish, JsonError, done, hg1]
    | none =>
      exact absurd (hg3 _ rfl rfl).1 ht

/-- A `mysql` request whose credential generators return values is answered with the
unsupported-type error. -/
theorem ProvisionDatabase_unsupported_type_witness :
    replies (ProvisionDatabase plainCase scripted (some shopProject) (Except.ok mysqlRequest)
        provisionPrefix).trace
      = [Reply.error 400 ("unrecognized database type: " ++ mysqlRequest.Type_)
          "cannot generate env vars"]
    ∧ (ProvisionDatabase plainCase scripted (some shopProject) (Except.ok mysqlRequest)
        provisionPrefix).panicked = none :=
  (ProvisionDatabase_unsupported_type plainCase scripted provisionPrefix shopProject
    mysqlRequest (by decide)).2.2 _ _ _ _ rfl rfl

/-- C11: the code at the failing input. A well-formed `mysql` request whose nine random
bytes are all `0xFF`: the username generator, which `generateEnvVars` calls before it looks
at the type, panics on its slice. The run ends after the one random read with no reply
written, so the unsupported-type error is never reported as a 400. -/
theorem ProvisionDatabase_unsupported_type_panics :
    (ProvisionDatabase plainCase scripted (some shopProject) (Except.ok mysqlRequest)
        [allOnes]).trace
      = [Event.call (Call.randRead 9) allOnes]
    ∧ (ProvisionDatabase plainCase scripted (some shopProject) (Except.ok mysqlRequest)
        [allOnes]).panicked = some "slice bounds out of range"
    ∧ replies (ProvisionDatabase plainCase scripted (some shopProject) (Except.ok mysqlRequest)
        [allOnes]).trace = [] := by
  decide

/-! ## Environment projection -/

/-- C12: for every prefix and every list of Functions, and of Databases,
`generateEnvironmentVariables` returns, entity by entity in list order, one entry
`P_<ToScreamingSnake Name>_<ToScreamingSnake field>=<value>` for each field tagged
`include`, in declaration order: the six fields CreatedAt, UpdatedAt, Name, Description,
FunctionId, Version of a Function, the seven fields CreatedAt, UpdatedAt, Name, Type,
Username, Password, ContainerId of a Database, and nothing for the other fields. For the
function `hello` and the database `orders_db` the keys are `FUNC_HELLO_<FIELD>` and
`DB_ORDERS_DB_<FIELD>`. -/
theorem generateEnvironmentVariables_entries (lib : Strcase) (P : String)
    (fs : List Function) (ds : List Database) :
    generateEnvironmentVariables lib (fs.map Function.fields) P
      = fs.flatMap (fun f =>
          [P ++ "_" ++ lib.ToScreamingSnake f.Name ++ "_" ++ lib.ToScreamingSnake "CreatedAt"
              ++ "=" ++ f.CreatedAt,
           P ++ "_" ++ lib.ToScreamingSnake f.Name ++ "_" ++ lib.ToScreamingSnake "UpdatedAt"
              ++ "=" ++ f.UpdatedAt,
           P ++ "_" ++ lib.ToScreamingSnake f.Name ++ "_" ++ lib.ToScreamingSnake "Name"
              ++ "=" ++ f.Name,
           P ++ "_" ++ lib.ToScreamingSnake f.Name ++ "_" ++ lib.ToScreamingSnake "Description"
              ++ "=" ++ f.Description,
           P ++ "_" ++ lib.ToScreamingSnake f.Name ++ "_" ++ lib.ToScreamingSnake "FunctionId"
              ++ "=" ++ f.FunctionId,
           P ++ "_" ++ lib.ToScreamingSnake f.Name ++ "_" ++ lib.ToScreamingSnake "Version"
              ++ "=" ++ f.Version])
    ∧ generateEnvironmentVariables lib (ds.map Database.fields) P
      = ds.flatMap (fun d =>
          [P ++ "_" ++ lib.ToScreamingSnake d.Name ++ "_" ++ lib.ToScreamingSnake "CreatedAt"
              ++ "=" ++ d.CreatedAt,
           P ++ "_" ++ lib.ToScreamingSnake d.Name ++ "_" ++ lib.ToScreamingSnake "UpdatedAt"
              ++ "=" ++ d.UpdatedAt,
           P ++ "_" ++ lib.ToScreamingSnake d.Name ++ "_" ++ lib.ToScreamingSnake "Name"
              ++ "=" ++ d.Name,
           P ++ "_" ++ lib.ToScreamingSnake d.Name ++ "_" ++ lib.ToScreamingSnake "Type"
              ++ "=" ++ d.Type_,
           P ++ "_" ++ lib.ToScreamingSnake d.Name ++ "_" ++ lib.ToScreamingSnake "Username"
              ++ "=" ++ d.Username,
           P ++ "_" ++ lib.ToScreamingSnake d.Name ++ "_" ++ lib.ToScreamingSnake "Password"
              ++ "=" ++ d.Password,
           P ++ "_" ++ lib.ToScreamingSnake d.Name ++ "_" ++ lib.ToScreamingSnake "ContainerId"
              ++ "=" ++ d.ContainerId])
    ∧ generateEnvironmentVariables plainCase
        ([{ Name := "hello", CreatedAt := "t0", UpdatedAt := "t1", Description := "greets",
            FunctionId := "hello", Version := "1.0.0", ID := "f1", ProjectId := "p1",
            Language := "node-js", Main := "index.js" }].map Function.fields) "FUNC"
      = ["FUNC_HELLO_CREATED_AT=t0", "FUNC_HELLO_UPDATED_AT=t1", "FUNC_HELLO_NAME=hello",
         "FUNC_HELLO_DESCRIPTION=greets", "FUNC_HELLO_FUNCTION_ID=hello",
         "FUNC_HELLO_VERSION=1.0.0"]
    ∧ generateEnvironmentVariables plainCase
        ([{ Name := "orders_db", CreatedAt := "t0", UpdatedAt := "t1", Type_ := "postgres",
            Username := "uabc", Password := "pw", ContainerId := "db_c1", ID := "d1",
            ProjectId := "p1", VolumeName := "vol_db_c1",
            ImageVersion := "vol_db_c1" }].map Database.fields) "DB"
      = ["DB_ORDERS_DB_CREATED_AT=t0", "DB_ORDERS_DB_UPDATED_AT=t1",
         "DB_ORDERS_DB_NAME=orders_db", "DB_ORDERS_DB_TYPE=postgres",
         "DB_ORDERS_DB_USERNAME=uabc", "DB_ORDERS_DB_PASSWORD=pw",
         "DB_ORDERS_DB_CONTAINER_ID=db_c1"] := by
  refine ⟨?_, ?_, by decide, by decide⟩
  · induction fs with
    | nil => rfl
    | cons f fs ih =>
      simp only [List.map_cons, List.flatMap_cons]
      rw [← ih]
      simp [generateEnvironmentVariables, Function.fields, entityEnv]
  · induction ds with
    | nil => rfl
    | cons d ds ih =>
      simp only [List.map_cons, List.flatMap_cons]
      rw [← ih]
      simp [generateEnvironmentVariables, Database.fields, entityEnv]

/-! ## ExecuteFunction: lookup failure, teardown scheduling -/

theorem pollLoop_spec {σ : Type} (w : World σ) (url : String) (intervals : List Nat)
    (st : St σ) :
    ∃ ces : List (Call × Outcome),
      (pollLoop w url intervals st).2.trace = st.trace ++ asEvents ces
      ∧ (∀ x ∈ ces, (∃ ms, x.1 = Call.sleep ms) ∨ x.1 = Call.httpGet url) := by
  induction intervals generalizing st with
  | nil => exact ⟨[], by simp [pollLoop, asEvents], by simp⟩
  | cons i rest ih =>
    simp only [pollLoop]
    split
    · refine ⟨[(Call.sleep i, (perform w st (Call.sleep i)).1),
        (Call.httpGet url, (perform w (perform w st (Call.sleep i)).2 (Call.httpGet url)).1)],
        by simp [perform, asEvents], by simp⟩
    · obtain ⟨ces, h1, h2⟩ := ih (perform w (perform w st (Call.sleep i)).2 (Call.httpGet url)).2
      refine ⟨(Call.sleep i, (perform w st (Call.sleep i)).1)
        :: (Call.httpGet url, (perform w (perform w st (Call.sleep i)).2 (Call.httpGet url)).1)
        :: ces, ?_, ?_⟩
      · rw [h1]
        simp [perform, asEvents]
      · intro x hx
        rcases List.mem_cons.mp hx with rfl | hx
        · exact Or.inl ⟨i, rfl⟩
        · rcases List.mem_cons.mp hx with rfl | hx
          · exact Or.inr rfl
          · exact h2 x hx

/-- What the functions `createAndStartContainer` leaves in the trace: with a nil error it
made exactly the token, the container creation, the start of the container the creation
returned and its inspection, all successful, and it returns that container's id. -/
theorem functions_createAndStartContainer_spec {σ : Type} (lib : Strcase) (w : World σ)
    (st : St σ) (p : Project) (fe : Function) (imageVersion : String) :
    ∃ ces : List (Call × Outcome),
      (functions.createAndStartContainer lib w st (some p) fe imageVersion).2.trace
        = st.trace ++ asEvents ces
      ∧ (∀ x ∈ ces, x.1 = Call.cuidNew ∨ (∃ i e n m, x.1 = Call.fnContainerCreate i e n m)
          ∨ (∃ id, x.1 = Call.containerStart id) ∨ (∃ id, x.1 = Call.containerInspect id))
      ∧ (∀ r, (functions.createAndStartContainer lib w st (some p) fe imageVersion).1
            = Except.ok r → r.err = none →
          ∃ o1 o2 o3 o4 : Outcome,
            ces = [(Call.cuidNew, o1),
              (Call.fnContainerCreate (fe.FunctionId ++ ":" ++ imageVersion)
                (generateEnvironmentVariables lib (p.Functions.map Function.fields) "FUNC"
                  ++ generateEnvironmentVariables lib (p.Databases.map Database.fields) "DB")
                fe.ProjectNetworkName ("func_" ++ o1.str), o2),
              (Call.containerStart o2.str, o3), (Call.containerInspect o2.str, o4)]
            ∧ o2.err = none ∧ o3.err = none ∧ o4.err = none
            ∧ r.containerID = o2.str ∧ o4.list.head? = some r.dynamicPort) := by
  generalize henv : generateEnvironmentVariables lib (p.Functions.map Function.fields) "FUNC"
    ++ generateEnvironmentVariables lib (p.Databases.map Database.fields) "DB" = envs
  generalize hs1 : w.step st.world Call.cuidNew = r1
  generalize hs2 : w.step r1.2 (Call.fnContainerCreate (fe.FunctionId ++ ":" ++ imageVersion)
    envs fe.ProjectNetworkName ("func_" ++ r1.1.str)) = r2
  cases h2 : r2.1.err with
  | some e =>
    refine ⟨[(Call.cuidNew, r1.1), (Call.fnContainerCreate (fe.FunctionId ++ ":" ++ imageVersion)
      envs fe.ProjectNetworkName ("func_" ++ r1.1.str), r2.1)], ?_, ?_, ?_⟩
    · simp [functions.createAndStartContainer, GetProjectFromContext, createContainer, perform,
        henv, hs1, hs2, h2, asEvents]
    · simp
    · simp [functions.createAndStartContainer, GetProjectFromContext, createContainer, perform,
        henv, hs1, hs2, h2]
  | none =>
    generalize hs3 : w.step r2.2 (Call.containerStart r2.1.str) = r3
    cases h3 : r3.1.err with
    | some e =>
      refine ⟨[(Call.cuidNew, r1.1),
        (Call.fnContainerCreate (fe.FunctionId ++ ":" ++ imageVersion)
          envs fe.ProjectNetworkName ("func_" ++ r1.1.str), r2.1),
        (Call.containerStart r2.1.str, r3.1)], ?_, ?_, ?_⟩
      · simp [functions.createAndStartContainer, GetProjectFromContext, createContainer,
          perform, henv, hs1, hs2, hs3, h2, h3, asEvents]
      · simp
      · simp [functions.createAndStartContainer, GetProjectFromContext, createContainer,
          perform, henv, hs1, hs2, hs3, h2, h3]
    | none =>
      generalize hs4 : w.step r3.2 (Call.containerInspect r2.1.str) = r4
      refine ⟨[(Call.cuidNew, r1.1),
        (Call.fnContainerCreate (fe.FunctionId ++ ":" ++ imageVersion)
          envs fe.ProjectNetworkName ("func_" ++ r1.1.str), r2.1),
        (Call.containerStart r2.1.str, r3.1), (Call.containerInspect r2.1.str, r4.1)],
        ?_, ?_, ?_⟩
      · cases h4 : r4.1.err with
        | some e =>
          simp [functions.createAndStartContainer, GetProjectFromContext, createContainer,
            fetchContainerDynamicPort, perform, henv, hs1, hs2, hs3, hs4, h2, h3, h4, asEvents]
        | none =>
          cases h5 : r4.1.list <;>
            simp [functions.createAndStartContainer, GetProjectFromContext, createContainer,
              fetchContainerDynamicPort, perform, henv, hs1, hs2, hs3, hs4, h2, h3, h4, h5,
              asEvents]
      · simp
      · cases h4 : r4.1.err with
        | some e =>
          simp [functions.createAndStartContainer, GetProjectFromContext, createContainer,
            fetchContainerDynamicPort, perform, henv, hs1, hs2, hs3, hs4, h2, h3, h4]
        | none =>
          cases h5 : r4.1.list with
          | nil =>
            simp [functions.createAndStartContainer, GetProjectFromContext, createContainer,
              fetchContainerDynamicPort, perform, henv, hs1, hs2, hs3, hs4, h2, h3, h4, h5]
          | cons port rest =>
            intro r hr _
            simp [functions.createAndStartContainer, GetProjectFromContext, createContainer,
              fetchContainerDynamicPort, perform, henv, hs1, hs2, hs3, hs4, h2, h3, h4, h5]
              at hr
            subst hr
            exact ⟨r1.1, r2.1, r3.1, r4.1, rfl, h2, h3, h4, rfl, by simp [h5]⟩

/-- Every run of `ExecuteFunction` in a project context: calls only, then either nothing
(a panic), or one error reply, or the successful forward followed by the scheduling of the
teardown of the container that was created and started, and then the proxied reply. -/
theorem ExecuteFunction_shape {σ : Type} (lib : Strcase) (w : World σ) (s : σ) (p : Project)
    (funcId hdr : String) :
    ∃ pre : List (Call × Outcome),
      (∀ x ∈ pre, ∀ url, x.1 = Call.httpForward url → x.2.err ≠ none)
      ∧ (((ExecuteFunction lib w (some p) funcId hdr s).trace = asEvents pre
          ∧ (ExecuteFunction lib w (some p) funcId hdr s).panicked ≠ none)
        ∨ (∃ code e help, (ExecuteFunction lib w (some p) funcId hdr s).trace
            = asEvents pre ++ [Event.reply (Reply.error code e help)])
        ∨ (∃ (port : String) (o o0 o1 oc os oi : Outcome) (image name : String)
            (envs : List String) (net : String) (pollEvs : List (Call × Outcome)),
            o.err = none ∧ oc.err = none ∧ os.err = none
            ∧ (ExecuteFunction lib w (some p) funcId hdr s).panicked = none
            ∧ pre = [(Call.dbFirstFunction funcId p.ID, o0), (Call.cuidNew, o1),
                (Call.fnContainerCreate image envs net name, oc),
                (Call.containerStart oc.str, os), (Call.containerInspect oc.str, oi)] ++ pollEvs
            ∧ (∀ x ∈ pollEvs, (∃ ms, x.1 = Call.sleep ms)
                ∨ x.1 = Call.httpGet ("http://localhost:" ++ port ++ "/health"))
            ∧ (ExecuteFunction lib w (some p) funcId hdr s).trace
              = asEvents pre ++ [Event.call (Call.httpForward ("http://localhost:" ++ port)) o,
                  Event.spawnStopAndRemove oc.str, Event.reply (Reply.proxied o.num o.str)])) := by
  unfold ExecuteFunction
  simp only [GetFunctionFromContextParams, GetProjectFromContext, Bool.not_true,
    Bool.false_eq_true, if_false]
  generalize hr0 : perform w { world := s, trace := [] } (Call.dbFirstFunction funcId p.ID) = r0
  have hr0t : r0.2.trace = asEvents [(Call.dbFirstFunction funcId p.ID, r0.1)] := by
    rw [← hr0]
    simp [perform, asEvents]
  have hnf0 : ∀ x ∈ [(Call.dbFirstFunction funcId p.ID, r0.1)], ∀ url,
      x.1 = Call.httpForward url → x.2.err ≠ none := by
    intro x hx url h
    simp at hx
    rw [hx] at h
    cases h
  cases h0 : r0.1.err with
  | some e =>
    exact ⟨_, hnf0, Or.inr (Or.inl ⟨400, e, "failed to find function",
      by simp [finish, JsonError, done, hr0t]⟩)⟩
  | none =>
    simp only []
    obtain ⟨ces, hc1, hc2, hc3⟩ :=
      functions_createAndStartContainer_spec lib w r0.2 p r0.1.fn (getImageVersion hdr)
    have hnf1 : ∀ x ∈ [(Call.dbFirstFunction funcId p.ID, r0.1)] ++ ces, ∀ url,
        x.1 = Call.httpForward url → x.2.err ≠ none := by
      intro x hx url h
      rcases List.mem_append.mp hx with hx | hx
      · exact hnf0 x hx url h
      · rcases hc2 x hx with h1 | ⟨_, _, _, _, h1⟩ | ⟨_, h1⟩ | ⟨_, h1⟩ <;>
          (rw [h1] at h; cases h)
    rcases hcas : functions.createAndStartContainer lib w r0.2 (some p) r0.1.fn
      (getImageVersion hdr) with ⟨pan | ⟨cid, port, err⟩, st2⟩
    · rw [hcas] at hc1
      simp only at hc1
      refine ⟨_, hnf1, Or.inl ⟨?_, ?_⟩⟩
      · simp [panicWith, hc1, hr0t, asEvents]
      · simp [panicWith]
    · rw [hcas] at hc1 hc3
      simp only at hc1
      have hst2 : st2.trace = asEvents ([(Call.dbFirstFunction funcId p.ID, r0.1)] ++ ces) := by
        rw [hc1, hr0t, ← asEvents_append]
      cases err with
      | some e =>
        exact ⟨_, hnf1, Or.inr (Or.inl ⟨500, e, "failed to create/start container",
          by simp [finish, JsonError, done, hst2]⟩)⟩
      | none =>
        simp only []
        obtain ⟨o1, o2, o3, o4, hces, h2, h3, _, hcid, _⟩ := hc3 _ rfl rfl
        simp only at hcid
        obtain ⟨pes, hp1, hp2⟩ := pollLoop_spec w ("http://localhost:" ++ port ++ "/health")
          retryIntervals st2
        have hnf2 : ∀ x ∈ [(Call.dbFirstFunction funcId p.ID, r0.1)] ++ ces ++ pes, ∀ url,
            x.1 = Call.httpForward url → x.2.err ≠ none := by
          intro x hx url h
          rcases List.mem_append.mp hx with hx | hx
          · exact hnf1 x hx url h
          · rcases hp2 x hx with ⟨_, h1⟩ | h1 <;> (rw [h1] at h; cases h)
        rcases hpoll : pollContainerHealthCheck w st2 port with ⟨healthy, st3⟩
        have hst3 : st3.trace
            = asEvents ([(Call.dbFirstFunction funcId p.ID, r0.1)] ++ ces ++ pes) := by
          have : st3 = (pollLoop w ("http://localhost:" ++ port ++ "/health")
              retryIntervals st2).2 := by
            simp [pollContainerHealthCheck] at hpoll
            rw [hpoll]
          rw [this, hp1, hst2, ← asEvents_append]
        cases healthy with
        | false =>
          refine ⟨_, hnf2, Or.inl ⟨?_, ?_⟩⟩
          · simp [finish, JsonError, panicWith, hst3]
          · simp [finish, JsonError, panicWith]
        | true =>
          simp only [Bool.not_true, Bool.false_eq_true, if_false, forwardRequestToContainer]
          generalize hr4 : perform w st3 (Call.httpForward ("http://localhost:" ++ port)) = r4
          have hr4t : r4.2.trace = st3.trace
              ++ [Event.call (Call.httpForward ("http://localhost:" ++ port)) r4.1] := by
            rw [← hr4]
            rfl
          cases h4 : r4.1.err with
          | some e =>
            refine ⟨[(Call.dbFirstFunction funcId p.ID, r0.1)] ++ ces ++ pes
              ++ [(Call.httpForward ("http://localhost:" ++ port), r4.1)], ?_,
              Or.inr (Or.inl ⟨500, e, "failed to forward request to container", ?_⟩)⟩
            · intro x hx url h
              rcases List.mem_append.mp hx with hx | hx
              · exact hnf2 x hx url h
              · simp at hx
                rw [hx]
                simp [h4]
            · simp [finish, JsonError, done, hr4t, hst3, asEvents]
          | none =>
            refine ⟨_, hnf2, Or.inr (Or.inr ⟨port, r4.1, r0.1, o1, o2, o3, o4,
              r0.1.fn.FunctionId ++ ":" ++ getImageVersion hdr, "func_" ++ o1.str,
              generateEnvironmentVariables lib (p.Functions.map Function.fields) "FUNC"
                ++ generateEnvironmentVariables lib (p.Databases.map Database.fields) "DB",
              r0.1.fn.ProjectNetworkName, pes,
              h4, h2, h3, rfl, ?_, hp2, ?_⟩)⟩
            · rw [hces]
              simp
            · simp [done, sendContainerResponse, cleanupContainer, hr4t, hst3, hcid]

/-- C16 (as amended): when the lookup of the function row fails with `e` (no row matches the
slug in the project), the run of `ExecuteFunction` is exactly the lookup followed by the
reply with status 400, the error `e` and the hint `failed to find function`; no container is
created or started. -/
theorem ExecuteFunction_not_found {σ : Type} (lib : Strcase) (w : World σ) (s : σ)
    (p : Project) (funcId hdr e : String)
    (hmiss : (w.step s (Call.dbFirstFunction funcId p.ID)).1.err = some e) :
    (ExecuteFunction lib w (some p) funcId hdr s).trace
      = [Event.call (Call.dbFirstFunction funcId p.ID)
            (w.step s (Call.dbFirstFunction funcId p.ID)).1,
         Event.reply (Reply.error 400 e "failed to find function")]
    ∧ (ExecuteFunction lib w (some p) funcId hdr s).panicked = none := by
  simp [ExecuteFunction, GetFunctionFromContextParams, GetProjectFromContext, perform, hmiss,
    finish, JsonError, done]

/-- Witness for C16 (as amended): the store has no row for the slug `nope`. -/
theorem ExecuteFunction_not_found_witness :
    (ExecuteFunction plainCase scripted (some shopProject) "nope" ""
        [failWith "record not found"]).trace
      = [Event.call (Call.dbFirstFunction "nope" shopProject.ID)
            (scripted.step [failWith "record not found"]
              (Call.dbFirstFunction "nope" shopProject.ID)).1,
         Event.reply (Reply.error 400 "record not found" "failed to find function")]
    ∧ (ExecuteFunction plainCase scripted (some shopProject) "nope" ""
        [failWith "record not found"]).panicked = none :=
  ExecuteFunction_not_found plainCase scripted [failWith "record not found"] shopProject
    "nope" "" "record not found" rfl

/-- C16 (as stated) fails: a request for a slug without a row is answered with status 400,
not 404. -/
theorem ExecuteFunction_not_found_is_400 :
    replies (ExecuteFunction plainCase scripted (some shopProject) "nope" ""
        [failWith "record not found"]).trace
      = [Reply.error 400 "record not found" "failed to find function"] := by
  decide

/-- C17 (as amended): in every run of `ExecuteFunction` in which the forwarded request got
an answer, the run ends with the forward, then the scheduling of the stop-and-remove of the
container that was created and started for this invocation, then the proxied reply. The
teardown is scheduled once, after the container answered and before the reply is written;
before the forward the run made only the lookup, the token, the creation, start and
inspection of that container and the health probes. -/
theorem ExecuteFunction_schedules_teardown {σ : Type} (lib : Strcase) (w : World σ) (s : σ)
    (p : Project) (funcId hdr url : String) (o : Outcome)
    (hfw : Event.call (Call.httpForward url) o ∈ (ExecuteFunction lib w (some p) funcId hdr s).trace)
    (hok : o.err = none) :
    ∃ (port : String) (o0 o1 oc os oi : Outcome) (image name : String) (envs : List String)
      (net : String) (pollEvs : List (Call × Outcome)),
      url = "http://localhost:" ++ port
      ∧ oc.err = none ∧ os.err = none
      ∧ (ExecuteFunction lib w (some p) funcId hdr s).panicked = none
      ∧ (∀ x ∈ pollEvs, (∃ ms, x.1 = Call.sleep ms)
          ∨ x.1 = Call.httpGet ("http://localhost:" ++ port ++ "/health"))
      ∧ (ExecuteFunction lib w (some p) funcId hdr s).trace
        = asEvents ([(Call.dbFirstFunction funcId p.ID, o0), (Call.cuidNew, o1),
              (Call.fnContainerCreate image envs net name, oc),
              (Call.containerStart oc.str, os), (Call.containerInspect oc.str, oi)] ++ pollEvs)
          ++ [Event.call (Call.httpForward url) o, Event.spawnStopAndRemove oc.str,
              Event.reply (Reply.proxied o.num o.str)] := by
  obtain ⟨pre, hnf, hshape⟩ := ExecuteFunction_shape lib w s p funcId hdr
  have hpre : Event.call (Call.httpForward url) o ∉ asEvents pre := by
    intro h
    exact hnf _ ((mem_asEvents _ _ _).mp h) url rfl hok
  rcases hshape with ⟨h, _⟩ | ⟨code, e, help, h⟩
    | ⟨port, o', o0, o1, oc, os, oi, image, name, envs, net, pollEvs, _, hoc, hos, hpan, hpreq,
        hpoll, h⟩
  · rw [h] at hfw
    exact absurd hfw hpre
  · rw [h] at hfw
    rcases List.mem_append.mp hfw with h1 | h1
    · exact absurd h1 hpre
    · simp at h1
  · have hfw2 := hfw
    rw [h] at hfw2
    rcases List.mem_append.mp hfw2 with h1 | h1
    · exact absurd h1 hpre
    · simp at h1
      obtain ⟨hurl, ho⟩ := h1
      subst ho
      refine ⟨port, o0, o1, oc, os, oi, image, name, envs, net, pollEvs, hurl, hoc, hos, hpan,
        hpoll, ?_⟩
      rw [h, hpreq, hurl]

/-- Witness for C17 (as amended): the container `cid9` is healthy at the first probe and
answers the forwarded request with 200 `hi`. -/
theorem ExecuteFunction_schedules_teardown_witness :
    ∃ (port : String) (o0 o1 oc os oi : Outcome) (image name : String) (envs : List String)
      (net : String) (pollEvs : List (Call × Outcome)),
      "http://localhost:49153" = "http://localhost:" ++ port
      ∧ oc.err = none ∧ os.err = none
      ∧ (ExecuteFunction plainCase scripted (some shopProject) "hello" ""
          (healthyPrefix ++ [{ num := 200, str := "hi" }])).panicked = none
      ∧ (∀ x ∈ pollEvs, (∃ ms, x.1 = Call.sleep ms)
          ∨ x.1 = Call.httpGet ("http://localhost:" ++ port ++ "/health"))
      ∧ (ExecuteFunction plainCase scripted (some shopProject) "hello" ""
          (healthyPrefix ++ [{ num := 200, str := "hi" }])).trace
        = asEvents ([(Call.dbFirstFunction "hello" shopProject.ID, o0), (Call.cuidNew, o1),
              (Call.fnContainerCreate image envs net name, oc),
              (Call.containerStart oc.str, os), (Call.containerInspect oc.str, oi)] ++ pollEvs)
          ++ [Event.call (Call.httpForward "http://localhost:49153") { num := 200, str := "hi" },
              Event.spawnStopAndRemove oc.str,
              Event.reply (Reply.proxied 200 "hi")] :=
  ExecuteFunction_schedules_teardown plainCase scripted (healthyPrefix ++ [{ num := 200, str := "hi" }])
    shopProject "hello" "" "http://localhost:49153" { num := 200, str := "hi" }
    (by decide) rfl

/-- C17 (as stated) fails: in the run where the container `cid9` answers the forwarded
request, its teardown is scheduled before the reply is written, not after; and in the run
where forwarding fails, the 500 reply is written and no teardown is scheduled at all. -/
theorem ExecuteFunction_teardown_before_reply :
    (ExecuteFunction plainCase scripted (some shopProject) "hello" ""
        (healthyPrefix ++ [{ num := 200, str := "hi" }])).trace.drop 7
      = [Event.call (Call.httpForward "http://localhost:49153") { num := 200, str := "hi" },
         Event.spawnStopAndRemove "cid9", Event.reply (Reply.proxied 200 "hi")]
    ∧ (ExecuteFunction plainCase scripted (some shopProject) "hello" ""
        (healthyPrefix ++ [failWith "connection reset"])).trace.drop 7
      = [Event.call (Call.httpForward "http://localhost:49153") (failWith "connection reset"),
         Event.reply (Reply.error 500 "connection reset"
           "failed to forward request to container")] := by
  decide

/-! ## Generated usernames -/

theorem base64Char_mem (n : Nat) : base64Char n ∈ base64Alphabet := by
  rcases Nat.lt_or_ge n 64 with h | h
  · interval_cases n <;> decide
  · have : base64Char n = 'A' := by
      unfold base64Char
      rw [List.getD_eq_default]
      simpa [base64Alphabet] using h
    rw [this]
    decide

theorem base64Encode_mem (bs : List Nat) :
    ∀ c ∈ base64Encode bs, c ∈ base64Alphabet ∨ c = '=' := by
  induction bs using base64Encode.induct with
  | case1 => simp [base64Encode]
  | case2 a =>
    intro c hc
    simp only [base64Encode, List.mem_cons, List.mem_singleton] at hc
    rcases hc with rfl | rfl | rfl | rfl | h
    · exact Or.inl (base64Char_mem _)
    · exact Or.inl (base64Char_mem _)
    · exact Or.inr rfl
    · exact Or.inr rfl
    · cases h
  | case3 a b =>
    intro c hc
    simp only [base64Encode, List.mem_cons, List.mem_singleton] at hc
    rcases hc with rfl | rfl | rfl | rfl | h
    · exact Or.inl (base64Char_mem _)
    · exact Or.inl (base64Char_mem _)
    · exact Or.inl (base64Char_mem _)
    · exact Or.inr rfl
    · cases h
  | case4 a b c rest ih =>
    intro x hx
    simp only [base64Encode, List.mem_cons] at hx
    rcases hx with rfl | rfl | rfl | rfl | h
    · exact Or.inl (base64Char_mem _)
    · exact Or.inl (base64Char_mem _)
    · exact Or.inl (base64Char_mem _)
    · exact Or.inl (base64Char_mem _)
    · exact ih x h

theorem base64Alphabet_lower :
    ∀ c ∈ base64Alphabet, c ≠ '/' → c ≠ '+' → (c.toLower.isLower || c.toLower.isDigit) = true := by
  decide

/-- The characters that `GenerateSecureUsername` keeps, once lower-cased, are lower-case
letters or digits. -/
theorem stripped_lower (bs : List Nat) (n : Nat) :
    ∀ c ∈ (((base64Encode bs).filter
        (fun ch => !(ch == '/') && !(ch == '+') && !(ch == '='))).take n).map Char.toLower,
      (c.isLower || c.isDigit) = true := by
  intro c hc
  obtain ⟨d, hd, rfl⟩ := List.mem_map.mp hc
  have hd1 := List.mem_of_mem_take hd
  rw [List.mem_filter] at hd1
  obtain ⟨hmem, hkeep⟩ := hd1
  simp only [Bool.and_eq_true, Bool.not_eq_true', beq_eq_false_iff_ne, ne_eq] at hkeep
  rcases base64Encode_mem bs d hmem with h | h
  · exact base64Alphabet_lower d h hkeep.1.1 hkeep.1.2
  · exact absurd h hkeep.2

/-- C18: whenever `GenerateSecureUsername("u", 9)` returns a value, its lower-cased form,
which is the username `generateEnvVars` hands out, is `u` followed by exactly nine
characters, each a lower-case ASCII letter or a digit. -/
theorem generated_username_lowercase_alphanumeric {σ : Type} (w : World σ) (st : St σ) :
    (∀ name st1, GenerateSecureUsername w st "u" 9 = (Except.ok (name, none), st1) →
      ∃ cs : List Char, toLower name = String.mk ('u' :: cs) ∧ cs.length = 9
        ∧ ∀ c ∈ cs, (c.isLower || c.isDigit) = true)
    ∧ (∀ lib dto ev st2, generateEnvVars lib w st dto = (Except.ok ev, st2) → ev.err = none →
      ∃ cs : List Char, ev.username = String.mk ('u' :: cs) ∧ cs.length = 9
        ∧ ∀ c ∈ cs, (c.isLower || c.isDigit) = true) := by
  have hfun : ∀ name st1, GenerateSecureUsername w st "u" 9 = (Except.ok (name, none), st1) →
      ∃ cs : List Char, toLower name = String.mk ('u' :: cs) ∧ cs.length = 9
        ∧ ∀ c ∈ cs, (c.isLower || c.isDigit) = true := by
    intro name st1 h
    unfold GenerateSecureUsername at h
    simp only [perform] at h
    split at h
    · simp at h
    · split at h
      · rename_i hlen
        simp only [Prod.mk.injEq, Except.ok.injEq, and_true] at h
        obtain ⟨hname, _⟩ := h
        refine ⟨(((base64Encode (filledBuffer 9 (w.step st.world (Call.randRead 9)).1)).filter
          (fun ch => !(ch == '/') && !(ch == '+') && !(ch == '='))).take 9).map Char.toLower,
          ?_, ?_, stripped_lower _ 9⟩
        · rw [← hname]
          rfl
        · simp only [List.length_map, List.length_take]
          omega
      · simp at h
  refine ⟨hfun, ?_⟩
  intro lib dto ev st2 hgen hok
  unfold generateEnvVars at hgen
  rcases hu : GenerateSecureUsername w st "u" 9 with ⟨pan | ⟨name, err⟩, st1⟩
  · rw [hu] at hgen
    simp at hgen
  · rw [hu] at hgen
    cases err with
    | some e =>
      simp only [Prod.mk.injEq, Except.ok.injEq] at hgen
      rw [← hgen.1] at hok
      cases hok
    | none =>
      simp only [] at hgen
      obtain ⟨cs, hcs, hlen, hall⟩ := hfun name st1 hu
      refine ⟨cs, ?_, hlen, hall⟩
      rw [← hcs]
      split at hgen
      · simp only [Prod.mk.injEq, Except.ok.injEq] at hgen
        rw [← hgen.1] at hok
        cases hok
      · split at hgen
        · simp only [Prod.mk.injEq, Except.ok.injEq] at hgen
          rw [← hgen.1]
        · simp only [Prod.mk.injEq, Except.ok.injEq] at hgen
          rw [← hgen.1] at hok
          cases hok

/-- Witness for C18: the nine random bytes 1, 2, ..., 9 give `uAQIDBAUGB`, lower-cased to
`uaqidbaugb`. -/
theorem generated_username_lowercase_alphanumeric_witness :
    ∃ cs : List Char, toLower "uAQIDBAUGB" = String.mk ('u' :: cs) ∧ cs.length = 9
      ∧ ∀ c ∈ cs, (c.isLower || c.isDigit) = true :=
  (generated_username_lowercase_alphanumeric scripted
    { world := provisionPrefix, trace := [] }).1 "uAQIDBAUGB" _ rfl

/-- C20: the code at the failing input. Nine random bytes `0xFF` encode to twelve `/`;
nothing is left after the deletions, and the slice `randomPart[:9]` is out of range: the
function panics instead of returning. -/
theorem GenerateSecureUsername_panics :
    base64Encode (filledBuffer 9 allOnes) = "////////////".data
    ∧ ((base64Encode (filledBuffer 9 allOnes)).filter
        (fun ch => !(ch == '/') && !(ch == '+') && !(ch == '='))).length = 0
    ∧ (GenerateSecureUsername scripted { world := [allOnes], trace := [] } "u" 9).1
      = Except.error "slice bounds out of range"
    ∧ (ProvisionDatabase plainCase scripted (some shopProject) (Except.ok ordersRequest)
        [allOnes]).panicked = some "slice bounds out of range" := by
  refine ⟨by decide, by decide, by rfl, by decide⟩

/-! ## Network names under CreateProject and UpdateProject -/

/-- On a bound request, in every world, the one call of `UpdateProject` is the save of the
project of the context with the new name: the id, the network name and every other column
are those the context held. -/
theorem UpdateProject_calls {σ : Type} (lib : Strcase) (w : World σ) (p : Project)
    (dto : CreateProjectDTO) (s : σ) :
    calls (UpdateProject lib w (some p) (Except.ok dto) s).trace
      = [Call.dbSaveProject { p with Name := lib.ToKebab dto.Name }] := by
  cases h : (w.step s (Call.dbSaveProject { p with Name := lib.ToKebab dto.Name })).1.err <;>
    simp [UpdateProject, GetProjectFromContext, perform, h, finish, JsonError, JsonSuccessH,
      done, calls]

/-- On the reference store `CreateProject` leaves the rows alone or adds one row, whose
network name is derived from the requested name. -/
theorem CreateProject_rows (lib : Strcase) (fault : Sim → Call → Option String) (dup : Bool)
    (s : Sim) (dto : CreateProjectDTO) :
    (CreateProject lib (simWorld fault dup) (Except.ok dto) s).world.projects = s.projects
    ∨ ∃ row : Project, row.NetworkName = "net_" ++ lib.ToSnake dto.Name
        ∧ row.Name = lib.ToKebab dto.Name
        ∧ (CreateProject lib (simWorld fault dup) (Except.ok dto) s).world.projects
          = s.projects ++ [row] := by
  cases hf1 : fault s (Call.networkCreate ("net_" ++ lib.ToSnake dto.Name)) with
  | some e =>
    left
    simp [CreateProject, perform, simWorld, newProject, hf1, finish, JsonError, done]
  | none =>
    by_cases hcond : (dup && s.networks.any (fun n => n.2 == "net_" ++ lib.ToSnake dto.Name))
        = true
    · left
      simp [CreateProject, perform, simWorld, newProject, hf1, hcond, finish, JsonError, done]
    · cases hf2 : fault
          { networks := s.networks
              ++ [(freshId (s.networks.map Prod.fst), "net_" ++ lib.ToSnake dto.Name)],
            projects := s.projects }
          (Call.dbCreateProject
            { Name := lib.ToKebab dto.Name,
              NetworkName := "net_" ++ lib.ToSnake dto.Name }) with
      | some e =>
        left
        cases hf3 : fault
            { networks := s.networks
                ++ [(freshId (s.networks.map Prod.fst), "net_" ++ lib.ToSnake dto.Name)],
              projects := s.projects }
            (Call.networkRemove (freshId (s.networks.map Prod.fst))) <;>
          simp [CreateProject, perform, simWorld, newProject, hf1, hcond, hf2, hf3, finish,
            JsonError, done]
      | none =>
        by_cases h2 : ∃ r ∈ s.projects, r.Name = lib.ToKebab dto.Name
            ∨ r.NetworkName = "net_" ++ lib.ToSnake dto.Name
        · left
          cases hf3 : fault
              { networks := s.networks
                  ++ [(freshId (s.networks.map Prod.fst), "net_" ++ lib.ToSnake dto.Name)],
                projects := s.projects }
              (Call.networkRemove (freshId (s.networks.map Prod.fst))) <;>
            simp [CreateProject, perform, simWorld, newProject, hf1, hcond, hf2, hf3, h2, finish,
              JsonError, done]
        · right
          refine ⟨{ (newProject lib dto) with ID := freshId (s.projects.map (fun r => r.ID)) },
            rfl, rfl, ?_⟩
          simp [CreateProject, perform, simWorld, newProject, hf1, hcond, hf2, h2,
            JsonSuccessH, done]

/-- On the reference store `UpdateProject` leaves the networks alone, and leaves the rows
alone or rewrites or adds the row of the project in the context, with the id and the network
name that project had. -/
theorem UpdateProject_rows (lib : Strcase) (fault : Sim → Call → Option String) (dup : Bool)
    (s : Sim) (ctx : Option Project) (dto : CreateProjectDTO) :
    (UpdateProject lib (simWorld fault dup) ctx (Except.ok dto) s).world.networks = s.networks
    ∧ ∀ r ∈ (UpdateProject lib (simWorld fault dup) ctx (Except.ok dto) s).world.projects,
      r ∈ s.projects ∨ ∃ p, ctx = some p ∧ r = { p with Name := lib.ToKebab dto.Name } := by
  cases ctx with
  | none =>
    refine ⟨?_, ?_⟩
    · simp [UpdateProject, GetProjectFromContext, panicWith]
    · intro r hr
      left
      simpa [UpdateProject, GetProjectFromContext, panicWith] using hr
  | some p =>
    cases hf : fault s (Call.dbSaveProject { p with Name := lib.ToKebab dto.Name }) with
    | some e =>
      refine ⟨?_, ?_⟩
      · simp [UpdateProject, GetProjectFromContext, perform, simWorld, hf, finish, JsonError,
          done]
      · intro r hr
        left
        simpa [UpdateProject, GetProjectFromContext, perform, simWorld, hf, finish, JsonError,
          done] using hr
    | none =>
      by_cases h1 : ∃ x ∈ s.projects, ¬x.ID = p.ID
          ∧ (x.Name = lib.ToKebab dto.Name ∨ x.NetworkName = p.NetworkName)
      · refine ⟨?_, ?_⟩
        · simp [UpdateProject, GetProjectFromContext, perform, simWorld, hf, h1, finish,
            JsonError, done]
        · intro r hr
          left
          simpa [UpdateProject, GetProjectFromContext, perform, simWorld, hf, h1, finish,
            JsonError, done] using hr
      · by_cases h2 : ∃ x ∈ s.projects, x.ID = p.ID
        · refine ⟨?_, ?_⟩
          · simp [UpdateProject, GetProjectFromContext, perform, simWorld, hf, h1, h2,
              JsonSuccessH, done]
          · intro r hr
            simp [UpdateProject, GetProjectFromContext, perform, simWorld, hf, h1, h2,
              JsonSuccessH, done] at hr
            obtain ⟨x, hx, hxr⟩ := hr
            split at hxr
            · exact Or.inr ⟨p, rfl, hxr.symm⟩
            · exact Or.inl (hxr ▸ hx)
        · refine ⟨?_, ?_⟩
          · simp [UpdateProject, GetProjectFromContext, perform, simWorld, hf, h1, h2,
              JsonSuccessH, done]
          · intro r hr
            simp [UpdateProject, GetProjectFromContext, perform, simWorld, hf, h1, h2,
              JsonSuccessH, done] at hr
            rcases hr with hr | hr
            · exact Or.inl hr
            · exact Or.inr ⟨p, rfl, hr⟩

/-- On the reference store the middleware leaves the state alone, and a project it puts in
the context is a row of the store. -/
theorem InjectProjectOrFail_sim (parses : String → Bool) (fault : Sim → Call → Option String)
    (dup : Bool) (s : Sim) (key : String) :
    (InjectProjectOrFail parses (simWorld fault dup) { world := s, trace := [] } key).2.world = s
    ∧ ((InjectProjectOrFail parses (simWorld fault dup) { world := s, trace := [] } key).1
        = Except.ok none
      ∨ ∃ p ∈ s.projects,
        (InjectProjectOrFail parses (simWorld fault dup) { world := s, trace := [] } key).1
          = Except.ok (some p)) := by
  cases hp : parses key with
  | true =>
    cases hf : fault s (Call.dbFirstProjectById key) with
    | some e =>
      simp [InjectProjectOrFail, perform, simWorld, hp, hf, JsonError]
    | none =>
      cases hfind : s.projects.find? (fun r => r.ID == key) with
      | none => simp [InjectProjectOrFail, perform, simWorld, hp, hf, hfind, JsonError]
      | some p =>
        refine ⟨?_, Or.inr ⟨p, List.mem_of_find?_eq_some hfind, ?_⟩⟩ <;>
          simp [InjectProjectOrFail, perform, simWorld, hp, hf, hfind]
  | false =>
    cases hf : fault s (Call.dbFirstProjectByName key) with
    | some e =>
      simp [InjectProjectOrFail, perform, simWorld, hp, hf, JsonError]
    | none =>
      cases hfind : s.projects.find? (fun r => r.Name == key) with
      | none => simp [InjectProjectOrFail, perform, simWorld, hp, hf, hfind, JsonError]
      | some p =>
        refine ⟨?_, Or.inr ⟨p, List.mem_of_find?_eq_some hfind, ?_⟩⟩ <;>
          simp [InjectProjectOrFail, perform, simWorld, hp, hf, hfind]

/-- On the reference store a `PUT` of a project leaves the networks alone, and every row it
leaves is a row that was there or the row found by the middleware with the new name: either
way a row of the same id and the same network name was there before. -/
theorem PutProject_rows (lib : Strcase) (parses : String → Bool)
    (fault : Sim → Call → Option String) (dup : Bool) (s : Sim) (key : String)
    (dto : CreateProjectDTO) :
    (PutProject lib parses (simWorld fault dup) key (Except.ok dto) s).world.networks
      = s.networks
    ∧ ∀ r ∈ (PutProject lib parses (simWorld fault dup) key (Except.ok dto) s).world.projects,
      ∃ r0 ∈ s.projects, r0.ID = r.ID ∧ r0.NetworkName = r.NetworkName := by
  obtain ⟨hw, hctx⟩ := InjectProjectOrFail_sim parses fault dup s key
  unfold PutProject
  rcases hinj : InjectProjectOrFail parses (simWorld fault dup) { world := s, trace := [] } key
    with ⟨res, st⟩
  rw [hinj] at hw hctx
  simp only at hw hctx
  subst hw
  rcases hctx with h | ⟨p, hp, h⟩
  · subst h
    exact ⟨rfl, fun r hmem => ⟨r, hmem, rfl, rfl⟩⟩
  · subst h
    simp only []
    obtain ⟨hn, hr⟩ := UpdateProject_rows lib fault dup st.world (some p) dto
    refine ⟨hn, ?_⟩
    intro r hmem
    rcases hr r hmem with h | ⟨q, hq, hrq⟩
    · exact ⟨r, h, rfl, rfl⟩
    · cases hq
      exact ⟨p, hp, by rw [hrq], by rw [hrq]⟩

theorem runOps_network_names (lib : Strcase) (parses : String → Bool)
    (fault : Sim → Call → Option String) (dup : Bool) (ops : List ProjectOp) (s : Sim)
    (N : List String) (hinv : ∀ r ∈ s.projects, r.NetworkName ∈ N) :
    ∀ r ∈ (runOps lib parses (simWorld fault dup) ops s).projects,
      r.NetworkName ∈ N ++ derivedNetworkNames lib ops := by
  induction ops generalizing s N with
  | nil => simpa [runOps, derivedNetworkNames] using hinv
  | cons op ops ih =>
    cases op with
    | create dto =>
      have hstep : ∀ r ∈ (applyOp lib parses (simWorld fault dup) s
          (ProjectOp.create dto)).projects,
          r.NetworkName ∈ N ++ ["net_" ++ lib.ToSnake dto.Name] := by
        intro r hr
        simp only [applyOp] at hr
        rcases CreateProject_rows lib fault dup s dto with h | ⟨row, hn, _, h⟩
        · rw [h] at hr
          exact List.mem_append_left _ (hinv r hr)
        · rw [h] at hr
          rcases List.mem_append.mp hr with h1 | h1
          · exact List.mem_append_left _ (hinv r h1)
          · rw [List.mem_singleton] at h1
            rw [h1, hn]
            simp
      intro r hr
      have := ih _ _ hstep r hr
      simpa [derivedNetworkNames, List.filterMap_cons] using this
    | update key dto =>
      have hstep : ∀ r ∈ (applyOp lib parses (simWorld fault dup) s
          (ProjectOp.update key dto)).projects, r.NetworkName ∈ N := by
        intro r hr
        simp only [applyOp] at hr
        obtain ⟨r0, hr0, _, hn⟩ := (PutProject_rows lib parses fault dup s key dto).2 r hr
        rw [← hn]
        exact hinv r0 hr0
      intro r hr
      have := ih _ _ hstep r hr
      simpa [derivedNetworkNames, List.filterMap_cons] using this

/-- C19 (as amended): on the reference store, where any call may fail, and for every way of
telling ids from names: after any sequence of `CreateProject` and `UpdateProject` requests
from the empty store, every Project row's network name is the one derived (`net_` followed
by the snake-case form) from the name given to a `CreateProject` request of the sequence.
`UpdateProject` leaves the network name as it was: served in any state, it leaves the
networks alone and every row it leaves has the id and the network name of a row that was
there before; and in every world its one call is the save of the project of the context
with the new name and nothing else changed. -/
theorem network_names_come_from_creation (lib : Strcase) (parses : String → Bool)
    (fault : Sim → Call → Option String) (dup : Bool) (ops : List ProjectOp) :
    (∀ r ∈ (runOps lib parses (simWorld fault dup) ops {}).projects,
      ∃ dto, ProjectOp.create dto ∈ ops ∧ r.NetworkName = "net_" ++ lib.ToSnake dto.Name)
    ∧ (∀ (s : Sim) (key : String) (dto : CreateProjectDTO),
      (PutProject lib parses (simWorld fault dup) key (Except.ok dto) s).world.networks
        = s.networks
      ∧ ∀ r ∈ (PutProject lib parses (simWorld fault dup) key (Except.ok dto) s).world.projects,
        ∃ r0 ∈ s.projects, r0.ID = r.ID ∧ r0.NetworkName = r.NetworkName)
    ∧ (∀ (σ : Type) (w : World σ) (p : Project) (dto : CreateProjectDTO) (s : σ),
      calls (UpdateProject lib w (some p) (Except.ok dto) s).trace
        = [Call.dbSaveProject { p with Name := lib.ToKebab dto.Name }]) := by
  refine ⟨?_, fun s key dto => PutProject_rows lib parses fault dup s key dto,
    fun σ w p dto s => UpdateProject_calls lib w p dto s⟩
  intro r hr
  have h := runOps_network_names lib parses fault dup ops {} [] (by intro r hr; cases hr) r hr
  simp only [List.nil_append, derivedNetworkNames, List.mem_filterMap] at h
  obtain ⟨op, hop, hsome⟩ := h
  cases op with
  | create dto =>
    simp only [Option.some.injEq] at hsome
    exact ⟨dto, hop, hsome.symm⟩
  | update key dto => cases hsome

/-- C19 (as stated) fails: after `CreateProject "shop"` and the rename of that project to
`store` through `PUT /projects/shop/`, the one Project row is named `store` and its network
name is still `net_shop`, which is not `net_store`. The path parameter is looked up by name
when it is not a UUID, also when it happens to be the id of another row: after the projects
`a` and `n` are created, `PUT /projects/n/` renames the project named `n`. -/
theorem renamed_project_keeps_network_name :
    (runOps plainCase canonicalUUID (simWorld noFaults false)
        [ProjectOp.create { Name := "shop" }, ProjectOp.update "shop" { Name := "store" }]
        {}).projects
      = [{ ID := "n", Name := "store", NetworkName := "net_shop" }]
    ∧ "net_shop" ≠ "net_" ++ plainCase.ToSnake "store"
    ∧ (runOps plainCase canonicalUUID (simWorld noFaults false)
        [ProjectOp.create { Name := "a" }, ProjectOp.create { Name := "n" },
          ProjectOp.update "n" { Name := "z" }]
        {}).projects
      = [{ ID := "n", Name := "a", NetworkName := "net_a" },
         { ID := "nn", Name := "z", NetworkName := "net_n" }] := by
  decide

/-- Witness for C19 (as amended): the row left by creating `shop` and renaming it to
`store` has the network name derived from `shop`, and the rename left the one network and
the row's id and network name as they were. -/
theorem network_names_come_from_creation_witness :
    (∃ dto, ProjectOp.create dto
        ∈ [ProjectOp.create { Name := "shop" }, ProjectOp.update "shop" { Name := "store" }]
      ∧ "net_shop" = "net_" ++ plainCase.ToSnake dto.Name)
    ∧ (PutProject plainCase canonicalUUID (simWorld noFaults false) "shop"
        (Except.ok { Name := "store" })
        { networks := [("n", "net_shop")],
          projects := [{ ID := "n", Name := "shop", NetworkName := "net_shop" }] }).world.networks
      = [("n", "net_shop")]
    ∧ (∃ r0 ∈ [({ ID := "n", Name := "shop", NetworkName := "net_shop" } : Project)],
        r0.ID = "n" ∧ r0.NetworkName = "net_shop") :=
  have h := network_names_come_from_creation plainCase canonicalUUID noFaults false
    [ProjectOp.create { Name := "shop" }, ProjectOp.update "shop" { Name := "store" }]
  have h2 := h.2.1
    { networks := [("n", "net_shop")],
      projects := [{ ID := "n", Name := "shop", NetworkName := "net_shop" }] }
    "shop" { Name := "store" }
  ⟨h.1 { ID := "n", Name := "store", NetworkName := "net_shop" } (by decide), h2.1,
    h2.2 { ID := "n", Name := "store", NetworkName := "net_shop" } (by decide)⟩

/-! ## Deploy: what each step leaves in the trace -/

/-- The staging step issues three calls: a fresh identifier, the uploads directory, and the
copy of the upload to the path built from both; it returns that path and the error of the
copy. -/
theorem saveUploadedFile_spec {σ : Type} (w : World σ) (st : St σ) (file : String) :
    ∃ o1 o2 o3 : Outcome,
      (saveUploadedFile w st file).1 = (o2.str ++ "/" ++ o1.str ++ ".tar.gz", o3.err)
      ∧ (saveUploadedFile w st file).2.trace = st.trace ++ asEvents
          [(Call.uuidNewString, o1), (Call.getenv "UPLOADS_PATH", o2),
           (Call.saveUploadedFile file (o2.str ++ "/" ++ o1.str ++ ".tar.gz"), o3)] := by
  refine ⟨(perform w st Call.uuidNewString).1,
    (perform w (perform w st Call.uuidNewString).2 (Call.getenv "UPLOADS_PATH")).1,
    (perform w (perform w (perform w st Call.uuidNewString).2 (Call.getenv "UPLOADS_PATH")).2
      (Call.saveUploadedFile file
        ((perform w (perform w st Call.uuidNewString).2 (Call.getenv "UPLOADS_PATH")).1.str
          ++ "/" ++ (perform w st Call.uuidNewString).1.str ++ ".tar.gz"))).1, rfl, ?_⟩
  simp [saveUploadedFile, perform, asEvents]

/-- The extraction step only reads, consults the environment and extracts; a returned path
is empty, next to an error, or the destination of its extraction call. -/
theorem ExtractTarball_spec {σ : Type} (std : Stdlib) (w : World σ) (st : St σ)
    (filePath : String) :
    ∃ evs : List (Call × Outcome),
      (ExtractTarball std w st filePath).2.trace = st.trace ++ asEvents evs
      ∧ (∀ x ∈ evs, isDeployWork x.1 = true)
      ∧ (∀ path err, (ExtractTarball std w st filePath).1 = Except.ok (path, err) →
          (path = "" ∧ err ≠ none)
          ∨ ∃ data o, (Call.extractGz data path, o) ∈ evs ∧ o.err = err) := by
  cases h1 : (w.step st.world (Call.readFile filePath)).1.err with
  | some e =>
    refine ⟨[(Call.readFile filePath, (w.step st.world (Call.readFile filePath)).1)], ?_, ?_, ?_⟩
    · simp [ExtractTarball, perform, h1, asEvents]
    · simp [isDeployWork]
    · intro path err h
      simp [ExtractTarball, perform, h1] at h
      exact Or.inl ⟨h.1.symm, by simp [← h.2]⟩
  | none =>
    by_cases hlen : 7 ≤ (std.Base filePath).length
    · refine ⟨[(Call.readFile filePath, (w.step st.world (Call.readFile filePath)).1),
        (Call.getenv "EXTRACTIONS_PATH",
          (w.step (w.step st.world (Call.readFile filePath)).2
            (Call.getenv "EXTRACTIONS_PATH")).1),
        (Call.extractGz (w.step st.world (Call.readFile filePath)).1.str
          ((w.step (w.step st.world (Call.readFile filePath)).2
            (Call.getenv "EXTRACTIONS_PATH")).1.str ++ "/" ++
            String.mk ((std.Base filePath).data.take ((std.Base filePath).length - 7))),
          (w.step (w.step (w.step st.world (Call.readFile filePath)).2
            (Call.getenv "EXTRACTIONS_PATH")).2
            (Call.extractGz (w.step st.world (Call.readFile filePath)).1.str
              ((w.step (w.step st.world (Call.readFile filePath)).2
                (Call.getenv "EXTRACTIONS_PATH")).1.str ++ "/" ++
                String.mk ((std.Base filePath).data.take
                  ((std.Base filePath).length - 7))))).1)], ?_, ?_, ?_⟩
      · simp [ExtractTarball, perform, h1, hlen, asEvents]
      · simp [isDeployWork]
      · intro path err h
        simp [ExtractTarball, perform, h1, hlen] at h
        refine Or.inr ⟨(w.step st.world (Call.readFile filePath)).1.str, _, ?_, h.2⟩
        rw [← h.1]
        simp
    · refine ⟨[(Call.readFile filePath, (w.step st.world (Call.readFile filePath)).1)],
        ?_, ?_, ?_⟩
      · simp [ExtractTarball, perform, h1, hlen, asEvents]
      · simp [isDeployWork]
      · intro path err h
        simp [ExtractTarball, perform, h1, hlen] at h

/-- The manifest step issues one read and nothing else. -/
theorem readFunctionMetadata_spec {σ : Type} (lib : Strcase) (std : Stdlib) (w : World σ)
    (st : St σ) (path : String) :
    ∃ evs : List (Call × Outcome),
      (readFunctionMetadata lib std w st path).2.trace = st.trace ++ asEvents evs
      ∧ (∀ x ∈ evs, isDeployWork x.1 = true) := by
  refine ⟨[(Call.readFile (std.Join path "package.json"),
    (w.step st.world (Call.readFile (std.Join path "package.json"))).1)], ?_, ?_⟩
  · cases h1 : (w.step st.world (Call.readFile (std.Join path "package.json"))).1.err with
    | some e =>
      simp [readFunctionMetadata, ReadDefinitionFileFromExtractionPath, perform, h1, asEvents]
    | none =>
      rcases h2 : std.Unmarshal
          (w.step st.world (Call.readFile (std.Join path "package.json"))).1.str with e | d
      · simp [readFunctionMetadata, ReadDefinitionFileFromExtractionPath, perform, h1, h2,
          asEvents]
      · cases d <;>
          simp [readFunctionMetadata, ReadDefinitionFileFromExtractionPath, perform, h1, h2,
            asEvents]
  · simp [isDeployWork]

/-- The Dockerfile step only parses and renders a template and writes a file. -/
theorem generateAndWriteDockerfile_spec {σ : Type} (std : Stdlib) (w : World σ) (st : St σ)
    (path : String) (fm : Function) :
    ∃ evs : List (Call × Outcome),
      (generateAndWriteDockerfile std w st path fm).2.trace = st.trace ++ asEvents evs
      ∧ (∀ x ∈ evs, isDeployWork x.1 = true) := by
  by_cases hl : fm.Language = JavaScriptNode
  · generalize hr1 : w.step st.world
      (Call.templateParseFiles "base.tmpl" "templates/dockerfiles/base.tmpl") = r1
    cases h1 : r1.1.err with
    | some e =>
      refine ⟨[(Call.templateParseFiles "base.tmpl" "templates/dockerfiles/base.tmpl", r1.1)],
        ?_, by simp [isDeployWork]⟩
      simp [generateAndWriteDockerfile, GenerateDockerfileContent, perform, hl, hr1, h1,
        asEvents]
    | none =>
      generalize hr2 : w.step r1.2
        (Call.templateExecute "base.tmpl" ["node:18", "node", "entrypoint.js", "npm install"])
        = r2
      cases h2 : r2.1.err with
      | some e =>
        refine ⟨[(Call.templateParseFiles "base.tmpl" "templates/dockerfiles/base.tmpl", r1.1),
          (Call.templateExecute "base.tmpl"
            ["node:18", "node", "entrypoint.js", "npm install"], r2.1)],
          ?_, by simp [isDeployWork]⟩
        simp [generateAndWriteDockerfile, GenerateDockerfileContent, perform, hl, hr1, h1,
          hr2, h2, asEvents]
      | none =>
        refine ⟨[(Call.templateParseFiles "base.tmpl" "templates/dockerfiles/base.tmpl", r1.1),
          (Call.templateExecute "base.tmpl"
            ["node:18", "node", "entrypoint.js", "npm install"], r2.1),
          (Call.writeFile (std.Join path "Dockerfile") r2.1.str,
            (w.step r2.2 (Call.writeFile (std.Join path "Dockerfile") r2.1.str)).1)],
          ?_, by simp [isDeployWork]⟩
        simp [generateAndWriteDockerfile, GenerateDockerfileContent, perform, hl, hr1, h1,
          hr2, h2, asEvents]
  · exact ⟨[], by simp [generateAndWriteDockerfile, GenerateDockerfileContent, hl, asEvents],
      by simp⟩

/-- The entrypoint step only parses and renders a template and writes a file. -/
theorem generateAndWriteEntrypoint_spec {σ : Type} (std : Stdlib) (w : World σ) (st : St σ)
    (path : String) (fm : Function) :
    ∃ evs : List (Call × Outcome),
      (generateAndWriteEntrypoint std w st path fm).2.trace = st.trace ++ asEvents evs
      ∧ (∀ x ∈ evs, isDeployWork x.1 = true) := by
  by_cases hl : fm.Language = JavaScriptNode
  · generalize hr1 : w.step st.world
      (Call.templateParseFiles "entrypoint.js.tmpl"
        (std.Join "templates/entrypoints" "entrypoint.js.tmpl")) = r1
    cases h1 : r1.1.err with
    | some e =>
      refine ⟨[(Call.templateParseFiles "entrypoint.js.tmpl"
        (std.Join "templates/entrypoints" "entrypoint.js.tmpl"), r1.1)],
        ?_, by simp [isDeployWork]⟩
      simp [generateAndWriteEntrypoint, GenerateEntrypointContent, perform, hl, hr1, h1,
        asEvents]
    | none =>
      generalize hr2 : w.step r1.2
        (Call.templateExecute "entrypoint.js.tmpl" [fm.Main]) = r2
      cases h2 : r2.1.err with
      | some e =>
        refine ⟨[(Call.templateParseFiles "entrypoint.js.tmpl"
          (std.Join "templates/entrypoints" "entrypoint.js.tmpl"), r1.1),
          (Call.templateExecute "entrypoint.js.tmpl" [fm.Main], r2.1)],
          ?_, by simp [isDeployWork]⟩
        simp [generateAndWriteEntrypoint, GenerateEntrypointContent, perform, hl, hr1, h1,
          hr2, h2, asEvents]
      | none =>
        refine ⟨[(Call.templateParseFiles "entrypoint.js.tmpl"
          (std.Join "templates/entrypoints" "entrypoint.js.tmpl"), r1.1),
          (Call.templateExecute "entrypoint.js.tmpl" [fm.Main], r2.1),
          (Call.writeFile (std.Join path "entrypoint.js") r2.1.str,
            (w.step r2.2 (Call.writeFile (std.Join path "entrypoint.js") r2.1.str)).1)],
          ?_, by simp [isDeployWork]⟩
        simp [generateAndWriteEntrypoint, GenerateEntrypointContent, perform, hl, hr1, h1,
          hr2, h2, asEvents]
  · exact ⟨[], by simp [generateAndWriteEntrypoint, GenerateEntrypointContent, hl, asEvents],
      by simp⟩

/-- The build step, case by case: it stops at the first of its four calls that fails and
returns that error; the image build is given the extraction directory and the tags of
`getDockerBuildOptions`; the upsert is only issued after a successful image build. -/
theorem buildAndSaveDockerImage_spec {σ : Type} (w : World σ) (st : St σ) (path : String)
    (fm : Function) :
    ∃ o1 : Outcome,
      (∃ e, o1.err = some e
        ∧ (buildAndSaveDockerImage w st path fm).1.2 = some e
        ∧ (buildAndSaveDockerImage w st path fm).2.trace = st.trace ++ asEvents
            [(Call.tarWithOptions path, o1)])
      ∨ (o1.err = none ∧ ∃ o2 : Outcome,
        (∃ e, o2.err = some e
          ∧ (buildAndSaveDockerImage w st path fm).1.2 = some e
          ∧ (buildAndSaveDockerImage w st path fm).2.trace = st.trace ++ asEvents
              [(Call.tarWithOptions path, o1),
               (Call.imageBuild path (getDockerBuildOptions fm), o2)])
        ∨ (o2.err = none ∧ ∃ o3 : Outcome,
          (∃ e, o3.err = some e
            ∧ (buildAndSaveDockerImage w st path fm).1.2 = some e
            ∧ (buildAndSaveDockerImage w st path fm).2.trace = st.trace ++ asEvents
                [(Call.tarWithOptions path, o1),
                 (Call.imageBuild path (getDockerBuildOptions fm), o2),
                 (Call.dbUpsertFunction fm, o3)])
          ∨ (o3.err = none ∧ ∃ o4 : Outcome,
              (buildAndSaveDockerImage w st path fm).1 = (o4.fn, o4.err)
              ∧ (buildAndSaveDockerImage w st path fm).2.trace = st.trace ++ asEvents
                  [(Call.tarWithOptions path, o1),
                   (Call.imageBuild path (getDockerBuildOptions fm), o2),
                   (Call.dbUpsertFunction fm, o3),
                   (Call.dbReadFunction o3.fn, o4)]))) := by
  generalize hr1 : w.step st.world (Call.tarWithOptions path) = r1
  refine ⟨r1.1, ?_⟩
  cases h1 : r1.1.err with
  | some e =>
    refine Or.inl ⟨e, rfl, ?_, ?_⟩ <;>
      simp [buildAndSaveDockerImage, perform, hr1, h1, asEvents]
  | none =>
    generalize hr2 : w.step r1.2 (Call.imageBuild path (getDockerBuildOptions fm)) = r2
    refine Or.inr ⟨rfl, r2.1, ?_⟩
    cases h2 : r2.1.err with
    | some e =>
      refine Or.inl ⟨e, rfl, ?_, ?_⟩ <;>
        simp [buildAndSaveDockerImage, perform, hr1, h1, hr2, h2, asEvents]
    | none =>
      generalize hr3 : w.step r2.2 (Call.dbUpsertFunction fm) = r3
      refine Or.inr ⟨rfl, r3.1, ?_⟩
      cases h3 : r3.1.err with
      | some e =>
        refine Or.inl ⟨e, rfl, ?_, ?_⟩ <;>
          simp [buildAndSaveDockerImage, saveMetadataToDB, perform, hr1, h1, hr2, h2, hr3, h3,
            asEvents]
      | none =>
        refine Or.inr ⟨rfl, (w.step r3.2 (Call.dbReadFunction r3.1.fn)).1, ?_, ?_⟩ <;>
          simp [buildAndSaveDockerImage, saveMetadataToDB, perform, hr1, h1, hr2, h2, hr3, h3,
            asEvents]

/-- The cleanup issues both removals, whatever the first one returns. -/
theorem cleanUpDeploy_spec {σ : Type} (w : World σ) (st : St σ) (X Y : String) :
    ∃ oa ob : Outcome, (cleanUpDeploy w st X Y).trace
      = st.trace ++ [Event.call (Call.removeAll X) oa, Event.call (Call.remove Y) ob] := by
  exact ⟨(w.step st.world (Call.removeAll X)).1,
    (w.step (w.step st.world (Call.removeAll X)).2 (Call.remove Y)).1,
    by simp [cleanUpDeploy, perform]⟩

/-- A failure branch from the extract step on: the error reply, then both removals, and a
normal return. -/
theorem failAndCleanUp_spec {σ : Type} (w : World σ) (st : St σ) (code : Nat)
    (e help X Y : String) :
    ∃ oa ob : Outcome, (failAndCleanUp w st code e help X Y).trace
        = st.trace ++ [Event.reply (Reply.error code e help),
            Event.call (Call.removeAll X) oa, Event.call (Call.remove Y) ob]
      ∧ (failAndCleanUp w st code e help X Y).panicked = none := by
  exact ⟨(w.step st.world (Call.removeAll X)).1,
    (w.step (w.step st.world (Call.removeAll X)).2 (Call.remove Y)).1,
    by simp [failAndCleanUp, JsonError, cleanUpDeploy, perform, done],
    by simp [failAndCleanUp, JsonError, done]⟩
/-- The shape of every run of `DeployFunction` on a received upload. The upload is staged
by three calls; if the copy fails the handler replies 400 and returns. Otherwise the steps
up to the build only read, extract, render and write, and the run ends in one of three ways:
a panic, an error reply followed by the two removals, or the build step followed by the
error reply and the two removals or by the two removals and the success reply. -/
theorem DeployFunction_shape {σ : Type} (lib : Strcase) (std : Stdlib) (w : World σ)
    (ctx : Option Project) (file : String) (s : σ) :
    ∃ (o1 o2 o3 : Outcome) (dst : String) (work pre : List (Call × Outcome)),
      dst = o2.str ++ "/" ++ o1.str ++ ".tar.gz"
      ∧ (saveUploadedFile w { world := s, trace := [] } file).1 = (dst, o3.err)
      ∧ (∀ x ∈ work, isDeployWork x.1 = true)
      ∧ pre = [(Call.uuidNewString, o1), (Call.getenv "UPLOADS_PATH", o2),
          (Call.saveUploadedFile file dst, o3)] ++ work
      ∧ ((∃ e, o3.err = some e ∧ work = []
          ∧ (DeployFunction lib std w ctx (Except.ok file) s).panicked = none
          ∧ (DeployFunction lib std w ctx (Except.ok file) s).trace = asEvents pre
              ++ [Event.reply (Reply.error 400 e "unable to save the uploaded file")])
        ∨ (o3.err = none
          ∧ (DeployFunction lib std w ctx (Except.ok file) s).panicked ≠ none
          ∧ (DeployFunction lib std w ctx (Except.ok file) s).trace = asEvents pre)
        ∨ (o3.err = none ∧ ∃ (code : Nat) (e help X : String) (oa ob : Outcome),
          help ≠ "failed to build the image"
          ∧ (DeployFunction lib std w ctx (Except.ok file) s).panicked = none
          ∧ ((∃ err, (ExtractTarball std w
                (saveUploadedFile w { world := s, trace := [] } file).2 dst).1
                = Except.ok (X, err))
            ∧ (X = "" ∨ ∃ data o, (Call.extractGz data X, o) ∈ work))
          ∧ (DeployFunction lib std w ctx (Except.ok file) s).trace = asEvents pre
              ++ [Event.reply (Reply.error code e help),
                  Event.call (Call.removeAll X) oa, Event.call (Call.remove dst) ob])
        ∨ (o3.err = none ∧ ∃ (st5 : St σ) (X : String) (fm : Function) (oa ob : Outcome),
          st5.trace = asEvents pre
          ∧ ((ExtractTarball std w
                (saveUploadedFile w { world := s, trace := [] } file).2 dst).1
                = Except.ok (X, none)
            ∧ ∃ data o, (Call.extractGz data X, o) ∈ work ∧ o.err = none)
          ∧ (DeployFunction lib std w ctx (Except.ok file) s).panicked = none
          ∧ ((∃ e, (buildAndSaveDockerImage w st5 X fm).1.2 = some e
              ∧ (DeployFunction lib std w ctx (Except.ok file) s).trace
                = (buildAndSaveDockerImage w st5 X fm).2.trace
                  ++ [Event.reply (Reply.error 400 e "failed to build the image"),
                      Event.call (Call.removeAll X) oa, Event.call (Call.remove dst) ob])
            ∨ ((buildAndSaveDockerImage w st5 X fm).1.2 = none
              ∧ (DeployFunction lib std w ctx (Except.ok file) s).trace
                = (buildAndSaveDockerImage w st5 X fm).2.trace
                  ++ [Event.call (Call.removeAll X) oa, Event.call (Call.remove dst) ob,
                      Event.reply (Reply.success 200 "function deployed successfully"
                        (Data.metadata (buildAndSaveDockerImage w st5 X fm).1.1))])))) := by
  obtain ⟨o1, o2, o3, hres, htr⟩ := saveUploadedFile_spec w { world := s, trace := [] } file
  simp only [List.nil_append] at htr
  unfold DeployFunction
  simp only []
  rcases hsave : saveUploadedFile w { world := s, trace := [] } file with ⟨⟨dst, e3⟩, st1⟩
  rw [hsave] at hres htr
  simp only [Prod.mk.injEq] at hres htr
  obtain ⟨hdst, he3⟩ := hres
  cases e3 with
  | some e =>
    refine ⟨o1, o2, o3, dst, [], _, hdst, by simp [he3], by simp, rfl,
      Or.inl ⟨e, he3.symm, rfl, ?_, ?_⟩⟩
    · simp [finish, JsonError, done]
    · simp [finish, JsonError, done, htr, hdst]
  | none =>
    simp only []
    obtain ⟨ev2, htr2, hw2, hX2⟩ := ExtractTarball_spec std w st1 dst
    rcases hext : ExtractTarball std w st1 dst with ⟨r2, st2⟩
    rw [hext] at htr2 hX2
    simp only at htr2 hX2
    have hst2 : st2.trace = asEvents ([(Call.uuidNewString, o1),
        (Call.getenv "UPLOADS_PATH", o2), (Call.saveUploadedFile file dst, o3)] ++ ev2) := by
      rw [htr2, htr, ← asEvents_append, hdst]
    rcases r2 with pan | ⟨X, err2⟩
    · refine ⟨o1, o2, o3, dst, ev2, _, hdst, by simp [he3], hw2, rfl,
        Or.inr (Or.inl ⟨he3.symm, ?_, ?_⟩)⟩
      · simp [panicWith]
      · simp [panicWith, hst2]
    · have hX : (X = "" ∧ err2 ≠ none)
          ∨ ∃ data o, (Call.extractGz data X, o) ∈ ev2 ∧ o.err = err2 := hX2 X err2 rfl
      have hExt : (ExtractTarball std w st1 dst).1 = Except.ok (X, err2) := by
        rw [hext]
      cases err2 with
      | some e =>
        simp only []
        obtain ⟨oa, ob, hf, hp⟩ := failAndCleanUp_spec w st2 400 e
          "unable to extract the function code" X dst
        refine ⟨o1, o2, o3, dst, ev2, _, hdst, by simp [he3], hw2, rfl,
          Or.inr (Or.inr (Or.inl ⟨he3.symm, 400, e, "unable to extract the function code", X,
            oa, ob, by decide, hp, ⟨⟨_, hExt⟩, ?_⟩, ?_⟩))⟩
        · rcases hX with h | ⟨data, o, h, _⟩
          · exact Or.inl h.1
          · exact Or.inr ⟨data, o, h⟩
        · rw [hf, hst2]
      | none =>
        simp only []
        have hXok : ∃ data o, (Call.extractGz data X, o) ∈ ev2 ∧ o.err = none := by
          rcases hX with h | h
          · exact absurd rfl h.2
          · exact h
        obtain ⟨ev3, htr3, hw3⟩ := readFunctionMetadata_spec lib std w st2 X
        rcases hread : readFunctionMetadata lib std w st2 X with ⟨r3, st3⟩
        rw [hread] at htr3
        simp only at htr3
        have hw23 : ∀ x ∈ ev2 ++ ev3, isDeployWork x.1 = true := by
          intro x hx
          rcases List.mem_append.mp hx with hx | hx
          · exact hw2 x hx
          · exact hw3 x hx
        have hst3 : st3.trace = asEvents ([(Call.uuidNewString, o1),
            (Call.getenv "UPLOADS_PATH", o2), (Call.saveUploadedFile file dst, o3)]
            ++ (ev2 ++ ev3)) := by
          rw [htr3, hst2, ← asEvents_append, List.append_assoc]
        have hX23 : ∃ data o, (Call.extractGz data X, o) ∈ ev2 ++ ev3 := by
          obtain ⟨data, o, h, _⟩ := hXok
          exact ⟨data, o, List.mem_append.mpr (Or.inl h)⟩
        rcases r3 with pan | ⟨fm0, err3⟩
        · refine ⟨o1, o2, o3, dst, ev2 ++ ev3, _, hdst, by simp [he3], hw23, rfl,
            Or.inr (Or.inl ⟨he3.symm, ?_, ?_⟩)⟩
          · simp [panicWith]
          · simp [panicWith, hst3]
        · cases err3 with
          | some e =>
            simp only []
            obtain ⟨oa, ob, hf, hp⟩ := failAndCleanUp_spec w st3 400 e
              "failed to read the definition file" X dst
            refine ⟨o1, o2, o3, dst, ev2 ++ ev3, _, hdst, by simp [he3], hw23, rfl,
              Or.inr (Or.inr (Or.inl ⟨he3.symm, 400, e, "failed to read the definition file",
                X, oa, ob, by decide, hp, ⟨⟨_, hExt⟩, Or.inr hX23⟩, ?_⟩))⟩
            rw [hf, hst3]
          | none =>
            simp only []
            rcases hfill : fillFunctionMetadata ctx fm0 with pan | ⟨fm, err4⟩
            · refine ⟨o1, o2, o3, dst, ev2 ++ ev3, _, hdst, by simp [he3], hw23, rfl,
                Or.inr (Or.inl ⟨he3.symm, ?_, ?_⟩)⟩
              · simp [panicWith]
              · simp [panicWith, hst3]
            · cases err4 with
              | some e =>
                simp only []
                obtain ⟨oa, ob, hf, hp⟩ := failAndCleanUp_spec w st3 500 e
                  "failed to fill function metadata" X dst
                refine ⟨o1, o2, o3, dst, ev2 ++ ev3, _, hdst, by simp [he3], hw23, rfl,
                  Or.inr (Or.inr (Or.inl ⟨he3.symm, 500, e,
                    "failed to fill function metadata", X, oa, ob, by decide, hp,
                    ⟨⟨_, hExt⟩, Or.inr hX23⟩, ?_⟩))⟩
                rw [hf, hst3]
              | none =>
                simp only []
                obtain ⟨ev4, htr4, hw4⟩ := generateAndWriteDockerfile_spec std w st3 X fm
                rcases hdock : generateAndWriteDockerfile std w st3 X fm with ⟨err5, st4⟩
                rw [hdock] at htr4
                simp only at htr4
                have hw234 : ∀ x ∈ ev2 ++ ev3 ++ ev4, isDeployWork x.1 = true := by
                  intro x hx
                  rcases List.mem_append.mp hx with hx | hx
                  · exact hw23 x hx
                  · exact hw4 x hx
                have hst4 : st4.trace = asEvents ([(Call.uuidNewString, o1),
                    (Call.getenv "UPLOADS_PATH", o2), (Call.saveUploadedFile file dst, o3)]
                    ++ (ev2 ++ ev3 ++ ev4)) := by
                  rw [htr4, hst3, ← asEvents_append, List.append_assoc]
                have hX234 : ∃ data o, (Call.extractGz data X, o) ∈ ev2 ++ ev3 ++ ev4 := by
                  obtain ⟨data, o, h⟩ := hX23
                  exact ⟨data, o, List.mem_append.mpr (Or.inl h)⟩
                cases err5 with
                | some e =>
                  simp only []
                  obtain ⟨oa, ob, hf, hp⟩ := failAndCleanUp_spec w st4 400 e
                    "failed to generate/write the dockerfile" X dst
                  refine ⟨o1, o2, o3, dst, ev2 ++ ev3 ++ ev4, _, hdst, by simp [he3], hw234,
                    rfl, Or.inr (Or.inr (Or.inl ⟨he3.symm, 400, e,
                      "failed to generate/write the dockerfile", X, oa, ob, by decide, hp,
                      ⟨⟨_, hExt⟩, Or.inr hX234⟩, ?_⟩))⟩
                  rw [hf, hst4]
                | none =>
                  simp only []
                  obtain ⟨ev5, htr5, hw5⟩ := generateAndWriteEntrypoint_spec std w st4 X fm
                  rcases hentry : generateAndWriteEntrypoint std w st4 X fm with ⟨err6, st5⟩
                  rw [hentry] at htr5
                  simp only at htr5
                  have hw2345 : ∀ x ∈ ev2 ++ ev3 ++ ev4 ++ ev5, isDeployWork x.1 = true := by
                    intro x hx
                    rcases List.mem_append.mp hx with hx | hx
                    · exact hw234 x hx
                    · exact hw5 x hx
                  have hst5 : st5.trace = asEvents ([(Call.uuidNewString, o1),
                      (Call.getenv "UPLOADS_PATH", o2),
                      (Call.saveUploadedFile file dst, o3)]
                      ++ (ev2 ++ ev3 ++ ev4 ++ ev5)) := by
                    rw [htr5, hst4, ← asEvents_append, List.append_assoc]
                  have hX2345 : ∃ data o,
                      (Call.extractGz data X, o) ∈ ev2 ++ ev3 ++ ev4 ++ ev5 := by
                    obtain ⟨data, o, h⟩ := hX234
                    exact ⟨data, o, List.mem_append.mpr (Or.inl h)⟩
                  cases err6 with
                  | some e =>
                    simp only []
                    obtain ⟨oa, ob, hf, hp⟩ := failAndCleanUp_spec w st5 400 e
                      "failed to generate/write the entrypoint" X dst
                    refine ⟨o1, o2, o3, dst, ev2 ++ ev3 ++ ev4 ++ ev5, _, hdst, by simp [he3],
                      hw2345, rfl, Or.inr (Or.inr (Or.inl ⟨he3.symm, 400, e,
                        "failed to generate/write the entrypoint", X, oa, ob, by decide, hp,
                        ⟨⟨_, hExt⟩, Or.inr hX2345⟩, ?_⟩))⟩
                    rw [hf, hst5]
                  | none =>
                    simp only []
                    have hXfin : ∃ data o,
                        (Call.extractGz data X, o) ∈ ev2 ++ ev3 ++ ev4 ++ ev5
                        ∧ o.err = none := by
                      obtain ⟨data, o, h, ho⟩ := hXok
                      exact ⟨data, o, by simp [h], ho⟩
                    rcases hbuild : buildAndSaveDockerImage w st5 X fm with
                      ⟨⟨saved, err7⟩, st6⟩
                    cases err7 with
                    | some e =>
                      simp only []
                      obtain ⟨oa, ob, hf, hp⟩ := failAndCleanUp_spec w st6 400 e
                        "failed to build the image" X dst
                      refine ⟨o1, o2, o3, dst, ev2 ++ ev3 ++ ev4 ++ ev5, _, hdst,
                        by simp [he3], hw2345, rfl, Or.inr (Or.inr (Or.inr ⟨he3.symm, st5, X,
                          fm, oa, ob, hst5, ⟨hExt, hXfin⟩, hp, Or.inl ⟨e, ?_, ?_⟩⟩))⟩
                      · rw [hbuild]
                      · rw [hbuild, hf]
                    | none =>
                      simp only []
                      obtain ⟨oa, ob, hc⟩ := cleanUpDeploy_spec w st6 X dst
                      refine ⟨o1, o2, o3, dst, ev2 ++ ev3 ++ ev4 ++ ev5, _, hdst,
                        by simp [he3], hw2345, rfl, Or.inr (Or.inr (Or.inr ⟨he3.symm, st5, X,
                          fm, oa, ob, hst5, ⟨hExt, hXfin⟩, ?_, Or.inr ⟨?_, ?_⟩⟩))⟩
                      · simp [done]
                      · rw [hbuild]
                      · rw [hbuild]
                        simp [done, JsonSuccessH, hc]

/-- The calls up to the build are neither build-stage calls nor cleanup calls. -/
theorem deploy_pre_calls (file dst : String) (o1 o2 o3 : Outcome)
    (work : List (Call × Outcome)) (hw : ∀ x ∈ work, isDeployWork x.1 = true) :
    ∀ x ∈ [(Call.uuidNewString, o1), (Call.getenv "UPLOADS_PATH", o2),
        (Call.saveUploadedFile file dst, o3)] ++ work,
      isBuildStage x.1 = false ∧ isCleanup x.1 = false := by
  intro x hx
  rcases List.mem_append.mp hx with hx | hx
  · simp at hx
    rcases hx with rfl | rfl | rfl <;> simp [isBuildStage, isCleanup]
  · have h := hw x hx
    rcases x with ⟨c, o⟩
    cases c <;> simp_all [isDeployWork, isBuildStage, isCleanup]

/-- C14: when the image build call of the container runtime fails with `e` in a run of
`DeployFunction`, no upsert of a Function row is issued anywhere in the run, and the run
returns normally and ends with: the packaging of the build context, the failed image build,
the reply 400 with `e`, then the removal of the extraction directory (the destination of the
successful extraction, which is the build context) and the removal of the staged upload (the
destination of the successful copy of the upload). Both removals are issued before the
handler returns; a failure of a removal itself is only logged. -/
theorem DeployFunction_image_build_failure {σ : Type} (lib : Strcase) (std : Stdlib)
    (w : World σ) (ctx : Option Project) (file : String) (s : σ) (dir : String)
    (tags : List String) (o : Outcome) (e : String)
    (hev : Event.call (Call.imageBuild dir tags) o
      ∈ (DeployFunction lib std w ctx (Except.ok file) s).trace)
    (herr : o.err = some e) :
    (∀ row, Call.dbUpsertFunction row
        ∉ calls (DeployFunction lib std w ctx (Except.ok file) s).trace)
      ∧ (DeployFunction lib std w ctx (Except.ok file) s).panicked = none
      ∧ ∃ (pre : List (Call × Outcome)) (dst : String) (ot oa ob : Outcome),
        (∃ os, (Call.saveUploadedFile file dst, os) ∈ pre ∧ os.err = none)
        ∧ (∃ data ox, (Call.extractGz data dir, ox) ∈ pre ∧ ox.err = none)
        ∧ (DeployFunction lib std w ctx (Except.ok file) s).trace = asEvents pre
          ++ [Event.call (Call.tarWithOptions dir) ot,
              Event.call (Call.imageBuild dir tags) o,
              Event.reply (Reply.error 400 e "failed to build the image"),
              Event.call (Call.removeAll dir) oa, Event.call (Call.remove dst) ob] := by
  obtain ⟨o1, o2, o3, dst, work, pre, hdst, hsv, hw, hpre, hcase⟩ :=
    DeployFunction_shape lib std w ctx file s
  have hprec := deploy_pre_calls file dst o1 o2 o3 work hw
  rw [← hpre] at hprec
  have hnotpre : (Call.imageBuild dir tags, o) ∉ pre := by
    intro h
    have h1 := (hprec _ h).1
    simp [isBuildStage] at h1
  have hmain : (DeployFunction lib std w ctx (Except.ok file) s).panicked = none
      ∧ ∃ (ot oa ob : Outcome),
        (∃ data ox, (Call.extractGz data dir, ox) ∈ pre ∧ ox.err = none)
        ∧ o3.err = none
        ∧ (DeployFunction lib std w ctx (Except.ok file) s).trace = asEvents pre
          ++ [Event.call (Call.tarWithOptions dir) ot,
              Event.call (Call.imageBuild dir tags) o,
              Event.reply (Reply.error 400 e "failed to build the image"),
              Event.call (Call.removeAll dir) oa, Event.call (Call.remove dst) ob] := by
    rcases hcase with ⟨e1, _, _, hp, ht⟩ | ⟨_, hp, ht⟩
      | ⟨_, code, e1, help, X, oa, ob, _, hp, _, ht⟩
      | ⟨ho3, st5, X, fm, oa, ob, hst5, ⟨_, hX⟩, hp, hb⟩
    · rw [ht] at hev
      simp [mem_asEvents, hnotpre] at hev
    · rw [ht] at hev
      simp [mem_asEvents, hnotpre] at hev
    · rw [ht] at hev
      simp [mem_asEvents, hnotpre] at hev
    · refine ⟨hp, ?_⟩
      obtain ⟨b1, hbs⟩ := buildAndSaveDockerImage_spec w st5 X fm
      rcases hbs with ⟨e1, h1, hr, htb⟩ | ⟨h1, b2, ⟨e2, h2, hr, htb⟩
        | ⟨h2, b3, ⟨e3, h3, hr, htb⟩ | ⟨h3, b4, hr, htb⟩⟩⟩
      · exfalso
        rcases hb with ⟨e0, hre, ht⟩ | ⟨hre, ht⟩ <;>
        rw [ht, htb, hst5] at hev <;>
        simp [mem_asEvents, hnotpre] at hev
      · rcases hb with ⟨e0, hre, ht⟩ | ⟨hre, ht⟩
        · rw [hr] at hre
          cases hre
          rw [ht, htb, hst5] at hev ⊢
          simp [mem_asEvents, hnotpre] at hev
          obtain ⟨⟨rfl, rfl⟩, rfl⟩ := hev
          rw [herr] at h2
          cases h2
          obtain ⟨data, ox, hmem, hox⟩ := hX
          refine ⟨b1, oa, ob, ⟨data, ox, ?_, hox⟩, ho3, ?_⟩
          · rw [hpre]
            exact List.mem_append.mpr (Or.inr hmem)
          · simp [asEvents]
        · rw [hr] at hre
          cases hre
      · exfalso
        rcases hb with ⟨e0, hre, ht⟩ | ⟨hre, ht⟩ <;>
        rw [ht, htb, hst5] at hev <;>
        simp [mem_asEvents, hnotpre] at hev <;>
        rw [hr] at hre <;>
        (try casesm* _ ∨ _, _ ∧ _) <;>
        subst_vars <;>
        simp_all
      · exfalso
        rcases hb with ⟨e0, hre, ht⟩ | ⟨hre, ht⟩ <;>
        rw [ht, htb, hst5] at hev <;>
        simp [mem_asEvents, hnotpre] at hev <;>
        rw [hr] at hre <;>
        (try casesm* _ ∨ _, _ ∧ _) <;>
        subst_vars <;>
        simp_all
  obtain ⟨hp, ot, oa, ob, hX, ho3, ht⟩ := hmain
  refine ⟨?_, hp, pre, dst, ot, oa, ob, ⟨o3, ?_, ho3⟩, hX, ht⟩
  · intro row hrow
    rw [ht, calls_append, calls_asEvents] at hrow
    rcases List.mem_append.mp hrow with h | h
    · obtain ⟨x, hx, hxe⟩ := List.mem_map.mp h
      have h1 := (hprec x hx).1
      rw [hxe] at h1
      simp [isBuildStage] at h1
    · simp [calls] at h
  · rw [hpre]
    simp

/-- Witness for C14: the deploy of `hello` in which the image build fails with
`no space left on device`. -/
theorem DeployFunction_image_build_failure_witness :
    (∀ row, Call.dbUpsertFunction row
        ∉ calls (DeployFunction plainCase plainStd scripted (some shopProject)
          (Except.ok "upload-1")
          (deployPrefix ++ [noError, failWith "no space left on device"])).trace)
      ∧ (DeployFunction plainCase plainStd scripted (some shopProject) (Except.ok "upload-1")
          (deployPrefix ++ [noError, failWith "no space left on device"])).panicked = none
      ∧ ∃ (pre : List (Call × Outcome)) (dst : String) (ot oa ob : Outcome),
        (∃ os, (Call.saveUploadedFile "upload-1" dst, os) ∈ pre ∧ os.err = none)
        ∧ (∃ data ox, (Call.extractGz data "/extractions/f1", ox) ∈ pre ∧ ox.err = none)
        ∧ (DeployFunction plainCase plainStd scripted (some shopProject)
            (Except.ok "upload-1")
            (deployPrefix ++ [noError, failWith "no space left on device"])).trace
          = asEvents pre
            ++ [Event.call (Call.tarWithOptions "/extractions/f1") ot,
              Event.call (Call.imageBuild "/extractions/f1" ["hello:1.0.0", "hello:latest"])
                (failWith "no space left on device"),
              Event.reply (Reply.error 400 "no space left on device"
                "failed to build the image"),
              Event.call (Call.removeAll "/extractions/f1") oa,
              Event.call (Call.remove dst) ob] :=
  DeployFunction_image_build_failure plainCase plainStd scripted (some shopProject)
    "upload-1" (deployPrefix ++ [noError, failWith "no space left on device"])
    "/extractions/f1" ["hello:1.0.0", "hello:latest"] (failWith "no space left on device")
    "no space left on device" (by decide) rfl

/-- C15 (as amended): when a call of the build step of `DeployFunction` fails with `e`, be
it the packaging of the build context, the image build of the container runtime, the upsert
of the Function row or its re-read, the run returns normally with exactly one reply: status
400, the error `e` and the hint `failed to build the image`. -/
theorem DeployFunction_build_or_persist_failure_is_400 {σ : Type} (lib : Strcase)
    (std : Stdlib) (w : World σ) (ctx : Option Project) (file : String) (s : σ)
    (c : Call) (o : Outcome) (e : String) (hc : isBuildStage c = true)
    (hev : Event.call c o ∈ (DeployFunction lib std w ctx (Except.ok file) s).trace)
    (herr : o.err = some e) :
    replies (DeployFunction lib std w ctx (Except.ok file) s).trace
        = [Reply.error 400 e "failed to build the image"]
      ∧ (DeployFunction lib std w ctx (Except.ok file) s).panicked = none := by
  obtain ⟨o1, o2, o3, dst, work, pre, hdst, hsv, hw, hpre, hcase⟩ :=
    DeployFunction_shape lib std w ctx file s
  have hprec := deploy_pre_calls file dst o1 o2 o3 work hw
  rw [← hpre] at hprec
  have hnotpre : (c, o) ∉ pre := by
    intro h
    have h1 := (hprec _ h).1
    simp [hc] at h1
  rcases hcase with ⟨e1, _, _, hp, ht⟩ | ⟨_, hp, ht⟩
    | ⟨_, code, e1, help, X, oa, ob, _, hp, _, ht⟩ | ⟨_, st5, X, fm, oa, ob, hst5, _, hp, hb⟩
  · rw [ht] at hev
    simp [mem_asEvents, hnotpre] at hev
  · rw [ht] at hev
    simp [mem_asEvents, hnotpre] at hev
  · rw [ht] at hev
    simp only [List.mem_append, mem_asEvents, hnotpre, false_or, List.mem_cons,
      List.mem_singleton, List.not_mem_nil, or_false] at hev
    rcases hev with h | h | h
    · cases h
    · cases h
      simp [isBuildStage] at hc
    · cases h
      simp [isBuildStage] at hc
  · refine ⟨?_, hp⟩
    obtain ⟨b1, hbs⟩ := buildAndSaveDockerImage_spec w st5 X fm
    rcases hbs with ⟨e1, h1, hr, htb⟩ | ⟨h1, b2, ⟨e2, h2, hr, htb⟩
      | ⟨h2, b3, ⟨e3, h3, hr, htb⟩ | ⟨h3, b4, hr, htb⟩⟩⟩
    all_goals
      rcases hb with ⟨e0, hre, ht⟩ | ⟨hre, ht⟩ <;>
      rw [ht, htb, hst5] at hev ⊢ <;>
      simp [mem_asEvents, hnotpre] at hev <;>
      rw [hr] at hre <;>
      (casesm* _ ∨ _, _ ∧ _) <;>
      subst_vars <;>
      simp_all [isBuildStage, asEvents, replies]

/-- Witness for C15 (as amended): the deploy of `hello` in which the image is built and the
upsert of the row fails with `connection refused`. -/
theorem DeployFunction_build_or_persist_failure_is_400_witness :
    replies (DeployFunction plainCase plainStd scripted (some shopProject)
        (Except.ok "upload-1")
        (deployPrefix ++ [noError, noError, failWith "connection refused"])).trace
        = [Reply.error 400 "connection refused" "failed to build the image"]
      ∧ (DeployFunction plainCase plainStd scripted (some shopProject) (Except.ok "upload-1")
        (deployPrefix ++ [noError, noError, failWith "connection refused"])).panicked
        = none :=
  DeployFunction_build_or_persist_failure_is_400 plainCase plainStd scripted
    (some shopProject) "upload-1"
    (deployPrefix ++ [noError, noError, failWith "connection refused"])
    (Call.dbUpsertFunction
      { Name := "hello", Description := "greets", FunctionId := "hello", Version := "1.0.0",
        ProjectId := "p1", Language := "node-js", Main := "index.js" })
    (failWith "connection refused") "connection refused" rfl (by decide) rfl

/-- C15 (as stated) fails: a failed image build and a failed upsert of the Function row are
both answered with status 400, not 500, and with the same hint. -/
theorem DeployFunction_build_and_persist_failures_reply_400 :
    replies (DeployFunction plainCase plainStd scripted (some shopProject)
        (Except.ok "upload-1")
        (deployPrefix ++ [noError, failWith "no space left on device"])).trace
      = [Reply.error 400 "no space left on device" "failed to build the image"]
    ∧ replies (DeployFunction plainCase plainStd scripted (some shopProject)
        (Except.ok "upload-1")
        (deployPrefix ++ [noError, noError, failWith "connection refused"])).trace
      = [Reply.error 400 "connection refused" "failed to build the image"] := by
  decide

/-! ## Build tags and execution image -/

/-- The functions `createAndStartContainer` always begins with the token and the creation of
a container from the image `FunctionId:imageVersion` of the entity it was given, on the
network of that entity; whatever follows is a start or an inspection. -/
theorem functions_createAndStartContainer_calls {σ : Type} (lib : Strcase) (w : World σ)
    (st : St σ) (p : Project) (fe : Function) (imageVersion : String) :
    ∃ (o1 o2 : Outcome) (rest : List (Call × Outcome)),
      (functions.createAndStartContainer lib w st (some p) fe imageVersion).2.trace
        = st.trace ++ asEvents ([(Call.cuidNew, o1),
            (Call.fnContainerCreate (fe.FunctionId ++ ":" ++ imageVersion)
              (generateEnvironmentVariables lib (p.Functions.map Function.fields) "FUNC"
                ++ generateEnvironmentVariables lib (p.Databases.map Database.fields) "DB")
              fe.ProjectNetworkName ("func_" ++ o1.str), o2)] ++ rest)
      ∧ (∀ x ∈ rest, (∃ id, x.1 = Call.containerStart id)
          ∨ (∃ id, x.1 = Call.containerInspect id)) := by
  generalize henv : generateEnvironmentVariables lib (p.Functions.map Function.fields) "FUNC"
    ++ generateEnvironmentVariables lib (p.Databases.map Database.fields) "DB" = envs
  generalize hs1 : w.step st.world Call.cuidNew = r1
  generalize hs2 : w.step r1.2 (Call.fnContainerCreate (fe.FunctionId ++ ":" ++ imageVersion)
    envs fe.ProjectNetworkName ("func_" ++ r1.1.str)) = r2
  cases h2 : r2.1.err with
  | some e =>
    refine ⟨r1.1, r2.1, [], ?_, by simp⟩
    simp [functions.createAndStartContainer, GetProjectFromContext, createContainer, perform,
      henv, hs1, hs2, h2, asEvents]
  | none =>
    generalize hs3 : w.step r2.2 (Call.containerStart r2.1.str) = r3
    cases h3 : r3.1.err with
    | some e =>
      refine ⟨r1.1, r2.1, [(Call.containerStart r2.1.str, r3.1)], ?_, by simp⟩
      simp [functions.createAndStartContainer, GetProjectFromContext, createContainer,
        perform, henv, hs1, hs2, hs3, h2, h3, asEvents]
    | none =>
      generalize hs4 : w.step r3.2 (Call.containerInspect r2.1.str) = r4
      refine ⟨r1.1, r2.1, [(Call.containerStart r2.1.str, r3.1),
        (Call.containerInspect r2.1.str, r4.1)], ?_, by simp⟩
      cases h4 : r4.1.err with
      | some e =>
        simp [functions.createAndStartContainer, GetProjectFromContext, createContainer,
          fetchContainerDynamicPort, perform, henv, hs1, hs2, hs3, hs4, h2, h3, h4, asEvents]
      | none =>
        cases h5 : r4.1.list <;>
          simp [functions.createAndStartContainer, GetProjectFromContext, createContainer,
            fetchContainerDynamicPort, perform, henv, hs1, hs2, hs3, hs4, h2, h3, h4, h5,
            asEvents]

/-- Every run of `ExecuteFunction` whose lookup finds a row creates a container, once, and
creates it from the image `FunctionId:hint`: the trace begins with the lookup, the token and
the container creation from that image on the network of the row, and no other container
creation follows. `FunctionId` is that of the row found and the hint is what
`getImageVersion` makes of the version header. -/
theorem ExecuteFunction_creates_container {σ : Type} (lib : Strcase) (w : World σ) (s : σ)
    (p : Project) (funcId hdr : String)
    (hlk : (w.step s (Call.dbFirstFunction funcId p.ID)).1.err = none) :
    ∃ (o1 o2 : Outcome) (post : List Event),
      (ExecuteFunction lib w (some p) funcId hdr s).trace
        = [Event.call (Call.dbFirstFunction funcId p.ID)
              (w.step s (Call.dbFirstFunction funcId p.ID)).1,
            Event.call Call.cuidNew o1,
            Event.call (Call.fnContainerCreate
              ((w.step s (Call.dbFirstFunction funcId p.ID)).1.fn.FunctionId ++ ":"
                ++ getImageVersion hdr)
              (generateEnvironmentVariables lib (p.Functions.map Function.fields) "FUNC"
                ++ generateEnvironmentVariables lib (p.Databases.map Database.fields) "DB")
              (w.step s (Call.dbFirstFunction funcId p.ID)).1.fn.ProjectNetworkName
              ("func_" ++ o1.str)) o2] ++ post
      ∧ ∀ i e n m, Call.fnContainerCreate i e n m ∉ calls post := by
  unfold ExecuteFunction
  simp only [GetFunctionFromContextParams, GetProjectFromContext, Bool.not_true,
    Bool.false_eq_true, if_false]
  generalize hr0 : perform w { world := s, trace := [] } (Call.dbFirstFunction funcId p.ID) = r0
  have hr0t : r0.2.trace = asEvents [(Call.dbFirstFunction funcId p.ID, r0.1)] := by
    rw [← hr0]
    simp [perform, asEvents]
  have hr01 : (w.step s (Call.dbFirstFunction funcId p.ID)).1 = r0.1 := by
    rw [← hr0]
    rfl
  rw [hr01] at hlk ⊢
  simp only [hlk]
  obtain ⟨o1, o2, rest, hc1, hrest⟩ :=
    functions_createAndStartContainer_calls lib w r0.2 p r0.1.fn (getImageVersion hdr)
  have fin : ∀ (T : List Event) (X : List (Call × Outcome)) (tail : List Event),
      T = r0.2.trace ++ asEvents ([(Call.cuidNew, o1),
            (Call.fnContainerCreate (r0.1.fn.FunctionId ++ ":" ++ getImageVersion hdr)
              (generateEnvironmentVariables lib (p.Functions.map Function.fields) "FUNC"
                ++ generateEnvironmentVariables lib (p.Databases.map Database.fields) "DB")
              r0.1.fn.ProjectNetworkName ("func_" ++ o1.str), o2)] ++ rest)
          ++ asEvents X ++ tail →
      (∀ x ∈ X, ∀ i e n m, x.1 ≠ Call.fnContainerCreate i e n m) →
      calls tail = [] →
      ∃ (o1 o2 : Outcome) (post : List Event),
        T = [Event.call (Call.dbFirstFunction funcId p.ID) r0.1,
            Event.call Call.cuidNew o1,
            Event.call (Call.fnContainerCreate
              (r0.1.fn.FunctionId ++ ":" ++ getImageVersion hdr)
              (generateEnvironmentVariables lib (p.Functions.map Function.fields) "FUNC"
                ++ generateEnvironmentVariables lib (p.Databases.map Database.fields) "DB")
              r0.1.fn.ProjectNetworkName ("func_" ++ o1.str)) o2] ++ post
        ∧ ∀ i e n m, Call.fnContainerCreate i e n m ∉ calls post := by
    intro T X tail hT hX htail
    refine ⟨o1, o2, asEvents rest ++ asEvents X ++ tail, ?_, ?_⟩
    · rw [hT, hr0t]
      simp [asEvents]
    · intro i e n m hmem
      simp only [calls_append, calls_asEvents, htail, List.append_nil, List.mem_append,
        List.mem_map] at hmem
      rcases hmem with ⟨x, hx, hxe⟩ | ⟨x, hx, hxe⟩
      · rcases hrest x hx with ⟨id, h⟩ | ⟨id, h⟩ <;> (rw [h] at hxe; cases hxe)
      · exact hX x hx i e n m hxe
  rcases hcas : functions.createAndStartContainer lib w r0.2 (some p) r0.1.fn
    (getImageVersion hdr) with ⟨pan | ⟨cid, port, err⟩, st2⟩
  · rw [hcas] at hc1
    simp only at hc1
    exact fin _ [] [] (by simp [panicWith, hc1, asEvents]) (by simp) rfl
  · rw [hcas] at hc1
    simp only at hc1
    cases err with
    | some e =>
      simp only []
      exact fin _ [] [Event.reply (Reply.error 500 e "failed to create/start container")]
        (by simp [finish, JsonError, done, hc1, asEvents]) (by simp) rfl
    | none =>
      simp only []
      obtain ⟨pes, hp1, hp2⟩ := pollLoop_spec w ("http://localhost:" ++ port ++ "/health")
        retryIntervals st2
      have hpes : ∀ x ∈ pes, ∀ i e n m, x.1 ≠ Call.fnContainerCreate i e n m := by
        intro x hx i e n m h
        rcases hp2 x hx with ⟨_, h1⟩ | h1 <;> (rw [h1] at h; cases h)
      rcases hpoll : pollContainerHealthCheck w st2 port with ⟨healthy, st3⟩
      have hst3 : st3.trace = st2.trace ++ asEvents pes := by
        have : st3 = (pollLoop w ("http://localhost:" ++ port ++ "/health")
            retryIntervals st2).2 := by
          simp [pollContainerHealthCheck] at hpoll
          rw [hpoll]
        rw [this, hp1]
      cases healthy with
      | false =>
        simp only [Bool.not_false, if_true]
        exact fin _ pes [] (by simp [finish, JsonError, panicWith, hst3, hc1]) hpes rfl
      | true =>
        simp only [Bool.not_true, Bool.false_eq_true, if_false, forwardRequestToContainer]
        generalize hr4 : perform w st3 (Call.httpForward ("http://localhost:" ++ port)) = r4
        have hr4t : r4.2.trace = st3.trace
            ++ [Event.call (Call.httpForward ("http://localhost:" ++ port)) r4.1] := by
          rw [← hr4]
          rfl
        have hpes2 : ∀ x ∈ pes ++ [(Call.httpForward ("http://localhost:" ++ port), r4.1)],
            ∀ i e n m, x.1 ≠ Call.fnContainerCreate i e n m := by
          intro x hx i e n m h
          rcases List.mem_append.mp hx with hx | hx
          · exact hpes x hx i e n m h
          · simp at hx
            rw [hx] at h
            cases h
        cases h4 : r4.1.err with
        | some e =>
          simp only []
          exact fin _ _ [Event.reply (Reply.error 500 e
              "failed to forward request to container")]
            (by simp [finish, JsonError, done, hr4t, hst3, hc1, asEvents]) hpes2 rfl
        | none =>
          simp only []
          exact fin _ _ [Event.spawnStopAndRemove cid,
              Event.reply (Reply.proxied r4.1.num r4.1.str)]
            (by simp [done, sendContainerResponse, cleanupContainer, hr4t, hst3, hc1,
              asEvents]) hpes2 rfl

/-- Every image build issued by a run of `DeployFunction` carries the tags of
`getDockerBuildOptions` for one Function value, and an upsert issued in the same run
persists that same value. -/
theorem DeployFunction_build_tags {σ : Type} (lib : Strcase) (std : Stdlib) (w : World σ)
    (ctx : Option Project) (file : String) (s : σ) (dir : String) (tags : List String)
    (hb : Call.imageBuild dir tags
      ∈ calls (DeployFunction lib std w ctx (Except.ok file) s).trace) :
    ∃ fm : Function, tags = getDockerBuildOptions fm
      ∧ ∀ row, Call.dbUpsertFunction row
          ∈ calls (DeployFunction lib std w ctx (Except.ok file) s).trace → row = fm := by
  obtain ⟨o1, o2, o3, dst, work, pre, hdst, hsv, hw, hpre, hcase⟩ :=
    DeployFunction_shape lib std w ctx file s
  have hprec := deploy_pre_calls file dst o1 o2 o3 work hw
  rw [← hpre] at hprec
  have hnotpre : ∀ c, isBuildStage c = true → c ∉ pre.map Prod.fst := by
    intro c hc h
    obtain ⟨x, hx, rfl⟩ := List.mem_map.mp h
    have h1 := (hprec x hx).1
    rw [hc] at h1
    cases h1
  have key : ∀ (c : Call) (tail : List Event), isBuildStage c = true →
      c ∈ calls (asEvents pre ++ tail) → c ∈ calls tail := by
    intro c tail hc h
    rw [calls_append, calls_asEvents] at h
    rcases List.mem_append.mp h with h | h
    · exact absurd h (hnotpre c hc)
    · exact h
  rcases hcase with ⟨e1, _, _, _, ht⟩ | ⟨_, _, ht⟩
    | ⟨_, code, e1, help, X, oa, ob, _, _, _, ht⟩ | ⟨_, st5, X, fm, oa, ob, hst5, _, _, hb5⟩
  · rw [ht] at hb
    have h := key (Call.imageBuild dir tags) _ rfl hb
    simp [calls] at h
  · rw [ht, ← List.append_nil (asEvents pre)] at hb
    have h := key (Call.imageBuild dir tags) _ rfl hb
    simp [calls] at h
  · rw [ht] at hb
    have h := key (Call.imageBuild dir tags) _ rfl hb
    simp [calls] at h
  · refine ⟨fm, ?_, ?_⟩
    · obtain ⟨b1, hbs⟩ := buildAndSaveDockerImage_spec w st5 X fm
      rcases hbs with ⟨e1, h1, hr, htb⟩ | ⟨h1, b2, ⟨e2, h2, hr, htb⟩
        | ⟨h2, b3, ⟨e3, h3, hr, htb⟩ | ⟨h3, b4, hr, htb⟩⟩⟩ <;>
      rcases hb5 with ⟨e0, hre, ht⟩ | ⟨hre, ht⟩ <;>
      rw [ht, htb, hst5, List.append_assoc] at hb <;>
      have h := key (Call.imageBuild dir tags) _ rfl hb <;>
      simp [calls, asEvents] at h <;>
      exact h.2
    · intro row hrow
      obtain ⟨b1, hbs⟩ := buildAndSaveDockerImage_spec w st5 X fm
      rcases hbs with ⟨e1, h1, hr, htb⟩ | ⟨h1, b2, ⟨e2, h2, hr, htb⟩
        | ⟨h2, b3, ⟨e3, h3, hr, htb⟩ | ⟨h3, b4, hr, htb⟩⟩⟩ <;>
      rcases hb5 with ⟨e0, hre, ht⟩ | ⟨hre, ht⟩ <;>
      rw [ht, htb, hst5, List.append_assoc] at hrow <;>
      have h := key (Call.dbUpsertFunction row) _ rfl hrow <;>
      simp [calls, asEvents] at h <;>
      exact h

/-- A run of `DeployFunction` that issues the upsert of a Function value has built the image
before, successfully, with the tags of `getDockerBuildOptions` for that value. -/
theorem DeployFunction_builds_what_it_persists {σ : Type} (lib : Strcase) (std : Stdlib)
    (w : World σ) (ctx : Option Project) (file : String) (s : σ) (f : Function)
    (hup : Call.dbUpsertFunction f
      ∈ calls (DeployFunction lib std w ctx (Except.ok file) s).trace) :
    ∃ (dir : String) (ob : Outcome),
      Event.call (Call.imageBuild dir (getDockerBuildOptions f)) ob
        ∈ (DeployFunction lib std w ctx (Except.ok file) s).trace
      ∧ ob.err = none := by
  obtain ⟨o1, o2, o3, dst, work, pre, hdst, hsv, hw, hpre, hcase⟩ :=
    DeployFunction_shape lib std w ctx file s
  have hprec := deploy_pre_calls file dst o1 o2 o3 work hw
  rw [← hpre] at hprec
  have key : ∀ (tail : List Event),
      Call.dbUpsertFunction f ∈ calls (asEvents pre ++ tail) →
      Call.dbUpsertFunction f ∈ calls tail := by
    intro tail h
    rw [calls_append, calls_asEvents] at h
    rcases List.mem_append.mp h with h | h
    · obtain ⟨x, hx, hxe⟩ := List.mem_map.mp h
      have h1 := (hprec x hx).1
      rw [hxe] at h1
      cases h1
    · exact h
  rcases hcase with ⟨e1, _, _, _, ht⟩ | ⟨_, _, ht⟩
    | ⟨_, code, e1, help, X, oa, ob, _, _, _, ht⟩ | ⟨_, st5, X, fm, oa, ob, hst5, _, _, hb5⟩
  · rw [ht] at hup
    have h := key _ hup
    simp [calls] at h
  · rw [ht, ← List.append_nil (asEvents pre)] at hup
    have h := key _ hup
    simp [calls] at h
  · rw [ht] at hup
    have h := key _ hup
    simp [calls] at h
  · obtain ⟨b1, hbs⟩ := buildAndSaveDockerImage_spec w st5 X fm
    rcases hbs with ⟨e1, h1, hr, htb⟩ | ⟨h1, b2, ⟨e2, h2, hr, htb⟩
      | ⟨h2, b3, ⟨e3, h3, hr, htb⟩ | ⟨h3, b4, hr, htb⟩⟩⟩ <;>
    rcases hb5 with ⟨e0, hre, ht⟩ | ⟨hre, ht⟩ <;>
    rw [ht, htb, hst5, List.append_assoc] at hup ⊢ <;>
    have h := key _ hup <;>
    simp [calls, asEvents] at h <;>
    subst h <;>
    exact ⟨X, b2, by simp [asEvents], h2⟩

/-- C21: build tags and execution image agree. Take a run of `DeployFunction` that persists
the Function value `f` (it issues the upsert of `f`), and a run of `ExecuteFunction` whose
lookup finds a row with the slug of `f`. Then the deploy run did build the image, and every
image build it issued carried exactly the two tags `FunctionId:Version` and
`FunctionId:latest` of `f`, in that order. The execution run did create a container, and
every container creation it issued named the image `FunctionId:hint`, where the hint is the
value of the `x-image-version` header as `Header.Get` returns it (the empty string when the
header is absent), or `latest` when that value is empty. Hence the execution image is the
second build tag when no hint is given and the first build tag when the hint equals the
version of `f`. -/
theorem build_tags_and_execution_image_agree {σ τ : Type} (lib : Strcase) (std : Stdlib)
    (w : World σ) (ctx : Option Project) (file : String) (s : σ)
    (w2 : World τ) (p : Project) (funcId hdr : String) (s2 : τ) (f : Function)
    (hup : Call.dbUpsertFunction f
      ∈ calls (DeployFunction lib std w ctx (Except.ok file) s).trace)
    (hlk : (w2.step s2 (Call.dbFirstFunction funcId p.ID)).1.err = none)
    (hid : (w2.step s2 (Call.dbFirstFunction funcId p.ID)).1.fn.FunctionId = f.FunctionId) :
    ∃ (dir : String) (ob : Outcome) (image : String) (envs : List String)
      (net name : String) (oc : Outcome),
      Event.call (Call.imageBuild dir
          [f.FunctionId ++ ":" ++ f.Version, f.FunctionId ++ ":latest"]) ob
        ∈ (DeployFunction lib std w ctx (Except.ok file) s).trace
      ∧ ob.err = none
      ∧ (∀ dir1 tags, Call.imageBuild dir1 tags
          ∈ calls (DeployFunction lib std w ctx (Except.ok file) s).trace →
          tags = [f.FunctionId ++ ":" ++ f.Version, f.FunctionId ++ ":latest"])
      ∧ image = f.FunctionId ++ ":" ++ (if hdr = "" then "latest" else hdr)
      ∧ Event.call (Call.fnContainerCreate image envs net name) oc
        ∈ (ExecuteFunction lib w2 (some p) funcId hdr s2).trace
      ∧ (∀ i e n m, Call.fnContainerCreate i e n m
          ∈ calls (ExecuteFunction lib w2 (some p) funcId hdr s2).trace → i = image)
      ∧ (hdr = "" → image = f.FunctionId ++ ":latest")
      ∧ ((if hdr = "" then "latest" else hdr) = f.Version →
          image = f.FunctionId ++ ":" ++ f.Version) := by
  obtain ⟨dir, ob, hbuild, hob⟩ :=
    DeployFunction_builds_what_it_persists lib std w ctx file s f hup
  obtain ⟨o1, o2, post, htr, hpost⟩ :=
    ExecuteFunction_creates_container lib w2 s2 p funcId hdr hlk
  rw [hid] at htr
  refine ⟨dir, ob, f.FunctionId ++ ":" ++ getImageVersion hdr,
    generateEnvironmentVariables lib (p.Functions.map Function.fields) "FUNC"
      ++ generateEnvironmentVariables lib (p.Databases.map Database.fields) "DB",
    (w2.step s2 (Call.dbFirstFunction funcId p.ID)).1.fn.ProjectNetworkName,
    "func_" ++ o1.str, o2, hbuild, hob, ?_, rfl, ?_, ?_, ?_, ?_⟩
  · intro dir1 tags hmem
    obtain ⟨fm, htags, hrow⟩ := DeployFunction_build_tags lib std w ctx file s dir1 tags hmem
    rw [htags, hrow f hup]
    rfl
  · rw [htr]
    simp
  · intro i e n m hmem
    rw [htr] at hmem
    simp only [calls_append, List.mem_append] at hmem
    rcases hmem with h | h
    · simp [calls] at h
      exact h.1
    · exact absurd h (hpost i e n m)
  · intro h
    rw [h]
    simp [getImageVersion, String.append_assoc]
  · intro h
    show f.FunctionId ++ ":" ++ (if hdr = "" then "latest" else hdr) = _
    rw [h]

/-- Witness for C21: the deploy of `hello` version `1.0.0` persists its row after building
with the tags `hello:1.0.0` and `hello:latest`; the execution of `hello` with the hint
`1.0.0` creates the container from `hello:1.0.0`, and the execution without a hint creates
it from `hello:latest`. -/
theorem build_tags_and_execution_image_agree_witness :
    (∃ (dir : String) (ob : Outcome) (envs : List String) (net name : String) (oc : Outcome),
      Event.call (Call.imageBuild dir ["hello:1.0.0", "hello:latest"]) ob
        ∈ (DeployFunction plainCase plainStd scripted (some shopProject)
            (Except.ok "upload-1")
            (deployPrefix ++ [noError, noError, { fn := helloFunction },
              { fn := helloFunction }])).trace
      ∧ Event.call (Call.fnContainerCreate "hello:1.0.0" envs net name) oc
        ∈ (ExecuteFunction plainCase scripted (some shopProject) "hello" "1.0.0"
            healthyPrefix).trace)
    ∧ (∃ (envs : List String) (net name : String) (oc : Outcome),
      Event.call (Call.fnContainerCreate "hello:latest" envs net name) oc
        ∈ (ExecuteFunction plainCase scripted (some shopProject) "hello" ""
            healthyPrefix).trace) := by
  obtain ⟨dir, ob, image, envs, net, name, oc, h1, _, _, h4, h5, _, _, h8⟩ :=
    build_tags_and_execution_image_agree plainCase plainStd scripted (some shopProject)
      "upload-1"
      (deployPrefix ++ [noError, noError, { fn := helloFunction }, { fn := helloFunction }])
      scripted shopProject "hello" "1.0.0" healthyPrefix
      { Name := "hello", Description := "greets", FunctionId := "hello", Version := "1.0.0",
        ProjectId := "p1", Language := "node-js", Main := "index.js" }
      (by decide) rfl rfl
  obtain ⟨_, _, image0, envs0, net0, name0, oc0, _, _, _, _, k5, _, k7, _⟩ :=
    build_tags_and_execution_image_agree plainCase plainStd scripted (some shopProject)
      "upload-1"
      (deployPrefix ++ [noError, noError, { fn := helloFunction }, { fn := helloFunction }])
      scripted shopProject "hello" "" healthyPrefix
      { Name := "hello", Description := "greets", FunctionId := "hello", Version := "1.0.0",
        ProjectId := "p1", Language := "node-js", Main := "index.js" }
      (by decide) rfl rfl
  have hi : image = "hello:1.0.0" := h8 rfl
  have hi0 : image0 = "hello:latest" := k7 rfl
  subst hi
  subst hi0
  exact ⟨⟨dir, ob, envs, net, name, oc, h1, h5⟩, ⟨envs0, net0, name0, oc0, k5⟩⟩

end StackBlox
